/-
  Verification of the external-library reconciliation / sync engine
  (src/lib/plexSync.ts, src/lib/plex.ts `extractExternalIds`, and the
  scheduled run driver) against the natural-language specification.

  The TypeScript code is shallowly embedded: the Prisma-backed database is an
  explicit record of row lists, every external collaborator (Plex media-server
  client, Trakt metadata client, TMDB poster resolver, credential decryption,
  and the persistence layer's ability to fail a SyncLog insert) is a field of
  an `Env` record, and each async function of the source becomes a pure state
  transformer.  JavaScript-specific semantics that the source relies on are
  modeled explicitly: number truthiness (`0` and `NaN` are falsy), string
  truthiness (`""` is falsy), `||` defaulting, `parseInt` digit-prefix
  parsing, and the Prisma behaviour that an `undefined` filter value inside
  an `OR` clause matches every row.  Wall-clock durations are not modeled;
  the current time is passed in as an epoch-milliseconds parameter `now`.
-/
import Mathlib

namespace EpisodeTracker

/-! ## JavaScript-semantics helpers -/

/-- JS `o || d` for an optional string: `null`/`undefined` and the empty
string are falsy, so both fall back to the default. -/
def jsOrString (o : Option String) (d : String) : String :=
  match o with
  | some s => if s = "" then d else s
  | none => d

/-- JS `s ? f(s) : null` for an optional string (e.g. `first_aired ? new
Date(first_aired) : null`): the empty string is falsy and maps to `null`.
The `Date` value is modeled by the raw provider string. -/
def jsStringOrNull (o : Option String) : Option String :=
  match o with
  | some s => if s = "" then none else some s
  | none => none

/-- JS truthiness of a `number | undefined` field: `undefined`, `0` (and
`NaN`, which is modeled as `none`) are falsy. -/
def jsTruthy (o : Option Nat) : Bool :=
  match o with
  | some n => n != 0
  | none => false

/-- Prefix test on character lists (structural, so that proofs can evaluate
it). -/
def listIsPrefixOf : List Char → List Char → Bool
  | [], _ => true
  | _ :: _, [] => false
  | p :: ps, c :: cs => p == c && listIsPrefixOf ps cs

/-- JS `String.prototype.startsWith`. -/
def strStartsWith (s pat : String) : Bool :=
  listIsPrefixOf pat.data s.data

def strContainsAux (pat : List Char) : List Char → Bool
  | [] => listIsPrefixOf pat []
  | c :: cs => listIsPrefixOf pat (c :: cs) || strContainsAux pat cs

/-- JS `String.prototype.includes`. -/
def strContains (s pat : String) : Bool :=
  strContainsAux pat.data s.data

/-- Maximal leading digit run of a character list. -/
def digitPrefixChars (l : List Char) : List Char :=
  l.takeWhile fun c => c.isDigit

/-- Decimal value of a digit run. -/
def charsToNat (l : List Char) : Nat :=
  l.foldl (fun a c => a * 10 + (c.toNat - 48)) 0

/-- JS `parseInt` as used on provider-id suffixes: parse the maximal leading
digit run; `none` models the `NaN` result when no leading digit exists. -/
def jsParseInt (s : String) : Option Nat :=
  let d := digitPrefixChars s.data
  if d.isEmpty then none else some (charsToNat d)

def regexNatAfterAux (pat : List Char) : List Char → Option Nat
  | [] => none
  | c :: cs =>
    if listIsPrefixOf pat (c :: cs) then
      let d := digitPrefixChars ((c :: cs).drop pat.length)
      if d.isEmpty then regexNatAfterAux pat cs else some (charsToNat d)
    else regexNatAfterAux pat cs

/-- The regex `/<pat>(\d+)/` for a literal `pat`: the captured digits at the
leftmost occurrence of `pat` that is immediately followed by a digit. -/
def regexNatAfter (s pat : String) : Option Nat :=
  regexNatAfterAux pat.data s.data

def regexImdbAfterAux : List Char → Option String
  | [] => none
  | c :: cs =>
    if listIsPrefixOf "imdb://".data (c :: cs) then
      let rest := (c :: cs).drop 7
      if listIsPrefixOf "tt".data rest then
        let d := digitPrefixChars (rest.drop 2)
        if d.isEmpty then regexImdbAfterAux cs else some (String.mk ("tt".data ++ d))
      else regexImdbAfterAux cs
    else regexImdbAfterAux cs

/-- The regex `/imdb:\/\/(tt\d+)/`: the `tt`-prefixed digit run at the
leftmost occurrence of `imdb://` that is immediately followed by `tt<digit>`. -/
def regexImdbAfter (s : String) : Option String :=
  regexImdbAfterAux s.data

/-- JS `String.prototype.toLowerCase` (ASCII, as the titles compared here
use). -/
def jsToLower (s : String) : String :=
  String.mk (s.data.map fun c => c.toLower)

def dedupFirstAux (seen : List String) : List String → List String
  | [] => []
  | x :: xs =>
    if seen.contains x then dedupFirstAux seen xs
    else x :: dedupFirstAux (seen ++ [x]) xs

/-- Keys of a JS `Map` built by insertion: first-occurrence order, no
duplicates. -/
def dedupFirst (l : List String) : List String :=
  dedupFirstAux [] l

/-- Bool test that an `Except` is `ok`. -/
def exceptOkB {ε α : Type} : Except ε α → Bool
  | .ok _ => true
  | .error _ => false

instance {ε α : Type} [DecidableEq ε] [DecidableEq α] : DecidableEq (Except ε α) :=
  fun a b =>
    match a, b with
    | .ok x, .ok y =>
      if h : x = y then isTrue (by rw [h]) else isFalse (by intro hc; cases hc; exact h rfl)
    | .error x, .error y =>
      if h : x = y then isTrue (by rw [h]) else isFalse (by intro hc; cases hc; exact h rfl)
    | .ok _, .error _ => isFalse (by intro hc; cases hc)
    | .error _, .ok _ => isFalse (by intro hc; cases hc)

/-! ## Data extracted from the media server (src/lib/plex.ts interfaces) -/

/-- One element of the Plex `Guid` array (new external-id format). -/
structure GuidEntry where
  id : String
deriving DecidableEq, Repr

/-- A watched episode reported by the media server.  Only the fields the
sync engine reads are modeled (`grandparentTitle`, `parentIndex`, `index`,
`lastViewedAt`, `guid`, `guids`); presentation fields are dropped. -/
structure PlexEpisode where
  grandparentTitle : String
  parentIndex : Int
  index : Int
  lastViewedAt : Option Nat
  guid : String
  guids : List GuidEntry
deriving DecidableEq, Repr

/-- A TV library on the media server (only the fields the sync engine
reads). -/
structure PlexLibrary where
  key : String
  title : String
deriving DecidableEq, Repr

/-- External ids extracted from a Plex guid (`extractExternalIds` result). -/
structure ExternalIds where
  tmdb : Option Nat := none
  tvdb : Option Nat := none
  imdb : Option String := none
deriving DecidableEq, Repr

/-! ## Data returned by the metadata provider (Trakt client results) -/

structure TraktIds where
  trakt : Nat
  tmdb : Option Nat
deriving DecidableEq, Repr

/-- Canonical show metadata as returned by the Trakt client. -/
structure TraktShow where
  ids : TraktIds
  title : String
  overview : Option String
  status : Option String
  genres : Option (List String)
  network : Option String
  runtime : Option Nat
  first_aired : Option String
deriving DecidableEq, Repr

/-- One result of `traktAPI.searchShows` (the source field is `show`, a
Lean keyword). -/
structure SearchResult where
  «show» : TraktShow
deriving DecidableEq, Repr

/-- One season as returned by `traktAPI.getShowSeasons`; `traktId` models
`seasonData.ids?.trakt`. -/
structure TraktSeasonData where
  number : Int
  traktId : Option Nat
  title : Option String
  overview : Option String
  first_aired : Option String
deriving DecidableEq, Repr

/-- One episode as returned by `traktAPI.getSeasonEpisodes`; `traktId`
models `traktEpisode.ids?.trakt`. -/
structure TraktEpisodeData where
  number : Int
  traktId : Option Nat
  title : Option String
  overview : Option String
  first_aired : Option String
  runtime : Option Nat
deriving DecidableEq, Repr

/-! ## Database rows (Prisma models used by the sync engine) -/

structure IntegrationRow where
  id : Nat
  userId : String
  provider : String
  enabled : Bool
  autoSync : Bool
  accessToken : String
  serverUrl : String
  lastSync : Option Nat
deriving DecidableEq, Repr

structure ShowRow where
  id : Nat
  traktId : Nat
  title : String
  overview : String
  poster : Option String
  status : String
  genres : List String
  network : String
  runtime : Nat
  firstAired : Option String
deriving DecidableEq, Repr

structure SeasonRow where
  id : Nat
  showId : Nat
  seasonNumber : Int
  traktId : Option Nat
  title : Option String
  overview : Option String
  airDate : Option String
  episodeCount : Nat
deriving DecidableEq, Repr

structure EpisodeRow where
  id : Nat
  seasonId : Nat
  episodeNumber : Int
  traktId : Option Nat
  title : String
  overview : Option String
  airDate : Option String
  runtime : Option Nat
deriving DecidableEq, Repr

structure UserShowRow where
  userId : String
  showId : Nat
  status : String
  rating : Option Nat
deriving DecidableEq, Repr

structure UserEpisodeRow where
  userId : String
  episodeId : Nat
  watched : Bool
  watchedAt : Nat
deriving DecidableEq, Repr

/-- One SyncRun audit record (the `syncLog` table).  Wall-clock duration is
not modeled. -/
structure SyncLogRow where
  userId : String
  provider : String
  status : String
  showsSynced : Nat
  episodesSynced : Nat
  errors : Option (List String)
deriving DecidableEq, Repr

/-- The database.  Row ids are drawn from the `nextId` counter. -/
structure Db where
  integrations : List IntegrationRow
  shows : List ShowRow
  seasons : List SeasonRow
  episodes : List EpisodeRow
  userShows : List UserShowRow
  userEpisodes : List UserEpisodeRow
  syncLogs : List SyncLogRow
  nextId : Nat
deriving DecidableEq, Repr

/-- External collaborators.  `Except`-valued fields model calls whose thrown
errors the sync engine observes; `logCreate row = some msg` models a
persistence failure (thrown with message `msg`) of a SyncLog insert. -/
structure Env where
  decryptToken : String → Except String String
  getTVLibraries : String → String → Except String (List PlexLibrary)
  getWatchedEpisodes : String → String → String → Except String (List PlexEpisode)
  getShowByTMDBId : Nat → Except String (Option TraktShow)
  getShowByTVDBId : Nat → Except String (Option TraktShow)
  searchShows : String → Except String (List SearchResult)
  getShowSeasons : Nat → Except String (List TraktSeasonData)
  getSeasonEpisodes : Nat → Int → Except String (List TraktEpisodeData)
  getTMDBPosterUrl : Nat → Except String (Option String)
  logCreate : SyncLogRow → Option String

/-- Result of one orchestration run (wall-clock `duration` not modeled). -/
structure SyncResult where
  showsSynced : Nat
  episodesSynced : Nat
  errors : List String
deriving DecidableEq, Repr

/-- The seasons list a successful `getShowSeasons` call returns (empty on
error; used only where success is hypothesized). -/
def sdataOf (env : Env) (traktShowId : Nat) : List TraktSeasonData :=
  match env.getShowSeasons traktShowId with
  | .ok l => l
  | .error _ => []

/-- The episodes list a successful `getSeasonEpisodes` call returns (empty
on error; used only where success is hypothesized). -/
def epsOf (env : Env) (traktShowId : Nat) (n : Int) : List TraktEpisodeData :=
  match env.getSeasonEpisodes traktShowId n with
  | .ok l => l
  | .error _ => []

/-! ## `plexAPI.extractExternalIds` (src/lib/plex.ts lines 721-754) -/

/-- One iteration of the new-format `Guid` array loop.  A failed `parseInt`
(`NaN`, modeled `none`) still assigns the field, matching the JS code. -/
def applyGuidEntry (ids : ExternalIds) (id : String) : ExternalIds :=
  if strStartsWith id "tmdb://" then { ids with tmdb := jsParseInt (String.mk (id.data.drop 7)) }
  else if strStartsWith id "tvdb://" then { ids with tvdb := jsParseInt (String.mk (id.data.drop 7)) }
  else if strStartsWith id "imdb://" then { ids with imdb := some (String.mk (id.data.drop 7)) }
  else ids

/-- The legacy-guid branch: an if/else-if chain keyed on `includes`, whose
first applicable kind is overwritten when its regex matches. -/
def applyLegacyGuid (guid : String) (ids : ExternalIds) : ExternalIds :=
  if guid ≠ "" then
    if strContains guid "themoviedb://" then
      match regexNatAfter guid "themoviedb://" with
      | some n => { ids with tmdb := some n }
      | none => ids
    else if strContains guid "thetvdb://" then
      match regexNatAfter guid "thetvdb://" with
      | some n => { ids with tvdb := some n }
      | none => ids
    else if strContains guid "imdb://" then
      match regexImdbAfter guid with
      | some m => { ids with imdb := some m }
      | none => ids
    else ids
  else ids

/-- `extractExternalIds(guid, guids)`: the new-format array is folded first,
then the legacy branch runs unconditionally on a nonempty `guid`. -/
def extractExternalIds (guid : String) (guids : List GuidEntry) : ExternalIds :=
  let ids : ExternalIds := {}
  let ids := if guids.length > 0 then guids.foldl (fun a g => applyGuidEntry a g.id) ids else ids
  applyLegacyGuid guid ids

/-! ## Identity Resolver (src/lib/plexSync.ts lines 122-150) -/

/-- Step (a): `if (externalIds.tmdb) { traktShow = await
traktAPI.getShowByTMDBId(externalIds.tmdb) }` — JS number truthiness guards
the call. -/
def resolveStepTmdb (env : Env) (externalIds : ExternalIds) :
    Except String (Option TraktShow) :=
  match externalIds.tmdb with
  | some n => if n ≠ 0 then env.getShowByTMDBId n else pure none
  | none => pure none

/-- Step (b): `if (!traktShow && externalIds.tvdb) { traktShow = await
traktAPI.getShowByTVDBId(externalIds.tvdb) }`. -/
def resolveStepTvdb (env : Env) (externalIds : ExternalIds) (traktShow : Option TraktShow) :
    Except String (Option TraktShow) :=
  match traktShow with
  | some t => pure (some t)
  | none =>
    match externalIds.tvdb with
    | some n => if n ≠ 0 then env.getShowByTVDBId n else pure none
    | none => pure none

/-- The selection applied to the title-search results (plexSync.ts lines
140-145): the case-insensitive exact title match if one exists, else the
first result; `none` when the result list is empty. -/
def searchPick (searchResults : List SearchResult) (showTitle : String) : Option TraktShow :=
  match searchResults with
  | [] => none
  | r0 :: _ =>
    some (((searchResults.find? fun r =>
      jsToLower r.«show».title == jsToLower showTitle).map fun r => r.«show»).getD r0.«show»)

/-- Step (c): `if (!traktShow) { const searchResults = await
traktAPI.searchShows(showTitle); ... }`. -/
def resolveStepSearch (env : Env) (showTitle : String) (traktShow : Option TraktShow) :
    Except String (Option TraktShow) :=
  match traktShow with
  | some t => pure (some t)
  | none => do
    let searchResults ← env.searchShows showTitle
    pure (searchPick searchResults showTitle)

/-- The three-step resolution chain of `syncShow` (lines 122-146): TMDB id,
then TVDB id, then title search. -/
def resolveShow (env : Env) (externalIds : ExternalIds) (showTitle : String) :
    Except String (Option TraktShow) := do
  let afterTmdb ← resolveStepTmdb env externalIds
  let afterTvdb ← resolveStepTvdb env externalIds afterTmdb
  resolveStepSearch env showTitle afterTvdb

/-- The resolver as `syncShow` consumes it: ids come from the first watched
episode of the group, and exhausting all three strategies throws
`Could not find show on Trakt: <title>`.  An empty group would crash the JS
code reading `watchedEpisodes[0].guid`; groups built by the orchestrator are
never empty. -/
def resolvedShow (env : Env) (showTitle : String) (watchedEpisodes : List PlexEpisode) :
    Except String TraktShow :=
  match watchedEpisodes with
  | [] => .error "Cannot read properties of undefined"
  | sampleEpisode :: _ =>
    let externalIds := extractExternalIds sampleEpisode.guid sampleEpisode.guids
    match resolveShow env externalIds showTitle with
    | .error e => .error e
    | .ok (some t) => .ok t
    | .ok none => .error ("Could not find show on Trakt: " ++ showTitle)

/-! ## Catalog rows: show / user-show upserts (plexSync.ts lines 154-207) -/

/-- `prisma.show.findUnique({ where: { traktId } })` followed by creation
when absent, with a best-effort poster lookup only at creation time. -/
def ensureShow (env : Env) (traktShow : TraktShow) (db : Db) : Db × ShowRow :=
  match db.shows.find? fun r => r.traktId == traktShow.ids.trakt with
  | some showRow => (db, showRow)
  | none =>
    let posterUrl : Option String :=
      match traktShow.ids.tmdb with
      | some n =>
        if n ≠ 0 then
          match env.getTMDBPosterUrl n with
          | .ok p => p
          | .error _ => none
        else none
      | none => none
    let showRow : ShowRow :=
      { id := db.nextId
        traktId := traktShow.ids.trakt
        title := traktShow.title
        overview := jsOrString traktShow.overview ""
        poster := posterUrl
        status := jsOrString traktShow.status "unknown"
        genres := traktShow.genres.getD []
        network := jsOrString traktShow.network ""
        runtime := traktShow.runtime.getD 0
        firstAired := jsStringOrNull traktShow.first_aired }
    ({ db with shows := db.shows ++ [showRow], nextId := db.nextId + 1 }, showRow)

/-- Library Membership Manager: create the `(userId, showId)` UserShow with
default status `ongoing` only when absent. -/
def ensureUserShow (userId : String) (showId : Nat) (db : Db) : Db :=
  match db.userShows.find? fun r => r.userId == userId && r.showId == showId with
  | some _ => db
  | none =>
    { db with userShows :=
        db.userShows ++ [{ userId := userId, showId := showId, status := "ongoing", rating := none }] }

/-! ## Catalog Populator (`createAllShowEpisodes`, plexSync.ts lines 226-334) -/

/-- The Episode row `prisma.episode.create` inserts. -/
def mkEpisodeRow (id seasonId : Nat) (pe : TraktEpisodeData) : EpisodeRow :=
  { id := id
    seasonId := seasonId
    episodeNumber := pe.number
    traktId := pe.traktId
    title := jsOrString pe.title ("Episode " ++ toString pe.number)
    overview := pe.overview
    airDate := jsStringOrNull pe.first_aired
    runtime := pe.runtime }

/-- `prisma.episode.create` inside its per-episode try/catch: a
`(seasonId, episodeNumber)` unique-constraint violation is thrown by the
database, caught, and skipped (spec section 3 invariant and section 9:
"create, catch unique-violation, treat as success"). -/
def createEpisode (seasonId : Nat) (pe : TraktEpisodeData) (db : Db) : Db :=
  if db.episodes.any fun e => e.seasonId == seasonId && e.episodeNumber == pe.number then db
  else
    { db with
      episodes := db.episodes ++ [mkEpisodeRow db.nextId seasonId pe]
      nextId := db.nextId + 1 }

/-- The per-season episode-creation loop. -/
def createEpisodes (seasonId : Nat) (eps : List TraktEpisodeData) (db : Db) : Db :=
  eps.foldl (fun d pe => createEpisode seasonId pe d) db

/-- The `OR` filter of the season `findFirst`: match by the provider season
trakt id, or by `(showId, seasonNumber)`.  When `seasonData.ids?.trakt` is
`undefined`, Prisma strips that field and the empty `OR` member matches
every row. -/
def seasonMatches (tid : Option Nat) (showId : Nat) (n : Int) (r : SeasonRow) : Bool :=
  (match tid with
   | some t => r.traktId == some t
   | none => true) ||
  (r.showId == showId && r.seasonNumber == n)

/-- `prisma.season.findFirst({ where: { OR: [{ traktId }, { AND: [{ showId },
{ seasonNumber }] }] } })`. -/
def lookupSeason (db : Db) (tid : Option Nat) (showId : Nat) (n : Int) : Option SeasonRow :=
  db.seasons.find? (seasonMatches tid showId n)

/-- `prisma.episode.count({ where: { seasonId } })`. -/
def Db.epCount (db : Db) (seasonId : Nat) : Nat :=
  (db.episodes.filter fun e => e.seasonId == seasonId).length

/-- The Season row `prisma.season.create` inserts. -/
def mkSeasonRow (id showId : Nat) (sd : TraktSeasonData) (episodeCount : Nat) : SeasonRow :=
  { id := id
    showId := showId
    seasonNumber := sd.number
    traktId := sd.traktId
    title := sd.title
    overview := sd.overview
    airDate := jsStringOrNull sd.first_aired
    episodeCount := episodeCount }

/-- The season loop of `createAllShowEpisodes`.  A `getSeasonEpisodes` error
propagates to the surrounding try/catch, aborting population of the
remaining seasons with the database as mutated so far. -/
def processSeasons (env : Env) (showId : Nat) (traktShowId : Nat) (db : Db) :
    List TraktSeasonData → Db
  | [] => db
  | sd :: rest =>
    if sd.number ≤ 0 then processSeasons env showId traktShowId db rest
    else
      match lookupSeason db sd.traktId showId sd.number with
      | none =>
        match env.getSeasonEpisodes traktShowId sd.number with
        | .error _ => db
        | .ok traktSeason =>
          let season := mkSeasonRow db.nextId showId sd traktSeason.length
          let db1 := { db with seasons := db.seasons ++ [season], nextId := db.nextId + 1 }
          processSeasons env showId traktShowId (createEpisodes season.id traktSeason db1) rest
      | some season =>
        if db.epCount season.id == 0 then
          match env.getSeasonEpisodes traktShowId sd.number with
          | .error _ => db
          | .ok traktSeason =>
            processSeasons env showId traktShowId (createEpisodes season.id traktSeason db) rest
        else processSeasons env showId traktShowId db rest

/-- `createAllShowEpisodes(showId, traktShowId)`: its outer try/catch also
absorbs a `getShowSeasons` failure, leaving the database untouched. -/
def createAllShowEpisodes (env : Env) (showId : Nat) (traktShowId : Nat) (db : Db) : Db :=
  match env.getShowSeasons traktShowId with
  | .error _ => db
  | .ok seasons => processSeasons env showId traktShowId db seasons

/-! ## Watch-State Merger (`syncEpisode`, plexSync.ts lines 336-394) -/

/-- `lastViewedAt ? new Date(lastViewedAt * 1000) : new Date()`: a `0`
timestamp is falsy in JS, so it falls back to the current time. -/
def jsWatchedAt (lastViewedAt : Option Nat) (now : Nat) : Nat :=
  match lastViewedAt with
  | some t => if t ≠ 0 then t * 1000 else now
  | none => now

/-- `syncEpisode`: locate the season by `(showId, seasonNumber)`, then the
episode by `(seasonId, episodeNumber)`; skip silently if either is missing;
otherwise upsert the `(userId, episodeId)` UserEpisode, unconditionally
setting `watched` and `watchedAt`.  (The unused `traktShowId` parameter of
the source is dropped.) -/
def syncEpisode (now : Nat) (userId : String) (showId : Nat) (plexEpisode : PlexEpisode)
    (db : Db) : Db :=
  match db.seasons.find? fun r =>
      r.showId == showId && r.seasonNumber == plexEpisode.parentIndex with
  | none => db
  | some season =>
    match db.episodes.find? fun e =>
        e.seasonId == season.id && e.episodeNumber == plexEpisode.index with
    | none => db
    | some episode =>
      let watchedAt := jsWatchedAt plexEpisode.lastViewedAt now
      if db.userEpisodes.any fun r => r.userId == userId && r.episodeId == episode.id then
        { db with userEpisodes := db.userEpisodes.map fun r =>
            if r.userId == userId && r.episodeId == episode.id then
              { r with watched := true, watchedAt := watchedAt }
            else r }
      else
        { db with userEpisodes := db.userEpisodes ++
            [{ userId := userId, episodeId := episode.id, watched := true, watchedAt := watchedAt }] }

/-! ## Per-show chain (`syncShow`, plexSync.ts lines 107-224) -/

/-- `syncShow`: resolve, ensure the Show row, ensure library membership,
eagerly populate all seasons/episodes, then mark the watched episodes (each
`syncEpisode` wrapped in a catch; the model's merger is total). -/
def syncShow (env : Env) (now : Nat) (userId : String) (showTitle : String)
    (watchedEpisodes : List PlexEpisode) (db : Db) : Except String Db :=
  match resolvedShow env showTitle watchedEpisodes with
  | .error e => .error e
  | .ok traktShow =>
    let p := ensureShow env traktShow db
    let db2 := ensureUserShow userId p.2.id p.1
    let db3 := createAllShowEpisodes env p.2.id traktShow.ids.trakt db2
    .ok (watchedEpisodes.foldl (fun d pe => syncEpisode now userId p.2.id pe d) db3)

/-! ## Sync Orchestrator (`syncPlexToDatabase`, plexSync.ts lines 13-105) -/

/-- Grouping of watched episodes by `grandparentTitle` via an
insertion-ordered `Map` (case-sensitive keys). -/
def groupByShow (eps : List PlexEpisode) : List (String × List PlexEpisode) :=
  (dedupFirst (eps.map fun e => e.grandparentTitle)).map fun t =>
    (t, eps.filter fun e => e.grandparentTitle == t)

/-- The per-show loop: a `syncShow` failure is formatted, appended to the
error list, increments nothing, and processing continues with the next
group; success increments `showsSynced` by 1 and `episodesSynced` by the
group's reported item count. -/
def processGroups (env : Env) (now : Nat) (userId : String) :
    List (String × List PlexEpisode) → Db → Nat × Nat × List String × Db
  | [], db => (0, 0, [], db)
  | (showTitle, episodes) :: rest, db =>
    match syncShow env now userId showTitle episodes db with
    | .ok db1 =>
      let (s, e, errs, db2) := processGroups env now userId rest db1
      (s + 1, e + episodes.length, errs, db2)
    | .error msg =>
      let (s, e, errs, db2) := processGroups env now userId rest db
      (s, e, ("Failed to sync " ++ showTitle ++ ": " ++ msg) :: errs, db2)

/-- The per-library loop: a `getWatchedEpisodes` failure is recorded in the
error list and does not stop subsequent libraries. -/
def processLibraries (env : Env) (now : Nat) (userId : String)
    (serverUrl accessToken : String) :
    List PlexLibrary → Db → Nat × Nat × List String × Db
  | [], db => (0, 0, [], db)
  | lib :: rest, db =>
    match env.getWatchedEpisodes serverUrl accessToken lib.key with
    | .error e =>
      let (s, ec, errs, db1) := processLibraries env now userId serverUrl accessToken rest db
      (s, ec, ("Failed to process library " ++ lib.title ++ ": " ++ e) :: errs, db1)
    | .ok watchedEpisodes =>
      let (s1, e1, errs1, db1) := processGroups env now userId (groupByShow watchedEpisodes) db
      let (s2, e2, errs2, db2) := processLibraries env now userId serverUrl accessToken rest db1
      (s1 + s2, e1 + e2, errs1 ++ errs2, db2)

/-- `prisma.integration.update({ where: { id }, data: { lastSync } })`. -/
def updateIntegrationLastSync (id : Nat) (now : Nat) (db : Db) : Db :=
  { db with integrations := db.integrations.map fun i =>
      if i.id == id then { i with lastSync := some now } else i }

/-- `syncPlexToDatabase(userId)`: the startup steps (integration row
present and enabled, credential decryption, the TV-library listing call —
an HTTP request whose thrown failure the outer catch rethrows — and its
nonemptiness check) throw to the caller; everything after is absorbed into
the error list. -/
def syncPlexToDatabase (env : Env) (now : Nat) (userId : String) (db : Db) :
    Except String (SyncResult × Db) :=
  match db.integrations.find? fun i => i.userId == userId && i.provider == "plex" with
  | none => .error "Plex integration not found or disabled"
  | some integration =>
    if !integration.enabled then .error "Plex integration not found or disabled"
    else
      match env.decryptToken integration.accessToken with
      | .error e => .error e
      | .ok accessToken =>
        match env.getTVLibraries integration.serverUrl accessToken with
        | .error e => .error e
        | .ok libraries =>
          if libraries.length == 0 then .error "No TV libraries found on Plex server"
          else
            let r := processLibraries env now userId integration.serverUrl accessToken libraries db
            let db2 := updateIntegrationLastSync integration.id now r.2.2.2
            .ok ({ showsSynced := r.1, episodesSynced := r.2.1, errors := r.2.2.1 }, db2)

/-! ## Scheduled Run Driver (`runScheduledSync`, src/unnamed/part_001) -/

/-- The error-status SyncLog row the catch block persists (`error.message ||
'Unknown error'`). -/
def syncFailureRow (userId : String) (msg : String) : SyncLogRow :=
  { userId := userId, provider := "plex", status := "error"
    showsSynced := 0, episodesSynced := 0
    errors := some [if msg == "" then "Unknown error" else msg] }

/-- The catch block of the per-user loop: persist an error-status SyncLog
whose own persistence failure is absorbed by `.catch`. -/
def logSyncFailure (env : Env) (userId : String) (msg : String) (db : Db) : Db :=
  match env.logCreate (syncFailureRow userId msg) with
  | none => { db with syncLogs := db.syncLogs ++ [syncFailureRow userId msg] }
  | some _ => db

/-- The SyncLog row recorded for a completed orchestrator run: status
`partial` when the error list is nonempty, `success` otherwise. -/
def runLogRow (integration : IntegrationRow) (result : SyncResult) : SyncLogRow :=
  { userId := integration.userId, provider := "plex"
    status := if result.errors.length > 0 then "partial" else "success"
    showsSynced := result.showsSynced, episodesSynced := result.episodesSynced
    errors := if result.errors.length > 0 then some result.errors else none }

/-- One user's block of the scheduled loop, wrapped in isolation: the
orchestrator result is logged with status `partial`/`success`; a thrown
orchestrator error, or a failure persisting the success log, lands in the
catch block. -/
def syncUserStep (env : Env) (now : Nat) (db : Db) (integration : IntegrationRow) : Db :=
  match syncPlexToDatabase env now integration.userId db with
  | .ok (result, db1) =>
    match env.logCreate (runLogRow integration result) with
    | none =>
      updateIntegrationLastSync integration.id now
        { db1 with syncLogs := db1.syncLogs ++ [runLogRow integration result] }
    | some msg => logSyncFailure env integration.userId msg db1
  | .error e => logSyncFailure env integration.userId e db

/-- `prisma.integration.findMany({ where: { enabled, autoSync, provider } })`. -/
def autoSyncIntegrations (db : Db) : List IntegrationRow :=
  db.integrations.filter fun i => i.enabled && i.autoSync && i.provider == "plex"

/-- The sequential per-user loop of the scheduled sync. -/
def processScheduledUsers (env : Env) (now : Nat) (integrations : List IntegrationRow)
    (db : Db) : Db :=
  integrations.foldl (syncUserStep env now) db

/-- `runScheduledSync`: enumerate auto-sync integrations once, then process
each user sequentially. -/
def runScheduledSync (env : Env) (now : Nat) (db : Db) : Db :=
  processScheduledUsers env now (autoSyncIntegrations db) db

/-! ## The groups one run processes, computed from the environment -/

/-- The show groups of one library (empty when listing its watched episodes
fails). -/
def groupsOfLib (env : Env) (serverUrl accessToken : String) (lib : PlexLibrary) :
    List (String × List PlexEpisode) :=
  match env.getWatchedEpisodes serverUrl accessToken lib.key with
  | .error _ => []
  | .ok eps => groupByShow eps

/-- All show groups a `syncPlexToDatabase userId` run iterates over, in
order. -/
def syncGroupsOfUser (env : Env) (userId : String) (db : Db) :
    List (String × List PlexEpisode) :=
  match db.integrations.find? fun i => i.userId == userId && i.provider == "plex" with
  | none => []
  | some integration =>
    if !integration.enabled then []
    else
      match env.decryptToken integration.accessToken with
      | .error _ => []
      | .ok accessToken =>
        match env.getTVLibraries integration.serverUrl accessToken with
        | .error _ => []
        | .ok libs => (libs.map (groupsOfLib env integration.serverUrl accessToken)).flatten

/-! ## Run counts are a function of the environment alone -/

/-- The counts and error list `processGroups` produces, computed from the
environment only (the database never influences them). -/
def groupsCounts (env : Env) : List (String × List PlexEpisode) → Nat × Nat × List String
  | [] => (0, 0, [])
  | (showTitle, episodes) :: rest =>
    let (s, e, errs) := groupsCounts env rest
    match resolvedShow env showTitle episodes with
    | .ok _ => (s + 1, e + episodes.length, errs)
    | .error msg => (s, e, ("Failed to sync " ++ showTitle ++ ": " ++ msg) :: errs)

/-- The counts and error list `processLibraries` produces, computed from the
environment only. -/
def libsCounts (env : Env) (serverUrl accessToken : String) :
    List PlexLibrary → Nat × Nat × List String
  | [] => (0, 0, [])
  | lib :: rest =>
    match env.getWatchedEpisodes serverUrl accessToken lib.key with
    | .error e =>
      let (s, ec, errs) := libsCounts env serverUrl accessToken rest
      (s, ec, ("Failed to process library " ++ lib.title ++ ": " ++ e) :: errs)
    | .ok watchedEpisodes =>
      let (s1, e1, errs1) := groupsCounts env (groupByShow watchedEpisodes)
      let (s2, e2, errs2) := libsCounts env serverUrl accessToken rest
      (s1 + s2, e1 + e2, errs1 ++ errs2)

/-! ## Concrete fixtures (used by witnesses and counterexamples) -/

/-- "Alpha", resolvable by its TMDB id. -/
def alphaShow : TraktShow :=
  { ids := { trakt := 500, tmdb := some 900 }, title := "Alpha", overview := some "o"
    status := some "ended", genres := some ["drama"], network := some "HBO"
    runtime := some 60, first_aired := some "2011-04-17" }

/-- "Gamma", resolvable by its TVDB id only. -/
def gammaShow : TraktShow :=
  { ids := { trakt := 600, tmdb := none }, title := "Gamma", overview := none
    status := none, genres := none, network := none
    runtime := none, first_aired := none }

def alphaSeasons : List TraktSeasonData :=
  [{ number := 0, traktId := some 10, title := some "Specials", overview := none, first_aired := none },
   { number := 1, traktId := some 11, title := some "Season 1", overview := none, first_aired := some "2011-04-17" },
   { number := 2, traktId := some 12, title := none, overview := none, first_aired := none }]

def alphaS1Eps : List TraktEpisodeData :=
  [{ number := 1, traktId := some 101, title := some "E1", overview := none, first_aired := some "2011-04-17", runtime := some 60 },
   { number := 2, traktId := some 102, title := none, overview := none, first_aired := none, runtime := none }]

def alphaS2Eps : List TraktEpisodeData :=
  [{ number := 1, traktId := some 201, title := some "E1", overview := none, first_aired := none, runtime := none }]

def gammaSeasons : List TraktSeasonData :=
  [{ number := 1, traktId := some 21, title := none, overview := none, first_aired := none }]

def gammaS1Eps : List TraktEpisodeData :=
  [{ number := 1, traktId := some 301, title := none, overview := none, first_aired := none, runtime := none }]

/-- Watched items: two Alpha episodes (one with a timestamp, one without),
one item of the unresolvable "Beta", one Gamma episode. -/
def sampleWatched : List PlexEpisode :=
  [{ grandparentTitle := "Alpha", parentIndex := 1, index := 1, lastViewedAt := some 1700000000, guid := "", guids := [{ id := "tmdb://900" }] },
   { grandparentTitle := "Alpha", parentIndex := 1, index := 2, lastViewedAt := none, guid := "", guids := [{ id := "tmdb://900" }] },
   { grandparentTitle := "Beta", parentIndex := 1, index := 1, lastViewedAt := none, guid := "", guids := [] },
   { grandparentTitle := "Gamma", parentIndex := 1, index := 1, lastViewedAt := none, guid := "thetvdb://800", guids := [] }]

/-- A deterministic environment for the concrete scenarios. -/
def sampleEnv : Env :=
  { decryptToken := fun s => if s = "enc" then .ok "tok" else .error "bad token"
    getTVLibraries := fun su tok => if su = "http://plex" ∧ tok = "tok" then .ok [{ key := "1", title := "TV" }] else .ok []
    getWatchedEpisodes := fun _ _ key => if key = "1" then .ok sampleWatched else .ok []
    getShowByTMDBId := fun n => if n = 900 then .ok (some alphaShow) else .ok none
    getShowByTVDBId := fun n => if n = 800 then .ok (some gammaShow) else .ok none
    searchShows := fun _ => .ok []
    getShowSeasons := fun sid =>
      if sid = 500 then .ok alphaSeasons else if sid = 600 then .ok gammaSeasons else .ok []
    getSeasonEpisodes := fun sid n =>
      if sid = 500 ∧ n = 1 then .ok alphaS1Eps
      else if sid = 500 ∧ n = 2 then .ok alphaS2Eps
      else if sid = 600 ∧ n = 1 then .ok gammaS1Eps
      else .ok []
    getTMDBPosterUrl := fun _ => .ok (some "poster-url")
    logCreate := fun _ => none }

/-- A database holding only the user's enabled integration. -/
def sampleDb : Db :=
  { integrations := [{ id := 1, userId := "u", provider := "plex", enabled := true, autoSync := true, accessToken := "enc", serverUrl := "http://plex", lastSync := none }]
    shows := [], seasons := [], episodes := [], userShows := [], userEpisodes := []
    syncLogs := [], nextId := 1 }

/-! ## Generic list helpers -/

lemma find?_append_some {α : Type} {p : α → Bool} {l₁ : List α} {a : α} (l₂ : List α)
    (h : l₁.find? p = some a) : (l₁ ++ l₂).find? p = some a := by
  rw [List.find?_append, h]; rfl

lemma find?_append_none {α : Type} {p : α → Bool} {l₁ : List α} (l₂ : List α)
    (h : l₁.find? p = none) : (l₁ ++ l₂).find? p = l₂.find? p := by
  rw [List.find?_append, h]; rfl

lemma find?_map_of_pred_inv {α : Type} {p : α → Bool} (f : α → α) (l : List α)
    (hf : ∀ x, p (f x) = p x) : (l.map f).find? p = (l.find? p).map f := by
  rw [List.find?_map]
  congr 1
  have : p ∘ f = p := funext hf
  rw [this]

lemma length_filter_compl {α : Type} (p : α → Bool) (l : List α) :
    (l.filter p).length + (l.filter fun x => !(p x)).length = l.length := by
  induction l with
  | nil => rfl
  | cons x xs ih =>
    by_cases h : p x <;> simp [List.filter_cons, h] <;> omega

/-! ## Frame lemmas: which tables each operation can touch -/

lemma createEpisode_shows (sid : Nat) (pe : TraktEpisodeData) (db : Db) :
    (createEpisode sid pe db).shows = db.shows := by
  unfold createEpisode; split <;> rfl

lemma createEpisode_seasons (sid : Nat) (pe : TraktEpisodeData) (db : Db) :
    (createEpisode sid pe db).seasons = db.seasons := by
  unfold createEpisode; split <;> rfl

lemma createEpisode_userShows (sid : Nat) (pe : TraktEpisodeData) (db : Db) :
    (createEpisode sid pe db).userShows = db.userShows := by
  unfold createEpisode; split <;> rfl

lemma createEpisode_userEpisodes (sid : Nat) (pe : TraktEpisodeData) (db : Db) :
    (createEpisode sid pe db).userEpisodes = db.userEpisodes := by
  unfold createEpisode; split <;> rfl

lemma createEpisode_integrations (sid : Nat) (pe : TraktEpisodeData) (db : Db) :
    (createEpisode sid pe db).integrations = db.integrations := by
  unfold createEpisode; split <;> rfl

lemma createEpisode_syncLogs (sid : Nat) (pe : TraktEpisodeData) (db : Db) :
    (createEpisode sid pe db).syncLogs = db.syncLogs := by
  unfold createEpisode; split <;> rfl

lemma createEpisodes_shows (sid : Nat) (eps : List TraktEpisodeData) (db : Db) :
    (createEpisodes sid eps db).shows = db.shows := by
  induction eps generalizing db with
  | nil => rfl
  | cons pe rest ih =>
    exact (ih (createEpisode sid pe db)).trans (createEpisode_shows sid pe db)

lemma createEpisodes_seasons (sid : Nat) (eps : List TraktEpisodeData) (db : Db) :
    (createEpisodes sid eps db).seasons = db.seasons := by
  induction eps generalizing db with
  | nil => rfl
  | cons pe rest ih =>
    exact (ih (createEpisode sid pe db)).trans (createEpisode_seasons sid pe db)

lemma createEpisodes_userShows (sid : Nat) (eps : List TraktEpisodeData) (db : Db) :
    (createEpisodes sid eps db).userShows = db.userShows := by
  induction eps generalizing db with
  | nil => rfl
  | cons pe rest ih =>
    exact (ih (createEpisode sid pe db)).trans (createEpisode_userShows sid pe db)

lemma createEpisodes_userEpisodes (sid : Nat) (eps : List TraktEpisodeData) (db : Db) :
    (createEpisodes sid eps db).userEpisodes = db.userEpisodes := by
  induction eps generalizing db with
  | nil => rfl
  | cons pe rest ih =>
    exact (ih (createEpisode sid pe db)).trans (createEpisode_userEpisodes sid pe db)

lemma createEpisodes_integrations (sid : Nat) (eps : List TraktEpisodeData) (db : Db) :
    (createEpisodes sid eps db).integrations = db.integrations := by
  induction eps generalizing db with
  | nil => rfl
  | cons pe rest ih =>
    exact (ih (createEpisode sid pe db)).trans (createEpisode_integrations sid pe db)

lemma createEpisodes_syncLogs (sid : Nat) (eps : List TraktEpisodeData) (db : Db) :
    (createEpisodes sid eps db).syncLogs = db.syncLogs := by
  induction eps generalizing db with
  | nil => rfl
  | cons pe rest ih =>
    exact (ih (createEpisode sid pe db)).trans (createEpisode_syncLogs sid pe db)

lemma processSeasons_frame (env : Env) (showId tSid : Nat) (sds : List TraktSeasonData)
    (db : Db) :
    (processSeasons env showId tSid db sds).shows = db.shows ∧
    (processSeasons env showId tSid db sds).userShows = db.userShows ∧
    (processSeasons env showId tSid db sds).userEpisodes = db.userEpisodes ∧
    (processSeasons env showId tSid db sds).integrations = db.integrations ∧
    (processSeasons env showId tSid db sds).syncLogs = db.syncLogs := by
  induction sds generalizing db with
  | nil => exact ⟨rfl, rfl, rfl, rfl, rfl⟩
  | cons sd rest ih =>
    rw [processSeasons]
    split
    · exact ih db
    · split
      · split
        · exact ⟨rfl, rfl, rfl, rfl, rfl⟩
        · refine ⟨(ih _).1.trans ?_, (ih _).2.1.trans ?_, (ih _).2.2.1.trans ?_,
            (ih _).2.2.2.1.trans ?_, (ih _).2.2.2.2.trans ?_⟩
          · exact (createEpisodes_shows ..).trans rfl
          · exact (createEpisodes_userShows ..).trans rfl
          · exact (createEpisodes_userEpisodes ..).trans rfl
          · exact (createEpisodes_integrations ..).trans rfl
          · exact (createEpisodes_syncLogs ..).trans rfl
      · split
        · split
          · exact ⟨rfl, rfl, rfl, rfl, rfl⟩
          · refine ⟨(ih _).1.trans ?_, (ih _).2.1.trans ?_, (ih _).2.2.1.trans ?_,
              (ih _).2.2.2.1.trans ?_, (ih _).2.2.2.2.trans ?_⟩
            · exact createEpisodes_shows ..
            · exact createEpisodes_userShows ..
            · exact createEpisodes_userEpisodes ..
            · exact createEpisodes_integrations ..
            · exact createEpisodes_syncLogs ..
        · exact ih db

lemma processSeasons_shows (env : Env) (showId tSid : Nat) (sds : List TraktSeasonData)
    (db : Db) : (processSeasons env showId tSid db sds).shows = db.shows :=
  (processSeasons_frame env showId tSid sds db).1

lemma processSeasons_userShows (env : Env) (showId tSid : Nat) (sds : List TraktSeasonData)
    (db : Db) : (processSeasons env showId tSid db sds).userShows = db.userShows :=
  (processSeasons_frame env showId tSid sds db).2.1

lemma processSeasons_userEpisodes (env : Env) (showId tSid : Nat) (sds : List TraktSeasonData)
    (db : Db) : (processSeasons env showId tSid db sds).userEpisodes = db.userEpisodes :=
  (processSeasons_frame env showId tSid sds db).2.2.1

lemma processSeasons_integrations (env : Env) (showId tSid : Nat) (sds : List TraktSeasonData)
    (db : Db) : (processSeasons env showId tSid db sds).integrations = db.integrations :=
  (processSeasons_frame env showId tSid sds db).2.2.2.1

lemma processSeasons_syncLogs (env : Env) (showId tSid : Nat) (sds : List TraktSeasonData)
    (db : Db) : (processSeasons env showId tSid db sds).syncLogs = db.syncLogs :=
  (processSeasons_frame env showId tSid sds db).2.2.2.2

lemma createAllShowEpisodes_shows (env : Env) (showId tSid : Nat) (db : Db) :
    (createAllShowEpisodes env showId tSid db).shows = db.shows := by
  unfold createAllShowEpisodes; split
  · rfl
  · exact processSeasons_shows ..

lemma createAllShowEpisodes_userShows (env : Env) (showId tSid : Nat) (db : Db) :
    (createAllShowEpisodes env showId tSid db).userShows = db.userShows := by
  unfold createAllShowEpisodes; split
  · rfl
  · exact processSeasons_userShows ..

lemma createAllShowEpisodes_userEpisodes (env : Env) (showId tSid : Nat) (db : Db) :
    (createAllShowEpisodes env showId tSid db).userEpisodes = db.userEpisodes := by
  unfold createAllShowEpisodes; split
  · rfl
  · exact processSeasons_userEpisodes ..

lemma createAllShowEpisodes_integrations (env : Env) (showId tSid : Nat) (db : Db) :
    (createAllShowEpisodes env showId tSid db).integrations = db.integrations := by
  unfold createAllShowEpisodes; split
  · rfl
  · exact processSeasons_integrations ..

lemma createAllShowEpisodes_syncLogs (env : Env) (showId tSid : Nat) (db : Db) :
    (createAllShowEpisodes env showId tSid db).syncLogs = db.syncLogs := by
  unfold createAllShowEpisodes; split
  · rfl
  · exact processSeasons_syncLogs ..

lemma ensureShow_seasons (env : Env) (t : TraktShow) (db : Db) :
    (ensureShow env t db).1.seasons = db.seasons := by
  unfold ensureShow; split <;> rfl

lemma ensureShow_episodes (env : Env) (t : TraktShow) (db : Db) :
    (ensureShow env t db).1.episodes = db.episodes := by
  unfold ensureShow; split <;> rfl

lemma ensureShow_userShows (env : Env) (t : TraktShow) (db : Db) :
    (ensureShow env t db).1.userShows = db.userShows := by
  unfold ensureShow; split <;> rfl

lemma ensureShow_userEpisodes (env : Env) (t : TraktShow) (db : Db) :
    (ensureShow env t db).1.userEpisodes = db.userEpisodes := by
  unfold ensureShow; split <;> rfl

lemma ensureShow_integrations (env : Env) (t : TraktShow) (db : Db) :
    (ensureShow env t db).1.integrations = db.integrations := by
  unfold ensureShow; split <;> rfl

lemma ensureShow_syncLogs (env : Env) (t : TraktShow) (db : Db) :
    (ensureShow env t db).1.syncLogs = db.syncLogs := by
  unfold ensureShow; split <;> rfl

lemma ensureUserShow_shows (u : String) (sid : Nat) (db : Db) :
    (ensureUserShow u sid db).shows = db.shows := by
  unfold ensureUserShow; split <;> rfl

lemma ensureUserShow_seasons (u : String) (sid : Nat) (db : Db) :
    (ensureUserShow u sid db).seasons = db.seasons := by
  unfold ensureUserShow; split <;> rfl

lemma ensureUserShow_episodes (u : String) (sid : Nat) (db : Db) :
    (ensureUserShow u sid db).episodes = db.episodes := by
  unfold ensureUserShow; split <;> rfl

lemma ensureUserShow_userEpisodes (u : String) (sid : Nat) (db : Db) :
    (ensureUserShow u sid db).userEpisodes = db.userEpisodes := by
  unfold ensureUserShow; split <;> rfl

lemma ensureUserShow_integrations (u : String) (sid : Nat) (db : Db) :
    (ensureUserShow u sid db).integrations = db.integrations := by
  unfold ensureUserShow; split <;> rfl

lemma ensureUserShow_syncLogs (u : String) (sid : Nat) (db : Db) :
    (ensureUserShow u sid db).syncLogs = db.syncLogs := by
  unfold ensureUserShow; split <;> rfl

lemma syncEpisode_shows (now : Nat) (u : String) (sid : Nat) (ep : PlexEpisode) (db : Db) :
    (syncEpisode now u sid ep db).shows = db.shows := by
  unfold syncEpisode
  split
  · rfl
  · split
    · rfl
    · split <;> rfl

lemma syncEpisode_seasons (now : Nat) (u : String) (sid : Nat) (ep : PlexEpisode) (db : Db) :
    (syncEpisode now u sid ep db).seasons = db.seasons := by
  unfold syncEpisode
  split
  · rfl
  · split
    · rfl
    · split <;> rfl

lemma syncEpisode_episodes (now : Nat) (u : String) (sid : Nat) (ep : PlexEpisode) (db : Db) :
    (syncEpisode now u sid ep db).episodes = db.episodes := by
  unfold syncEpisode
  split
  · rfl
  · split
    · rfl
    · split <;> rfl

lemma syncEpisode_userShows (now : Nat) (u : String) (sid : Nat) (ep : PlexEpisode) (db : Db) :
    (syncEpisode now u sid ep db).userShows = db.userShows := by
  unfold syncEpisode
  split
  · rfl
  · split
    · rfl
    · split <;> rfl

lemma syncEpisode_integrations (now : Nat) (u : String) (sid : Nat) (ep : PlexEpisode) (db : Db) :
    (syncEpisode now u sid ep db).integrations = db.integrations := by
  unfold syncEpisode
  split
  · rfl
  · split
    · rfl
    · split <;> rfl

lemma syncEpisode_syncLogs (now : Nat) (u : String) (sid : Nat) (ep : PlexEpisode) (db : Db) :
    (syncEpisode now u sid ep db).syncLogs = db.syncLogs := by
  unfold syncEpisode
  split
  · rfl
  · split
    · rfl
    · split <;> rfl

lemma syncEpisode_nextId (now : Nat) (u : String) (sid : Nat) (ep : PlexEpisode) (db : Db) :
    (syncEpisode now u sid ep db).nextId = db.nextId := by
  unfold syncEpisode
  split
  · rfl
  · split
    · rfl
    · split <;> rfl

lemma syncEpisodesFold_shows (now : Nat) (u : String) (sid : Nat) (eps : List PlexEpisode)
    (db : Db) : (eps.foldl (fun d pe => syncEpisode now u sid pe d) db).shows = db.shows := by
  induction eps generalizing db with
  | nil => rfl
  | cons pe rest ih => simp only [List.foldl_cons]; rw [ih, syncEpisode_shows]

lemma syncEpisodesFold_seasons (now : Nat) (u : String) (sid : Nat) (eps : List PlexEpisode)
    (db : Db) : (eps.foldl (fun d pe => syncEpisode now u sid pe d) db).seasons = db.seasons := by
  induction eps generalizing db with
  | nil => rfl
  | cons pe rest ih => simp only [List.foldl_cons]; rw [ih, syncEpisode_seasons]

lemma syncEpisodesFold_episodes (now : Nat) (u : String) (sid : Nat) (eps : List PlexEpisode)
    (db : Db) : (eps.foldl (fun d pe => syncEpisode now u sid pe d) db).episodes = db.episodes := by
  induction eps generalizing db with
  | nil => rfl
  | cons pe rest ih => simp only [List.foldl_cons]; rw [ih, syncEpisode_episodes]

lemma syncEpisodesFold_userShows (now : Nat) (u : String) (sid : Nat) (eps : List PlexEpisode)
    (db : Db) : (eps.foldl (fun d pe => syncEpisode now u sid pe d) db).userShows = db.userShows := by
  induction eps generalizing db with
  | nil => rfl
  | cons pe rest ih => simp only [List.foldl_cons]; rw [ih, syncEpisode_userShows]

lemma syncEpisodesFold_integrations (now : Nat) (u : String) (sid : Nat) (eps : List PlexEpisode)
    (db : Db) :
    (eps.foldl (fun d pe => syncEpisode now u sid pe d) db).integrations = db.integrations := by
  induction eps generalizing db with
  | nil => rfl
  | cons pe rest ih => simp only [List.foldl_cons]; rw [ih, syncEpisode_integrations]

lemma syncEpisodesFold_syncLogs (now : Nat) (u : String) (sid : Nat) (eps : List PlexEpisode)
    (db : Db) : (eps.foldl (fun d pe => syncEpisode now u sid pe d) db).syncLogs = db.syncLogs := by
  induction eps generalizing db with
  | nil => rfl
  | cons pe rest ih => simp only [List.foldl_cons]; rw [ih, syncEpisode_syncLogs]

lemma syncEpisodesFold_nextId (now : Nat) (u : String) (sid : Nat) (eps : List PlexEpisode)
    (db : Db) : (eps.foldl (fun d pe => syncEpisode now u sid pe d) db).nextId = db.nextId := by
  induction eps generalizing db with
  | nil => rfl
  | cons pe rest ih => simp only [List.foldl_cons]; rw [ih, syncEpisode_nextId]

/-! ## C1: Identity Resolver priority order -/

lemma except_bind_ok {ε α β : Type} (a : α) (f : α → Except ε β) :
    (Except.ok a >>= f : Except ε β) = f a := rfl

lemma resolveStepTmdb_hit (env : Env) (ids : ExternalIds) (n : Nat)
    (s : Option TraktShow) (h1 : ids.tmdb = some n) (h2 : n ≠ 0)
    (h3 : env.getShowByTMDBId n = .ok s) : resolveStepTmdb env ids = .ok s := by
  unfold resolveStepTmdb
  rw [h1]
  show (if n ≠ 0 then env.getShowByTMDBId n else pure none) = .ok s
  rw [if_pos h2, h3]

lemma resolveStepTmdb_miss (env : Env) (ids : ExternalIds)
    (hm : ∀ n, ids.tmdb = some n → n ≠ 0 → env.getShowByTMDBId n = .ok none) :
    resolveStepTmdb env ids = .ok none := by
  unfold resolveStepTmdb
  cases ht : ids.tmdb with
  | none => rfl
  | some m =>
    show (if m ≠ 0 then env.getShowByTMDBId m else pure none) = .ok none
    by_cases hm0 : m = 0
    · rw [if_neg (by simp [hm0])]
      rfl
    · rw [if_pos hm0, hm m ht hm0]

lemma resolveStepTvdb_hit (env : Env) (ids : ExternalIds) (n : Nat)
    (s : Option TraktShow) (h1 : ids.tvdb = some n) (h2 : n ≠ 0)
    (h3 : env.getShowByTVDBId n = .ok s) : resolveStepTvdb env ids none = .ok s := by
  unfold resolveStepTvdb
  show (match ids.tvdb with
        | some n => if n ≠ 0 then env.getShowByTVDBId n else pure none
        | none => pure none) = .ok s
  rw [h1]
  show (if n ≠ 0 then env.getShowByTVDBId n else pure none) = .ok s
  rw [if_pos h2, h3]

lemma resolveStepTvdb_miss (env : Env) (ids : ExternalIds)
    (hm : ∀ n, ids.tvdb = some n → n ≠ 0 → env.getShowByTVDBId n = .ok none) :
    resolveStepTvdb env ids none = .ok none := by
  unfold resolveStepTvdb
  show (match ids.tvdb with
        | some n => if n ≠ 0 then env.getShowByTVDBId n else pure none
        | none => pure none) = .ok none
  cases ht : ids.tvdb with
  | none => rfl
  | some m =>
    show (if m ≠ 0 then env.getShowByTVDBId m else pure none) = .ok none
    by_cases hm0 : m = 0
    · rw [if_neg (by simp [hm0])]
      rfl
    · rw [if_pos hm0, hm m ht hm0]

lemma resolveShow_of_tmdb (env : Env) (ids : ExternalIds) (title : String) (n : Nat)
    (s : TraktShow) (h1 : ids.tmdb = some n) (h2 : n ≠ 0)
    (h3 : env.getShowByTMDBId n = .ok (some s)) :
    resolveShow env ids title = .ok (some s) := by
  unfold resolveShow
  rw [resolveStepTmdb_hit env ids n (some s) h1 h2 h3]
  rfl

lemma resolveShow_of_tvdb (env : Env) (ids : ExternalIds) (title : String)
    (hm : ∀ n, ids.tmdb = some n → n ≠ 0 → env.getShowByTMDBId n = .ok none)
    (n : Nat) (s : TraktShow) (h1 : ids.tvdb = some n) (h2 : n ≠ 0)
    (h3 : env.getShowByTVDBId n = .ok (some s)) :
    resolveShow env ids title = .ok (some s) := by
  unfold resolveShow
  rw [resolveStepTmdb_miss env ids hm, except_bind_ok,
    resolveStepTvdb_hit env ids n (some s) h1 h2 h3]
  rfl

lemma resolveShow_of_search (env : Env) (ids : ExternalIds) (title : String)
    (hm1 : ∀ n, ids.tmdb = some n → n ≠ 0 → env.getShowByTMDBId n = .ok none)
    (hm2 : ∀ n, ids.tvdb = some n → n ≠ 0 → env.getShowByTVDBId n = .ok none)
    (rs : List SearchResult) (hs : env.searchShows title = .ok rs) :
    resolveShow env ids title = .ok (searchPick rs title) := by
  unfold resolveShow
  rw [resolveStepTmdb_miss env ids hm1, except_bind_ok,
    resolveStepTvdb_miss env ids hm2, except_bind_ok]
  unfold resolveStepSearch
  rw [show (env.searchShows title >>= fun searchResults =>
        pure (searchPick searchResults title) : Except String (Option TraktShow)) =
      Except.bind (env.searchShows title) fun searchResults =>
        pure (searchPick searchResults title) from rfl, hs]
  rfl

/-- C1: the Identity Resolver attempts resolution in strict priority order:
lookup by the TMDB id first; only if that yields no show, lookup by the TVDB
id; only if that also yields no show, a title search preferring the
case-insensitive exact title match and otherwise taking the first result.
When the TMDB id resolves, the TVDB lookup and the title search are never
consulted: the result is independent of those two environment components. -/
theorem resolver_priority_order (env : Env) (ids : ExternalIds) (title : String) :
    (∀ n s, ids.tmdb = some n → n ≠ 0 → env.getShowByTMDBId n = .ok (some s) →
      resolveShow env ids title = .ok (some s) ∧
      ∀ tvdbF searchF,
        resolveShow { env with getShowByTVDBId := tvdbF, searchShows := searchF } ids title =
          .ok (some s)) ∧
    ((∀ n, ids.tmdb = some n → n ≠ 0 → env.getShowByTMDBId n = .ok none) →
      ∀ n s, ids.tvdb = some n → n ≠ 0 → env.getShowByTVDBId n = .ok (some s) →
        resolveShow env ids title = .ok (some s) ∧
        ∀ searchF,
          resolveShow { env with searchShows := searchF } ids title = .ok (some s)) ∧
    ((∀ n, ids.tmdb = some n → n ≠ 0 → env.getShowByTMDBId n = .ok none) →
     (∀ n, ids.tvdb = some n → n ≠ 0 → env.getShowByTVDBId n = .ok none) →
      ∀ rs, env.searchShows title = .ok rs →
        resolveShow env ids title = .ok (searchPick rs title)) := by
  refine ⟨?_, ?_, ?_⟩
  · intro n s h1 h2 h3
    exact ⟨resolveShow_of_tmdb env ids title n s h1 h2 h3,
      fun tvdbF searchF =>
        resolveShow_of_tmdb { env with getShowByTVDBId := tvdbF, searchShows := searchF }
          ids title n s h1 h2 h3⟩
  · intro hm n s h1 h2 h3
    exact ⟨resolveShow_of_tvdb env ids title hm n s h1 h2 h3,
      fun searchF =>
        resolveShow_of_tvdb { env with searchShows := searchF } ids title hm n s h1 h2 h3⟩
  · intro hm1 hm2 rs hs
    exact resolveShow_of_search env ids title hm1 hm2 rs hs

/-- C1 witness: an item carrying both a TMDB id (which resolves to Alpha)
and a TVDB id (which would resolve to Gamma) resolves to Alpha, and would do
so whatever the TVDB lookup and the title search return. -/
theorem resolver_priority_order_witness :
    (ExternalIds.mk (some 900) (some 800) none).tmdb = some 900 ∧ (900 : Nat) ≠ 0 ∧
    sampleEnv.getShowByTMDBId 900 = .ok (some alphaShow) ∧
    sampleEnv.getShowByTVDBId 800 = .ok (some gammaShow) ∧
    resolveShow sampleEnv (ExternalIds.mk (some 900) (some 800) none) "Alpha" =
      .ok (some alphaShow) := by
  refine ⟨rfl, by decide, by decide, by decide, ?_⟩
  exact ((resolver_priority_order sampleEnv (ExternalIds.mk (some 900) (some 800) none)
    "Alpha").1 900 alphaShow rfl (by decide) (by decide)).1

/-! ## C10: legacy-guid branch of `extractExternalIds` -/

/-- C10 counterexample: with a new-format array yielding a TVDB id and a
legacy guid containing ids of both the TMDB and the TVDB kind, the legacy
TVDB id is NOT what the record holds — the else-if chain takes the TMDB
branch, so the array's TVDB value survives. -/
theorem extractExternalIds_same_kind_legacy_not_used :
    extractExternalIds "themoviedb://1/thetvdb://9" [{ id := "tvdb://5" }] =
      { tmdb := some 1, tvdb := some 5, imdb := none } ∧
    strContains "themoviedb://1/thetvdb://9" "thetvdb://" = true ∧
    regexNatAfter "themoviedb://1/thetvdb://9" "thetvdb://" = some 9 ∧
    (extractExternalIds "themoviedb://1/thetvdb://9" [{ id := "tvdb://5" }]).tvdb ≠
      some 9 := by
  refine ⟨by decide, by decide, by decide, by decide⟩

/-- C10 amended: the legacy-format branch runs unconditionally after the
array branch on any nonempty guid and overwrites the array's value — but
only for the first kind matched by its else-if chain (tmdb, then tvdb, then
imdb); an id of a later kind in the legacy guid is ignored when an earlier
kind also occurs. -/
theorem extractExternalIds_legacy_first_branch_wins (guid : String)
    (guids : List GuidEntry) :
    (∀ n, guid ≠ "" → strContains guid "themoviedb://" = true →
      regexNatAfter guid "themoviedb://" = some n →
      (extractExternalIds guid guids).tmdb = some n) ∧
    (∀ n, guid ≠ "" → strContains guid "themoviedb://" = false →
      strContains guid "thetvdb://" = true →
      regexNatAfter guid "thetvdb://" = some n →
      (extractExternalIds guid guids).tvdb = some n) ∧
    (∀ m, guid ≠ "" → strContains guid "themoviedb://" = false →
      strContains guid "thetvdb://" = false → strContains guid "imdb://" = true →
      regexImdbAfter guid = some m →
      (extractExternalIds guid guids).imdb = some m) := by
  refine ⟨?_, ?_, ?_⟩
  · intro n hne h1 h2
    unfold extractExternalIds applyLegacyGuid
    rw [if_pos hne]
    simp only [h1, if_true, h2]
  · intro n hne h1 h2 h3
    unfold extractExternalIds applyLegacyGuid
    rw [if_pos hne]
    simp only [h1, h2, h3, Bool.false_eq_true, if_false, if_true]
  · intro m hne h1 h2 h3 h4
    unfold extractExternalIds applyLegacyGuid
    rw [if_pos hne]
    simp only [h1, h2, h3, h4, Bool.false_eq_true, if_false, if_true]

/-- C10 amended-claim witness: array yields tmdb 3, legacy guid carries
tmdb 7; the legacy value wins for the matched kind. -/
theorem extractExternalIds_legacy_first_branch_wins_witness :
    ("themoviedb://7" : String) ≠ "" ∧
    strContains "themoviedb://7" "themoviedb://" = true ∧
    regexNatAfter "themoviedb://7" "themoviedb://" = some 7 ∧
    (extractExternalIds "themoviedb://7" [{ id := "tmdb://3" }]).tmdb = some 7 := by
  refine ⟨by decide, by decide, by decide, ?_⟩
  exact (extractExternalIds_legacy_first_branch_wins "themoviedb://7"
    [{ id := "tmdb://3" }]).1 7 (by decide) (by decide) (by decide)

/-! ## C3 / C9: Watch-State Merger -/

lemma find?_some_of_any {α : Type} {p : α → Bool} {l : List α} (h : l.any p = true) :
    ∃ a, l.find? p = some a := by
  induction l with
  | nil => simp at h
  | cons x xs ih =>
    by_cases hx : p x
    · exact ⟨x, List.find?_cons_of_pos _ hx⟩
    · rw [List.find?_cons_of_neg _ hx]
      refine ih ?_
      simpa [List.any_cons, hx] using h

/-- The merger database after an upsert: the row for the key carries the
freshly computed values. -/
lemma upsert_find (u : String) (eid : Nat) (v : Nat) (l : List UserEpisodeRow) :
    (l.any (fun r => r.userId == u && r.episodeId == eid) = true →
      ∃ row, (l.map fun r : UserEpisodeRow =>
          if r.userId == u && r.episodeId == eid then
            { r with watched := true, watchedAt := v } else r).find?
          (fun r => r.userId == u && r.episodeId == eid) = some row ∧
        row.watched = true ∧ row.watchedAt = v) ∧
    (l.any (fun r => r.userId == u && r.episodeId == eid) = false →
      ∃ row,
        (l ++ [({ userId := u, episodeId := eid, watched := true, watchedAt := v } : UserEpisodeRow)]).find?
          (fun r => r.userId == u && r.episodeId == eid) = some row ∧
        row.watched = true ∧ row.watchedAt = v) := by
  constructor
  · intro hany
    obtain ⟨o, ho⟩ := find?_some_of_any hany
    have hpo := List.find?_some ho
    have hinv : ∀ r : UserEpisodeRow,
        (fun r : UserEpisodeRow => r.userId == u && r.episodeId == eid)
          ((fun r : UserEpisodeRow =>
            if r.userId == u && r.episodeId == eid then
              { r with watched := true, watchedAt := v } else r) r) =
        (fun r : UserEpisodeRow => r.userId == u && r.episodeId == eid) r := by
      intro r
      dsimp only
      by_cases hr : (r.userId == u && r.episodeId == eid) = true
      · rw [if_pos hr]
      · rw [if_neg hr]
    refine ⟨{ o with watched := true, watchedAt := v }, ?_, rfl, rfl⟩
    rw [find?_map_of_pred_inv _ _ hinv, ho]
    show some (if (o.userId == u && o.episodeId == eid) = true then
      { o with watched := true, watchedAt := v } else o) = _
    rw [if_pos hpo]
  · intro hany
    have hnone : l.find? (fun r => r.userId == u && r.episodeId == eid) = none := by
      rw [List.find?_eq_none]
      intro x hx hpx
      have hc : l.any (fun r => r.userId == u && r.episodeId == eid) = true :=
        List.any_eq_true.mpr ⟨x, hx, hpx⟩
      rw [hany] at hc
      exact Bool.false_ne_true hc
    refine ⟨{ userId := u, episodeId := eid, watched := true, watchedAt := v }, ?_, rfl, rfl⟩
    rw [find?_append_none _ hnone]
    have hp : ((fun r : UserEpisodeRow => r.userId == u && r.episodeId == eid)
        { userId := u, episodeId := eid, watched := true, watchedAt := v }) = true := by
      simp
    exact List.find?_cons_of_pos [] hp

/-- C3 (amended): for a watched item with season `S`, episode `E` and
optional timestamp `T`: when the Episode row located by the merger's two
lookups exists, the user's UserEpisode afterwards has `watched = true` and
`watchedAt` equal to `T` converted from epoch seconds — except that a `T`
of `0` is treated like an absent timestamp (JS truthiness) and replaced by
the current time; when either lookup fails, the item is skipped and the
database is returned unchanged, without error. -/
theorem syncEpisode_merge_spec (now : Nat) (u : String) (showId : Nat)
    (ep : PlexEpisode) (db : Db) :
    (∀ sr, db.seasons.find?
        (fun r => r.showId == showId && r.seasonNumber == ep.parentIndex) = some sr →
      ∀ er, db.episodes.find?
          (fun e => e.seasonId == sr.id && e.episodeNumber == ep.index) = some er →
        ∃ row, (syncEpisode now u showId ep db).userEpisodes.find?
            (fun r => r.userId == u && r.episodeId == er.id) = some row ∧
          row.watched = true ∧ row.watchedAt = jsWatchedAt ep.lastViewedAt now) ∧
    (db.seasons.find?
        (fun r => r.showId == showId && r.seasonNumber == ep.parentIndex) = none →
      syncEpisode now u showId ep db = db) ∧
    (∀ sr, db.seasons.find?
        (fun r => r.showId == showId && r.seasonNumber == ep.parentIndex) = some sr →
      db.episodes.find?
        (fun e => e.seasonId == sr.id && e.episodeNumber == ep.index) = none →
      syncEpisode now u showId ep db = db) ∧
    (ep.lastViewedAt = none → jsWatchedAt ep.lastViewedAt now = now) ∧
    (∀ t, ep.lastViewedAt = some t → t ≠ 0 → jsWatchedAt ep.lastViewedAt now = t * 1000) ∧
    (ep.lastViewedAt = some 0 → jsWatchedAt ep.lastViewedAt now = now) := by
  refine ⟨?_, ?_, ?_, ?_, ?_, ?_⟩
  · intro sr hsr er her
    unfold syncEpisode
    simp only [hsr, her]
    by_cases hany : (db.userEpisodes.any fun r => r.userId == u && r.episodeId == er.id) = true
    · rw [if_pos hany]
      exact (upsert_find u er.id (jsWatchedAt ep.lastViewedAt now) db.userEpisodes).1 hany
    · rw [if_neg hany]
      have hf : (db.userEpisodes.any fun r => r.userId == u && r.episodeId == er.id) = false := by
        rwa [Bool.not_eq_true] at hany
      exact (upsert_find u er.id (jsWatchedAt ep.lastViewedAt now) db.userEpisodes).2 hf
  · intro h
    unfold syncEpisode
    simp only [h]
  · intro sr hsr h
    unfold syncEpisode
    simp only [hsr, h]
  · intro h
    simp only [jsWatchedAt, h]
  · intro t h ht
    simp only [jsWatchedAt, h]
    rw [if_pos ht]
  · intro h
    simp only [jsWatchedAt, h]
    simp

/-- Season/episode fixture for merger scenarios: show 7, season 1 (row id 2)
with one episode (row id 3). -/
def c3Season : SeasonRow :=
  { id := 2, showId := 7, seasonNumber := 1, traktId := none, title := none,
    overview := none, airDate := none, episodeCount := 0 }

def c3Episode : EpisodeRow :=
  { id := 3, seasonId := 2, episodeNumber := 1, traktId := none, title := "E1",
    overview := none, airDate := none, runtime := none }

def c3Db : Db :=
  { integrations := [], shows := []
    seasons := [c3Season]
    episodes := [c3Episode]
    userShows := [], userEpisodes := [], syncLogs := [], nextId := 10 }

/-- A watched item whose source reports the epoch timestamp 0. -/
def c3Ep : PlexEpisode :=
  { grandparentTitle := "Alpha", parentIndex := 1, index := 1, lastViewedAt := some 0,
    guid := "", guids := [] }

/-- C3 counterexample: the claim says a present timestamp `T = 0` yields
`watchedAt` = converted `T` (i.e. 0); the code stores the current time
instead, because `0` is falsy in JS. -/
theorem syncEpisode_zero_timestamp_counterexample :
    c3Ep.lastViewedAt = some 0 ∧
    (syncEpisode 999 "u" 7 c3Ep c3Db).userEpisodes =
      [{ userId := "u", episodeId := 3, watched := true, watchedAt := 999 }] ∧
    (999 : Nat) ≠ 0 * 1000 := by
  refine ⟨by decide, by decide, by decide⟩

/-- A watched item with a real timestamp, for the C3 witness. -/
def c3EpT : PlexEpisode :=
  { grandparentTitle := "Alpha", parentIndex := 1, index := 1,
    lastViewedAt := some 1700000000, guid := "", guids := [] }

/-- C3 witness: a found episode with a nonzero reported timestamp is marked
watched at the converted epoch time. -/
theorem syncEpisode_merge_spec_witness :
    c3Db.seasons.find?
      (fun r => r.showId == 7 && r.seasonNumber == c3EpT.parentIndex) = some c3Season ∧
    c3Db.episodes.find?
      (fun e => e.seasonId == c3Season.id && e.episodeNumber == c3EpT.index) =
        some c3Episode ∧
    (∃ row, (syncEpisode 999 "u" 7 c3EpT c3Db).userEpisodes.find?
        (fun r => r.userId == "u" && r.episodeId == c3Episode.id) = some row ∧
      row.watched = true ∧ row.watchedAt = jsWatchedAt c3EpT.lastViewedAt 999) := by
  refine ⟨by decide, by decide, ?_⟩
  exact (syncEpisode_merge_spec 999 "u" 7 c3EpT c3Db).1 c3Season (by decide) c3Episode
    (by decide)

/-- C9: for an already-existing UserEpisode row, the upsert unconditionally
overwrites both `watched` and `watchedAt` with the newly computed values;
with no reported timestamp the new `watchedAt` is the current time, so the
previously stored value is not preserved. -/
theorem syncEpisode_upsert_overwrites (now : Nat) (u : String) (showId : Nat)
    (ep : PlexEpisode) (db : Db) :
    ∀ sr, db.seasons.find?
        (fun r => r.showId == showId && r.seasonNumber == ep.parentIndex) = some sr →
    ∀ er, db.episodes.find?
        (fun e => e.seasonId == sr.id && e.episodeNumber == ep.index) = some er →
    (db.userEpisodes.any fun r => r.userId == u && r.episodeId == er.id) = true →
      (syncEpisode now u showId ep db).userEpisodes =
        (db.userEpisodes.map fun r =>
          if r.userId == u && r.episodeId == er.id then
            { r with watched := true, watchedAt := jsWatchedAt ep.lastViewedAt now }
          else r) ∧
      (ep.lastViewedAt = none → jsWatchedAt ep.lastViewedAt now = now) := by
  intro sr hsr er her hany
  constructor
  · unfold syncEpisode
    simp only [hsr, her]
    rw [if_pos hany]
  · intro h
    simp only [jsWatchedAt, h]

/-- Merger fixture with a pre-existing watched UserEpisode (watchedAt 111). -/
def c9Db : Db :=
  { c3Db with userEpisodes := [{ userId := "u", episodeId := 3, watched := true, watchedAt := 111 }] }

/-- A re-reported watched item with no timestamp. -/
def c9Ep : PlexEpisode :=
  { grandparentTitle := "Alpha", parentIndex := 1, index := 1, lastViewedAt := none,
    guid := "", guids := [] }

/-- C9 witness: re-merging an already-watched item with no source timestamp
replaces the stored watchedAt (111) with the current time. -/
theorem syncEpisode_upsert_overwrites_witness :
    c9Db.seasons.find?
      (fun r => r.showId == 7 && r.seasonNumber == c9Ep.parentIndex) = some c3Season ∧
    c9Db.episodes.find?
      (fun e => e.seasonId == c3Season.id && e.episodeNumber == c9Ep.index) =
        some c3Episode ∧
    (c9Db.userEpisodes.any fun r => r.userId == "u" && r.episodeId == c3Episode.id) = true ∧
    ((syncEpisode 999 "u" 7 c9Ep c9Db).userEpisodes =
        (c9Db.userEpisodes.map fun r : UserEpisodeRow =>
          if r.userId == "u" && r.episodeId == c3Episode.id then
            { r with watched := true, watchedAt := jsWatchedAt c9Ep.lastViewedAt 999 }
          else r) ∧
      (c9Ep.lastViewedAt = none → jsWatchedAt c9Ep.lastViewedAt 999 = 999)) := by
  refine ⟨by decide, by decide, by decide, ?_⟩
  exact syncEpisode_upsert_overwrites 999 "u" 7 c9Ep c9Db c3Season (by decide) c3Episode
    (by decide) (by decide)

/-! ## C7: Library Membership Manager leaves existing UserShow rows alone -/

/-- C7: within a successful `syncShow` run, when no UserShow row exists for
(user, resolved show) one is created with the fixed default status
`ongoing` and no rating; when one already exists, the user-show table —
every field of every row — is left completely unchanged. -/
theorem userShow_membership_preserved (env : Env) (now : Nat) (u : String)
    (title : String) (eps : List PlexEpisode) (db db' : Db)
    (h : syncShow env now u title eps db = .ok db')
    (t : TraktShow) (ht : resolvedShow env title eps = .ok t) :
    (∀ r, db.userShows.find?
        (fun x => x.userId == u && x.showId == (ensureShow env t db).2.id) = some r →
      db'.userShows = db.userShows) ∧
    (db.userShows.find?
        (fun x => x.userId == u && x.showId == (ensureShow env t db).2.id) = none →
      db'.userShows = db.userShows ++
        [{ userId := u, showId := (ensureShow env t db).2.id, status := "ongoing",
           rating := none }]) := by
  unfold syncShow at h
  rw [ht] at h
  have h' : db' = ((eps.foldl (fun d pe => syncEpisode now u (ensureShow env t db).2.id pe d)
      (createAllShowEpisodes env (ensureShow env t db).2.id t.ids.trakt
        (ensureUserShow u (ensureShow env t db).2.id (ensureShow env t db).1)))) := by
    cases h
    rfl
  have hus : db'.userShows =
      (ensureUserShow u (ensureShow env t db).2.id (ensureShow env t db).1).userShows := by
    rw [h', syncEpisodesFold_userShows, createAllShowEpisodes_userShows]
  constructor
  · intro r hr
    rw [hus]
    unfold ensureUserShow
    rw [ensureShow_userShows, hr]
    exact ensureShow_userShows env t db
  · intro hnone
    rw [hus]
    unfold ensureUserShow
    rw [ensureShow_userShows, hnone]

/-- A pre-existing membership row with a manual status and rating. -/
def c7UserShow : UserShowRow :=
  { userId := "u", showId := 1, status := "completed", rating := some 7 }

/-- A database where Alpha and its UserShow (status `completed`, rating 7)
already exist. -/
def c7Db : Db :=
  { integrations := []
    shows := [{ id := 1, traktId := 500, title := "Alpha", overview := "", poster := none,
                status := "ended", genres := [], network := "", runtime := 0, firstAired := none }]
    seasons := [], episodes := []
    userShows := [c7UserShow]
    userEpisodes := [], syncLogs := [], nextId := 5 }

/-- The watched Alpha episode used by the C7 witness. -/
def c7Ep : PlexEpisode :=
  { grandparentTitle := "Alpha", parentIndex := 1, index := 1, lastViewedAt := none,
    guid := "", guids := [{ id := "tmdb://900" }] }

/-- The database `syncShow` produces in the C7 scenario. -/
def c7Out : Db :=
  match syncShow sampleEnv 0 "u" "Alpha" [c7Ep] c7Db with
  | .ok d => d
  | .error _ => c7Db

/-- C7 witness: a pre-existing UserShow with a manual status and rating
survives a sync run byte-for-byte. -/
theorem userShow_membership_preserved_witness :
    syncShow sampleEnv 0 "u" "Alpha" [c7Ep] c7Db = .ok c7Out ∧
    resolvedShow sampleEnv "Alpha" [c7Ep] = .ok alphaShow ∧
    c7Db.userShows.find?
      (fun x => x.userId == "u" && x.showId == (ensureShow sampleEnv alphaShow c7Db).2.id) =
      some c7UserShow ∧
    c7Out.userShows = c7Db.userShows := by
  refine ⟨by decide, by decide, by decide, ?_⟩
  exact (userShow_membership_preserved sampleEnv 0 "u" "Alpha" [c7Ep] c7Db c7Out
    (by decide) alphaShow (by decide)).1 c7UserShow (by decide)

/-! ## Counts are determined by the environment alone -/

lemma syncShow_error_iff (env : Env) (now : Nat) (u : String) (title : String)
    (eps : List PlexEpisode) (db : Db) (e : String) :
    syncShow env now u title eps db = .error e ↔ resolvedShow env title eps = .error e := by
  unfold syncShow
  cases hres : resolvedShow env title eps with
  | error e2 => simp
  | ok t => simp

lemma syncShow_ok_of_resolved (env : Env) (now : Nat) (u : String) (title : String)
    (eps : List PlexEpisode) (db : Db) (t : TraktShow)
    (hres : resolvedShow env title eps = .ok t) :
    syncShow env now u title eps db =
      .ok ((eps.foldl (fun d pe => syncEpisode now u (ensureShow env t db).2.id pe d)
        (createAllShowEpisodes env (ensureShow env t db).2.id t.ids.trakt
          (ensureUserShow u (ensureShow env t db).2.id (ensureShow env t db).1)))) := by
  unfold syncShow
  rw [hres]

lemma processGroups_counts (env : Env) (now : Nat) (u : String)
    (gs : List (String × List PlexEpisode)) (db : Db) :
    ((processGroups env now u gs db).1, (processGroups env now u gs db).2.1,
      (processGroups env now u gs db).2.2.1) = groupsCounts env gs := by
  induction gs generalizing db with
  | nil => rfl
  | cons g rest ih =>
    obtain ⟨title, eps⟩ := g
    cases hres : resolvedShow env title eps with
    | error e =>
      have hss : syncShow env now u title eps db = .error e := by
        unfold syncShow
        rw [hres]
      rw [processGroups, groupsCounts, hss, hres]
      show ((processGroups env now u rest db).1, (processGroups env now u rest db).2.1,
        ("Failed to sync " ++ title ++ ": " ++ e) :: (processGroups env now u rest db).2.2.1) =
        ((groupsCounts env rest).1, (groupsCounts env rest).2.1,
          ("Failed to sync " ++ title ++ ": " ++ e) :: (groupsCounts env rest).2.2)
      have h1 := congrArg Prod.fst (ih db)
      have h2 := congrArg (fun x : Nat × Nat × List String => x.2.1) (ih db)
      have h3 := congrArg (fun x : Nat × Nat × List String => x.2.2) (ih db)
      simp only at h1 h2 h3
      rw [h1, h2, h3]
    | ok t =>
      have hss := syncShow_ok_of_resolved env now u title eps db t hres
      rw [processGroups, groupsCounts, hss, hres]
      set db1 := (eps.foldl (fun d pe => syncEpisode now u (ensureShow env t db).2.id pe d)
        (createAllShowEpisodes env (ensureShow env t db).2.id t.ids.trakt
          (ensureUserShow u (ensureShow env t db).2.id (ensureShow env t db).1))) with hdb1
      show ((processGroups env now u rest db1).1 + 1,
        (processGroups env now u rest db1).2.1 + eps.length,
        (processGroups env now u rest db1).2.2.1) =
        ((groupsCounts env rest).1 + 1, (groupsCounts env rest).2.1 + eps.length,
          (groupsCounts env rest).2.2)
      have h1 := congrArg Prod.fst (ih db1)
      have h2 := congrArg (fun x : Nat × Nat × List String => x.2.1) (ih db1)
      have h3 := congrArg (fun x : Nat × Nat × List String => x.2.2) (ih db1)
      simp only at h1 h2 h3
      rw [h1, h2, h3]

lemma processLibraries_counts (env : Env) (now : Nat) (u : String)
    (serverUrl accessToken : String) (libs : List PlexLibrary) (db : Db) :
    ((processLibraries env now u serverUrl accessToken libs db).1,
      (processLibraries env now u serverUrl accessToken libs db).2.1,
      (processLibraries env now u serverUrl accessToken libs db).2.2.1) =
      libsCounts env serverUrl accessToken libs := by
  induction libs generalizing db with
  | nil => rfl
  | cons lib rest ih =>
    cases hw : env.getWatchedEpisodes serverUrl accessToken lib.key with
    | error e =>
      rw [processLibraries, libsCounts, hw]
      show ((processLibraries env now u serverUrl accessToken rest db).1,
        (processLibraries env now u serverUrl accessToken rest db).2.1,
        ("Failed to process library " ++ lib.title ++ ": " ++ e) ::
          (processLibraries env now u serverUrl accessToken rest db).2.2.1) =
        ((libsCounts env serverUrl accessToken rest).1,
          (libsCounts env serverUrl accessToken rest).2.1,
          ("Failed to process library " ++ lib.title ++ ": " ++ e) ::
            (libsCounts env serverUrl accessToken rest).2.2)
      have h1 := congrArg Prod.fst (ih db)
      have h2 := congrArg (fun x : Nat × Nat × List String => x.2.1) (ih db)
      have h3 := congrArg (fun x : Nat × Nat × List String => x.2.2) (ih db)
      simp only at h1 h2 h3
      rw [h1, h2, h3]
    | ok eps =>
      rw [processLibraries, libsCounts, hw]
      set db1 := (processGroups env now u (groupByShow eps) db).2.2.2 with hdb1
      show ((processGroups env now u (groupByShow eps) db).1 +
          (processLibraries env now u serverUrl accessToken rest db1).1,
        (processGroups env now u (groupByShow eps) db).2.1 +
          (processLibraries env now u serverUrl accessToken rest db1).2.1,
        (processGroups env now u (groupByShow eps) db).2.2.1 ++
          (processLibraries env now u serverUrl accessToken rest db1).2.2.1) = _
      have g1 := congrArg Prod.fst (processGroups_counts env now u (groupByShow eps) db)
      have g2 := congrArg (fun x : Nat × Nat × List String => x.2.1)
        (processGroups_counts env now u (groupByShow eps) db)
      have g3 := congrArg (fun x : Nat × Nat × List String => x.2.2)
        (processGroups_counts env now u (groupByShow eps) db)
      have h1 := congrArg Prod.fst (ih db1)
      have h2 := congrArg (fun x : Nat × Nat × List String => x.2.1) (ih db1)
      have h3 := congrArg (fun x : Nat × Nat × List String => x.2.2) (ih db1)
      simp only at g1 g2 g3 h1 h2 h3
      rw [g1, g2, g3, h1, h2, h3]

/-! ## C5: per-show error isolation and counters -/

/-- What `groupsCounts` computes, spelled out. -/
lemma groupsCounts_spec (env : Env) (gs : List (String × List PlexEpisode)) :
    (groupsCounts env gs).1 =
      (gs.filter fun g => exceptOkB (resolvedShow env g.1 g.2)).length ∧
    (groupsCounts env gs).2.1 =
      ((gs.filter fun g => exceptOkB (resolvedShow env g.1 g.2)).map fun g => g.2.length).sum ∧
    (groupsCounts env gs).2.2 =
      gs.filterMap fun g =>
        match resolvedShow env g.1 g.2 with
        | .error m => some ("Failed to sync " ++ g.1 ++ ": " ++ m)
        | .ok _ => none := by
  induction gs with
  | nil => exact ⟨rfl, rfl, rfl⟩
  | cons g rest ih =>
    obtain ⟨title, eps⟩ := g
    cases hres : resolvedShow env title eps with
    | error e =>
      simp only [exceptOkB] at ih
      rw [groupsCounts]
      simp only [hres, List.filter_cons, List.filterMap_cons, List.map_cons, List.sum_cons,
        exceptOkB, Bool.false_eq_true, if_false]
      exact ⟨ih.1, ih.2.1, by rw [ih.2.2]⟩
    | ok t =>
      simp only [exceptOkB] at ih
      rw [groupsCounts]
      simp only [hres, List.filter_cons, List.filterMap_cons, List.map_cons, List.sum_cons,
        exceptOkB, if_true, List.length_cons]
      refine ⟨by rw [ih.1], by rw [ih.2.1]; omega, by rw [ih.2.2]⟩

/-- The database `syncPlexToDatabase` leaves behind in the sample 3-show
scenario. -/
def sampleRun1Db : Db :=
  match syncPlexToDatabase sampleEnv 999 "u" sampleDb with
  | .ok p => p.2
  | .error _ => sampleDb

/-- C5: for every show group, a failing per-show chain appends
`Failed to sync <title>: <message>` to the error list and leaves both
counters untouched while processing continues; a successful group adds 1 to
`showsSynced` and the group's reported item count to `episodesSynced`.
Concretely, in a batch of 3 shows where the resolver throws for exactly one
(Beta), the run returns `showsSynced = 2` with a single error naming Beta,
without throwing. -/
theorem per_show_error_isolation (env : Env) (now : Nat) (u : String)
    (gs : List (String × List PlexEpisode)) (db : Db) :
    ((processGroups env now u gs db).1 =
      (gs.filter fun g => exceptOkB (resolvedShow env g.1 g.2)).length ∧
     (processGroups env now u gs db).2.1 =
      ((gs.filter fun g => exceptOkB (resolvedShow env g.1 g.2)).map fun g => g.2.length).sum ∧
     (processGroups env now u gs db).2.2.1 =
      (gs.filterMap fun g =>
        match resolvedShow env g.1 g.2 with
        | .error m => some ("Failed to sync " ++ g.1 ++ ": " ++ m)
        | .ok _ => none)) ∧
    syncPlexToDatabase sampleEnv 999 "u" sampleDb =
      .ok ({ showsSynced := 2, episodesSynced := 3,
             errors := ["Failed to sync Beta: Could not find show on Trakt: Beta"] },
           sampleRun1Db) := by
  constructor
  · have hc := processGroups_counts env now u gs db
    have h1 := congrArg Prod.fst hc
    have h2 := congrArg (fun x : Nat × Nat × List String => x.2.1) hc
    have h3 := congrArg (fun x : Nat × Nat × List String => x.2.2) hc
    simp only at h1 h2 h3
    exact ⟨h1.trans (groupsCounts_spec env gs).1,
      h2.trans (groupsCounts_spec env gs).2.1,
      h3.trans (groupsCounts_spec env gs).2.2⟩
  · decide

/-! ## C6: exactly the configuration errors propagate -/

/-- The user's Integration row for the fixed provider is absent or
disabled. -/
def integrationMissingOrDisabled (db : Db) (u : String) : Prop :=
  match db.integrations.find? fun i => i.userId == u && i.provider == "plex" with
  | none => True
  | some i => i.enabled = false

/-- Credential decryption fails for the user's (enabled) integration. -/
def decryptFails (env : Env) (db : Db) (u : String) : Prop :=
  ∃ i, (db.integrations.find? fun i => i.userId == u && i.provider == "plex") = some i ∧
    i.enabled = true ∧ ∃ e, env.decryptToken i.accessToken = .error e

/-- The media server reports an empty set of TV libraries. -/
def noTVLibraries (env : Env) (db : Db) (u : String) : Prop :=
  ∃ i tok, (db.integrations.find? fun i => i.userId == u && i.provider == "plex") = some i ∧
    i.enabled = true ∧ env.decryptToken i.accessToken = .ok tok ∧
    env.getTVLibraries i.serverUrl tok = .ok []

/-- The TV-library listing call itself throws (network failure, unreachable
server, ...). -/
def libraryListingFails (env : Env) (db : Db) (u : String) : Prop :=
  ∃ i tok, (db.integrations.find? fun i => i.userId == u && i.provider == "plex") = some i ∧
    i.enabled = true ∧ env.decryptToken i.accessToken = .ok tok ∧
    ∃ e, env.getTVLibraries i.serverUrl tok = .error e

/-- **C6 (amended).**  `syncPlexToDatabase` propagates an exception to its
caller exactly when one of the startup steps fails: the Integration row is
absent or disabled, credential decryption fails, the TV-library listing
call itself throws, or the listing succeeds with an empty library set.
Per-show and per-library failures never propagate (the library/show loops
are total and only accumulate strings into the returned error list). -/
theorem runSync_throws_iff_startup_error (env : Env) (now : Nat) (u : String) (db : Db) :
    (∃ e, syncPlexToDatabase env now u db = .error e) ↔
      integrationMissingOrDisabled db u ∨ decryptFails env db u ∨
        libraryListingFails env db u ∨ noTVLibraries env db u := by
  unfold syncPlexToDatabase integrationMissingOrDisabled decryptFails libraryListingFails
    noTVLibraries
  cases hI : db.integrations.find? fun i => i.userId == u && i.provider == "plex" with
  | none =>
    simp only [hI]
    exact ⟨fun _ => Or.inl trivial, fun _ => ⟨"Plex integration not found or disabled", rfl⟩⟩
  | some i =>
    simp only [hI]
    cases hEn : i.enabled with
    | false =>
      constructor
      · intro _
        exact Or.inl rfl
      · intro _
        exact ⟨"Plex integration not found or disabled", rfl⟩
    | true =>
      simp only [Bool.not_true, Bool.false_eq_true, if_false]
      cases hD : env.decryptToken i.accessToken with
      | error e0 =>
        dsimp only
        constructor
        · intro _
          exact Or.inr (Or.inl ⟨i, rfl, hEn, e0, hD⟩)
        · intro _
          exact ⟨e0, rfl⟩
      | ok tok =>
        dsimp only
        cases hTV : env.getTVLibraries i.serverUrl tok with
        | error eL =>
          dsimp only
          constructor
          · intro _
            exact Or.inr (Or.inr (Or.inl ⟨i, tok, rfl, hEn, hD, eL, hTV⟩))
          · intro _
            exact ⟨eL, rfl⟩
        | ok libs =>
          dsimp only
          by_cases hL : (libs.length == 0) = true
          · rw [if_pos hL]
            constructor
            · intro _
              have hlen : libs = [] := List.length_eq_zero.mp (by simpa using hL)
              exact Or.inr (Or.inr (Or.inr ⟨i, tok, rfl, hEn, hD, by rw [hTV, hlen]⟩))
            · intro _
              exact ⟨"No TV libraries found on Plex server", rfl⟩
          · rw [if_neg hL]
            constructor
            · intro he
              obtain ⟨e, he⟩ := he
              exact Except.noConfusion he
            · intro h
              exfalso
              rcases h with h | ⟨i2, hi2, hen2, e2, he2⟩ |
                ⟨i2, tok2, hi2, hen2, hd2, e2, htv2⟩ | ⟨i2, tok2, hi2, hen2, hd2, hl2⟩
              · simp at h
              · cases hi2
                rw [hD] at he2
                exact Except.noConfusion he2
              · cases hi2
                rw [hD] at hd2
                cases hd2
                rw [hTV] at htv2
                exact Except.noConfusion htv2
              · cases hi2
                rw [hD] at hd2
                cases hd2
                rw [hTV] at hl2
                injection hl2 with hl3
                rw [hl3] at hL
                exact hL rfl

/-- The integration row `sampleDb` stores. -/
def c6Integ : IntegrationRow :=
  { id := 1, userId := "u", provider := "plex", enabled := true, autoSync := true,
    accessToken := "enc", serverUrl := "http://plex", lastSync := none }

/-- Environment identical to `sampleEnv` except that the TV-library listing
call throws. -/
def c6Env : Env :=
  { sampleEnv with getTVLibraries := fun _ _ => .error "Network Error" }

/-- **C6 counterexample.**  With the integration present and enabled,
decryption succeeding and no empty library set ever reported, a thrown
TV-library listing still propagates out of `syncPlexToDatabase`: the
original three-way enumeration of propagating errors is incomplete. -/
theorem runSync_throws_on_listing_failure :
    syncPlexToDatabase c6Env 999 "u" sampleDb = .error "Network Error" ∧
    ¬ integrationMissingOrDisabled sampleDb "u" ∧
    ¬ decryptFails c6Env sampleDb "u" ∧
    ¬ noTVLibraries c6Env sampleDb "u" := by
  refine ⟨by decide, ?_, ?_, ?_⟩
  · intro h
    unfold integrationMissingOrDisabled at h
    rw [show (sampleDb.integrations.find? fun i => i.userId == "u" && i.provider == "plex") =
      some c6Integ from by decide] at h
    exact absurd h (by decide)
  · rintro ⟨i, hi, _, e, hd⟩
    rw [show (sampleDb.integrations.find? fun i => i.userId == "u" && i.provider == "plex") =
      some c6Integ from by decide] at hi
    injection hi with hi2
    rw [← hi2] at hd
    rw [show c6Env.decryptToken c6Integ.accessToken = Except.ok "tok" from by decide] at hd
    exact Except.noConfusion hd
  · rintro ⟨i, tok, hi, _, hd, hl⟩
    rw [show (sampleDb.integrations.find? fun i => i.userId == "u" && i.provider == "plex") =
      some c6Integ from by decide] at hi
    injection hi with hi2
    rw [← hi2] at hd hl
    rw [show c6Env.decryptToken c6Integ.accessToken = Except.ok "tok" from by decide] at hd
    injection hd with hd2
    rw [← hd2] at hl
    rw [show c6Env.getTVLibraries c6Integ.serverUrl "tok" = Except.error "Network Error"
      from by decide] at hl
    exact Except.noConfusion hl

/-! ## C8: scheduled batch — statuses and per-user isolation -/

/-- C8: in a scheduled batch the auto-sync integrations are enumerated once
and processed sequentially; the batch over `l1 ++ l2` equals processing `l2`
from whatever state processing `l1` left, whatever failures occurred there
(the per-user step is total: thrown orchestrator errors and SyncLog
persistence failures are absorbed).  A completed run is logged with status
`success` when its error list is empty and `partial` otherwise; a thrown
run is logged with status `error`; a failed persist of the run log falls to
the catch block and still leaves the loop running. -/
theorem scheduled_sync_isolation (env : Env) (now : Nat) (db : Db) :
    (runScheduledSync env now db =
      processScheduledUsers env now (autoSyncIntegrations db) db) ∧
    (∀ l1 l2 dbx, processScheduledUsers env now (l1 ++ l2) dbx =
      processScheduledUsers env now l2 (processScheduledUsers env now l1 dbx)) ∧
    (∀ dbx integ r db1, syncPlexToDatabase env now integ.userId dbx = .ok (r, db1) →
      env.logCreate (runLogRow integ r) = none →
      syncUserStep env now dbx integ =
        updateIntegrationLastSync integ.id now
          { db1 with syncLogs := db1.syncLogs ++ [runLogRow integ r] } ∧
      (r.errors.length = 0 → (runLogRow integ r).status = "success") ∧
      (r.errors.length > 0 → (runLogRow integ r).status = "partial")) ∧
    (∀ dbx integ r db1 msg, syncPlexToDatabase env now integ.userId dbx = .ok (r, db1) →
      env.logCreate (runLogRow integ r) = some msg →
      syncUserStep env now dbx integ = logSyncFailure env integ.userId msg db1) ∧
    (∀ dbx integ e, syncPlexToDatabase env now integ.userId dbx = .error e →
      env.logCreate (syncFailureRow integ.userId e) = none →
      syncUserStep env now dbx integ =
        { dbx with syncLogs := dbx.syncLogs ++ [syncFailureRow integ.userId e] } ∧
      (syncFailureRow integ.userId e).status = "error") := by
  refine ⟨rfl, ?_, ?_, ?_, ?_⟩
  · intro l1 l2 dbx
    unfold processScheduledUsers
    exact List.foldl_append ..
  · intro dbx integ r db1 hs hl
    refine ⟨?_, ?_, ?_⟩
    · unfold syncUserStep
      rw [hs]
      dsimp only
      rw [hl]
    · intro h0
      unfold runLogRow
      simp only [h0]
      rfl
    · intro h0
      unfold runLogRow
      simp only [if_pos h0]
  · intro dbx integ r db1 msg hs hl
    unfold syncUserStep
    rw [hs]
    dsimp only
    rw [hl]
  · intro dbx integ e hs hl
    constructor
    · unfold syncUserStep
      rw [hs]
      dsimp only
      unfold logSyncFailure
      rw [hl]
    · rfl

/-- The failing-user integration: its stored credential cannot be
decrypted. -/
def wInteg : IntegrationRow :=
  { id := 3, userId := "w", provider := "plex", enabled := true, autoSync := true,
    accessToken := "bad", serverUrl := "http://plex", lastSync := none }

/-- Environment whose persistence layer rejects any SyncLog for user "u". -/
def c8Env : Env :=
  { sampleEnv with logCreate := fun row => if row.userId == "u" then some "db down" else none }

/-- Two auto-sync users: "u" (whose log persists fail) and "w" (whose run
throws at decryption). -/
def c8Db : Db :=
  { sampleDb with integrations := sampleDb.integrations ++ [wInteg] }

/-- C8 witness: user w's thrown run is recorded as an `error`-status log,
and the two-user batch equals processing w after u — u's persistence
failures do not stop the batch. -/
theorem scheduled_sync_isolation_witness :
    syncPlexToDatabase c8Env 999 wInteg.userId c8Db = .error "bad token" ∧
    c8Env.logCreate (syncFailureRow wInteg.userId "bad token") = none ∧
    (syncUserStep c8Env 999 c8Db wInteg =
        { c8Db with syncLogs := c8Db.syncLogs ++ [syncFailureRow wInteg.userId "bad token"] } ∧
      (syncFailureRow wInteg.userId "bad token").status = "error") ∧
    processScheduledUsers c8Env 999 (autoSyncIntegrations c8Db) c8Db =
      processScheduledUsers c8Env 999 [wInteg]
        (processScheduledUsers c8Env 999 [sampleDb.integrations.head?.getD wInteg] c8Db) := by
  refine ⟨by decide, by decide, ?_, ?_⟩
  · exact (scheduled_sync_isolation c8Env 999 c8Db).2.2.2.2 c8Db wInteg "bad token"
      (by decide) (by decide)
  · have h := (scheduled_sync_isolation c8Env 999 c8Db).2.1
      [sampleDb.integrations.head?.getD wInteg] [wInteg] c8Db
    rw [show autoSyncIntegrations c8Db = [sampleDb.integrations.head?.getD wInteg] ++ [wInteg] by decide] at *
    exact h

/-! ## C2: Catalog Populator completeness — helper layer -/

/-- The provider-reported non-special seasons (`number > 0`). -/
def posSeasons (l : List TraktSeasonData) : List TraktSeasonData :=
  l.filter fun sd => decide (0 < sd.number)

lemma posSeasons_mem {l : List TraktSeasonData} {sd : TraktSeasonData} :
    sd ∈ posSeasons l ↔ sd ∈ l ∧ 0 < sd.number := by
  unfold posSeasons
  simp

lemma exceptOkB_iff {ε α : Type} (x : Except ε α) :
    exceptOkB x = true ↔ ∃ a, x = .ok a := by
  cases x <;> simp [exceptOkB]

lemma seasonMatches_some_iff (t : Nat) (showId : Nat) (n : Int) (r : SeasonRow) :
    seasonMatches (some t) showId n r = true ↔
      (r.traktId = some t ∨ (r.showId = showId ∧ r.seasonNumber = n)) := by
  unfold seasonMatches
  simp

/-- Episode count over a row list. -/
def epCountL (eps : List EpisodeRow) (sid : Nat) : Nat :=
  (eps.filter fun e => e.seasonId == sid).length

lemma epCount_eq_epCountL (db : Db) (sid : Nat) : db.epCount sid = epCountL db.episodes sid := rfl

lemma epCountL_append (l1 l2 : List EpisodeRow) (sid : Nat) :
    epCountL (l1 ++ l2) sid = epCountL l1 sid + epCountL l2 sid := by
  unfold epCountL
  rw [List.filter_append, List.length_append]

lemma epCountL_zero_iff (l : List EpisodeRow) (sid : Nat) :
    epCountL l sid = 0 ↔ ∀ e ∈ l, ¬ e.seasonId = sid := by
  unfold epCountL
  rw [List.length_eq_zero, List.filter_eq_nil_iff]
  simp

lemma epCountL_all (l : List EpisodeRow) (sid : Nat) (h : ∀ e ∈ l, e.seasonId = sid) :
    epCountL l sid = l.length := by
  unfold epCountL
  rw [List.filter_eq_self.mpr]
  intro e he
  simp [h e he]

lemma epCountL_none (l : List EpisodeRow) (sid : Nat) (h : ∀ e ∈ l, ¬ e.seasonId = sid) :
    epCountL l sid = 0 := (epCountL_zero_iff l sid).mpr h

/-- `createEpisodes` on a season none of whose provider episode numbers are
present yet: every row is inserted, in order. -/
lemma createEpisodes_spec (sid : Nat) (eps : List TraktEpisodeData) (db : Db)
    (habs : ∀ pe ∈ eps, ∀ e ∈ db.episodes, ¬ (e.seasonId = sid ∧ e.episodeNumber = pe.number))
    (hnodup : (eps.map fun pe => pe.number).Nodup) :
    ∃ l, (createEpisodes sid eps db).episodes = db.episodes ++ l ∧
      (∀ e ∈ l, e.seasonId = sid) ∧
      l.length = eps.length ∧
      (∀ pe ∈ eps, ∃ e ∈ l, e.seasonId = sid ∧ e.episodeNumber = pe.number) ∧
      db.nextId ≤ (createEpisodes sid eps db).nextId := by
  induction eps generalizing db with
  | nil => exact ⟨[], by simp [createEpisodes], by simp, rfl, by simp, le_refl _⟩
  | cons pe rest ih =>
    have hany : (db.episodes.any fun e => e.seasonId == sid && e.episodeNumber == pe.number) =
        false := by
      rw [List.any_eq_false]
      intro e he
      simp only [Bool.and_eq_true, beq_iff_eq]
      intro hc
      exact habs pe (List.mem_cons_self pe rest) e he hc
    have hstep : createEpisode sid pe db =
        { db with
          episodes := db.episodes ++ [mkEpisodeRow db.nextId sid pe]
          nextId := db.nextId + 1 } := by
      unfold createEpisode
      rw [if_neg (by rw [hany]; exact Bool.false_ne_true)]
    have hrest : createEpisodes sid (pe :: rest) db =
        createEpisodes sid rest (createEpisode sid pe db) := rfl
    set db1 : Db := { db with
      episodes := db.episodes ++ [mkEpisodeRow db.nextId sid pe]
      nextId := db.nextId + 1 } with hdb1
    have habs1 : ∀ pe2 ∈ rest, ∀ e ∈ db1.episodes,
        ¬ (e.seasonId = sid ∧ e.episodeNumber = pe2.number) := by
      intro pe2 hpe2 e he
      rw [hdb1] at he
      simp only [List.mem_append, List.mem_singleton] at he
      rcases he with he | he
      · exact habs pe2 (List.mem_cons_of_mem pe hpe2) e he
      · subst he
        intro hc
        have : pe.number = pe2.number := hc.2
        have hne : pe.number ∉ rest.map fun pe => pe.number := by
          rw [List.map_cons] at hnodup
          exact (List.nodup_cons.mp hnodup).1
        exact hne (this ▸ List.mem_map_of_mem _ hpe2)
    have hnodup1 : (rest.map fun pe => pe.number).Nodup := by
      rw [List.map_cons] at hnodup
      exact (List.nodup_cons.mp hnodup).2
    obtain ⟨l, hl1, hl2, hl3, hl4, hl5⟩ := ih db1 habs1 hnodup1
    refine ⟨mkEpisodeRow db.nextId sid pe :: l, ?_, ?_, ?_, ?_, ?_⟩
    · rw [hrest, hstep, hl1]
      show (db.episodes ++ [mkEpisodeRow db.nextId sid pe]) ++ l = _
      simp
    · intro e he
      rcases List.mem_cons.mp he with he | he
      · subst he
        rfl
      · exact hl2 e he
    · simp [hl3]
    · intro pe2 hpe2
      rcases List.mem_cons.mp hpe2 with he | he
      · subst he
        exact ⟨mkEpisodeRow db.nextId sid pe2, List.mem_cons_self .., rfl, rfl⟩
      · obtain ⟨e, hmem, hp⟩ := hl4 pe2 he
        exact ⟨e, List.mem_cons_of_mem _ hmem, hp⟩
    · rw [hrest, hstep]
      exact le_trans (Nat.le_succ db.nextId) hl5

lemma posSeasons_cons_pos {sd : TraktSeasonData} {rest : List TraktSeasonData}
    (h : 0 < sd.number) : posSeasons (sd :: rest) = sd :: posSeasons rest := by
  unfold posSeasons
  rw [List.filter_cons, if_pos (by simpa using h)]

lemma posSeasons_cons_neg {sd : TraktSeasonData} {rest : List TraktSeasonData}
    (h : ¬ 0 < sd.number) : posSeasons (sd :: rest) = posSeasons rest := by
  unfold posSeasons
  rw [List.filter_cons, if_neg (by simpa using h)]

lemma epsOf_of_ok {env : Env} {tSid : Nat} {n : Int} {l : List TraktEpisodeData}
    (h : env.getSeasonEpisodes tSid n = .ok l) : epsOf env tSid n = l := by
  unfold epsOf
  rw [h]

lemma lookupSeason_seasons_eq {db db2 : Db} (h : db2.seasons = db.seasons)
    (tid : Option Nat) (showId : Nat) (n : Int) :
    lookupSeason db2 tid showId n = lookupSeason db tid showId n := by
  unfold lookupSeason
  rw [h]

lemma find?_append_not {α : Type} {p : α → Bool} {l1 l2 : List α}
    (h2 : ∀ x ∈ l2, ¬ p x = true) : (l1 ++ l2).find? p = l1.find? p := by
  cases hl : l1.find? p with
  | some a => exact find?_append_some _ hl
  | none => rw [find?_append_none _ hl, List.find?_eq_none.mpr h2]

lemma epCountL_preserved (lold lnew : List EpisodeRow) (sid : Nat)
    (h : ∀ e ∈ lnew, ¬ e.seasonId = sid) :
    epCountL (lold ++ lnew) sid = epCountL lold sid := by
  rw [epCountL_append, epCountL_none _ _ h, Nat.add_zero]

lemma seasons_id_inj {rows : List SeasonRow} (hN : (rows.map fun r => r.id).Nodup)
    {r r2 : SeasonRow} (h1 : r ∈ rows) (h2 : r2 ∈ rows) (h : r.id = r2.id) : r = r2 :=
  List.inj_on_of_nodup_map hN h1 h2 h

/-- Hypotheses under which one populate pass is fully characterised: all
per-season fetches succeed, the provider reports distinct season numbers and
distinct (present) season trakt ids with distinct episode numbers, season
trakt ids stored in the database agree with the provider's assignment, every
already-populated season of the show is completely populated, and row ids
are consistent with the id counter. -/
structure PopH (env : Env) (showId tSid : Nat) (db : Db)
    (pending : List TraktSeasonData) : Prop where
  fetch_ok : ∀ sd ∈ pending, 0 < sd.number →
    exceptOkB (env.getSeasonEpisodes tSid sd.number) = true
  nums : ((posSeasons pending).map fun sd => sd.number).Nodup
  tids : ((posSeasons pending).map fun sd => sd.traktId).Nodup
  tids_some : ∀ sd ∈ pending, 0 < sd.number → sd.traktId.isSome = true
  epnums : ∀ sd ∈ pending, 0 < sd.number →
    ((epsOf env tSid sd.number).map fun pe => pe.number).Nodup
  cross : ∀ r ∈ db.seasons, ∀ sd ∈ pending, 0 < sd.number → r.traktId = sd.traktId →
    r.showId = showId ∧ r.seasonNumber = sd.number
  pre_full : ∀ r ∈ db.seasons, r.showId = showId → ∀ sd ∈ pending, 0 < sd.number →
    r.seasonNumber = sd.number →
    db.epCount r.id = 0 ∨
      (db.epCount r.id = (epsOf env tSid sd.number).length ∧
        ∀ pe ∈ epsOf env tSid sd.number, ∃ e ∈ db.episodes,
          e.seasonId = r.id ∧ e.episodeNumber = pe.number)
  wf_sid : ∀ r ∈ db.seasons, r.id < db.nextId
  wf_nodup : (db.seasons.map fun r => r.id).Nodup
  wf_eid : ∀ e ∈ db.episodes, e.seasonId < db.nextId

/-- What one populate pass guarantees: season rows only get appended (one
per provider season that had no matching row, in order), episode rows only
get appended (to fresh season rows or to this show's provider seasons), the
id counter only grows, well-formedness is preserved, and afterwards every
provider-reported non-special season is found by the season lookup as a row
of this show with exactly the provider's episodes. -/
structure PopRes (env : Env) (showId tSid : Nat) (db db' : Db)
    (pending : List TraktSeasonData) : Prop where
  seasons_ext : ∃ l, db'.seasons = db.seasons ++ l ∧
    (∀ rn ∈ l, rn.showId = showId ∧ db.nextId ≤ rn.id) ∧
    l.map (fun rn => rn.seasonNumber) =
      ((posSeasons pending).filter fun sd =>
        (lookupSeason db sd.traktId showId sd.number).isNone).map fun sd => sd.number
  eps_ext : ∃ l, db'.episodes = db.episodes ++ l ∧
    ∀ e ∈ l, db.nextId ≤ e.seasonId ∨
      ∃ r0 ∈ db.seasons, e.seasonId = r0.id ∧ r0.showId = showId ∧
        ∃ sd ∈ posSeasons pending, r0.seasonNumber = sd.number
  nextId_le : db.nextId ≤ db'.nextId
  wf_sid : ∀ r ∈ db'.seasons, r.id < db'.nextId
  wf_nodup : (db'.seasons.map fun r => r.id).Nodup
  wf_eid : ∀ e ∈ db'.episodes, e.seasonId < db'.nextId
  done : ∀ sd ∈ pending, 0 < sd.number →
    ∃ r, lookupSeason db' sd.traktId showId sd.number = some r ∧
      r.showId = showId ∧ r.seasonNumber = sd.number ∧
      db'.epCount r.id = (epsOf env tSid sd.number).length ∧
      ∀ pe ∈ epsOf env tSid sd.number, ∃ e ∈ db'.episodes,
        e.seasonId = r.id ∧ e.episodeNumber = pe.number

lemma PopH.tail {env : Env} {showId tSid : Nat} {db : Db} {sd : TraktSeasonData}
    {rest : List TraktSeasonData} (H : PopH env showId tSid db (sd :: rest)) :
    PopH env showId tSid db rest := by
  have hsub : ∀ x ∈ posSeasons rest, x ∈ posSeasons (sd :: rest) := by
    intro x hx
    rw [posSeasons_mem] at hx ⊢
    exact ⟨List.mem_cons_of_mem sd hx.1, hx.2⟩
  constructor
  case fetch_ok => exact fun s hs h0 => H.fetch_ok s (List.mem_cons_of_mem sd hs) h0
  case nums =>
    by_cases h : 0 < sd.number
    · have := H.nums
      rw [posSeasons_cons_pos h, List.map_cons, List.nodup_cons] at this
      exact this.2
    · have := H.nums
      rwa [posSeasons_cons_neg h] at this
  case tids =>
    by_cases h : 0 < sd.number
    · have := H.tids
      rw [posSeasons_cons_pos h, List.map_cons, List.nodup_cons] at this
      exact this.2
    · have := H.tids
      rwa [posSeasons_cons_neg h] at this
  case tids_some => exact fun s hs h0 => H.tids_some s (List.mem_cons_of_mem sd hs) h0
  case epnums => exact fun s hs h0 => H.epnums s (List.mem_cons_of_mem sd hs) h0
  case cross => exact fun r hr s hs h0 ht => H.cross r hr s (List.mem_cons_of_mem sd hs) h0 ht
  case pre_full =>
    exact fun r hr hshow s hs h0 hn => H.pre_full r hr hshow s (List.mem_cons_of_mem sd hs) h0 hn
  case wf_sid => exact H.wf_sid
  case wf_nodup => exact H.wf_nodup
  case wf_eid => exact H.wf_eid

lemma lookup_some_props {env : Env} {showId tSid : Nat} {db : Db} {sd : TraktSeasonData}
    {rest : List TraktSeasonData} (H : PopH env showId tSid db (sd :: rest))
    (hpos : 0 < sd.number) {r : SeasonRow}
    (h : lookupSeason db sd.traktId showId sd.number = some r) :
    r ∈ db.seasons ∧ r.showId = showId ∧ r.seasonNumber = sd.number := by
  have hmem := List.mem_of_find?_eq_some h
  have hp := List.find?_some h
  obtain ⟨t, ht⟩ := Option.isSome_iff_exists.mp (H.tids_some sd (List.mem_cons_self ..) hpos)
  rw [ht] at hp
  rcases (seasonMatches_some_iff t showId sd.number r).mp hp with h1 | h2
  · have := H.cross r hmem sd (List.mem_cons_self ..) hpos (by rw [ht, h1])
    exact ⟨hmem, this.1, this.2⟩
  · exact ⟨hmem, h2.1, h2.2⟩

lemma nums_head_not_in_rest {env : Env} {showId tSid : Nat} {db : Db} {sd : TraktSeasonData}
    {rest : List TraktSeasonData} (H : PopH env showId tSid db (sd :: rest))
    (hpos : 0 < sd.number) :
    sd.number ∉ (posSeasons rest).map fun s => s.number := by
  have := H.nums
  rw [posSeasons_cons_pos hpos, List.map_cons, List.nodup_cons] at this
  exact this.1

lemma tids_head_not_in_rest {env : Env} {showId tSid : Nat} {db : Db} {sd : TraktSeasonData}
    {rest : List TraktSeasonData} (H : PopH env showId tSid db (sd :: rest))
    (hpos : 0 < sd.number) :
    sd.traktId ∉ (posSeasons rest).map fun s => s.traktId := by
  have := H.tids
  rw [posSeasons_cons_pos hpos, List.map_cons, List.nodup_cons] at this
  exact this.1

/-- Transport of the populate hypotheses across filling an existing season
row of the head's number with episodes. -/
lemma PopH_fill {env : Env} {showId tSid : Nat} {db : Db} {sd : TraktSeasonData}
    {rest : List TraktSeasonData} (H : PopH env showId tSid db (sd :: rest))
    (hpos : 0 < sd.number) {r : SeasonRow} (hr : r ∈ db.seasons)
    (hrn : r.seasonNumber = sd.number) {db2 : Db} (hse : db2.seasons = db.seasons)
    {lnew : List EpisodeRow} (hep : db2.episodes = db.episodes ++ lnew)
    (hsid : ∀ e ∈ lnew, e.seasonId = r.id) (hnext : db.nextId ≤ db2.nextId) :
    PopH env showId tSid db2 rest := by
  have T := H.tail
  constructor
  case fetch_ok => exact T.fetch_ok
  case nums => exact T.nums
  case tids => exact T.tids
  case tids_some => exact T.tids_some
  case epnums => exact T.epnums
  case cross =>
    rw [hse]
    exact T.cross
  case pre_full =>
    intro r2 hr2 hshow sd2 hsd2 h0 hn
    rw [hse] at hr2
    by_cases hid : r2.id = r.id
    · exfalso
      have : r2 = r := seasons_id_inj H.wf_nodup hr2 hr hid
      subst this
      have hmem : sd2 ∈ posSeasons rest := posSeasons_mem.mpr ⟨hsd2, h0⟩
      have : sd.number ∈ (posSeasons rest).map fun s => s.number := by
        rw [← hrn, hn]
        exact List.mem_map_of_mem _ hmem
      exact nums_head_not_in_rest H hpos this
    · have hcnt : db2.epCount r2.id = db.epCount r2.id := by
        rw [epCount_eq_epCountL, epCount_eq_epCountL, hep]
        exact epCountL_preserved _ _ _ fun e he hc => hid ((hsid e he).symm.trans hc ▸ rfl)
      rcases T.pre_full r2 hr2 hshow sd2 hsd2 h0 hn with hz | ⟨hlen, hmem⟩
      · exact Or.inl (hcnt.trans hz)
      · refine Or.inr ⟨hcnt.trans hlen, fun pe hpe => ?_⟩
        obtain ⟨e, he1, he2⟩ := hmem pe hpe
        exact ⟨e, by rw [hep]; exact List.mem_append_left _ he1, he2⟩
  case wf_sid =>
    rw [hse]
    exact fun r2 hr2 => lt_of_lt_of_le (H.wf_sid r2 hr2) hnext
  case wf_nodup =>
    rw [hse]
    exact H.wf_nodup
  case wf_eid =>
    intro e he
    rw [hep] at he
    rcases List.mem_append.mp he with he | he
    · exact lt_of_lt_of_le (H.wf_eid e he) hnext
    · rw [hsid e he]
      exact lt_of_lt_of_le (H.wf_sid r hr) hnext

/-- Transport of the populate hypotheses across creating a fresh season row
for the head (with its episodes). -/
lemma PopH_newrow {env : Env} {showId tSid : Nat} {db : Db} {sd : TraktSeasonData}
    {rest : List TraktSeasonData} (H : PopH env showId tSid db (sd :: rest))
    (hpos : 0 < sd.number) {sn : SeasonRow} (hsn_id : sn.id = db.nextId)
    (hsn_show : sn.showId = showId) (hsn_num : sn.seasonNumber = sd.number)
    (hsn_tid : sn.traktId = sd.traktId) {db2 : Db}
    (hse : db2.seasons = db.seasons ++ [sn]) {lnew : List EpisodeRow}
    (hep : db2.episodes = db.episodes ++ lnew) (hsid : ∀ e ∈ lnew, e.seasonId = sn.id)
    (hnext : db.nextId < db2.nextId) :
    PopH env showId tSid db2 rest := by
  have T := H.tail
  constructor
  case fetch_ok => exact T.fetch_ok
  case nums => exact T.nums
  case tids => exact T.tids
  case tids_some => exact T.tids_some
  case epnums => exact T.epnums
  case cross =>
    intro r2 hr2 sd2 hsd2 h0 ht
    rw [hse] at hr2
    rcases List.mem_append.mp hr2 with hr2 | hr2
    · exact T.cross r2 hr2 sd2 hsd2 h0 ht
    · exfalso
      rw [List.mem_singleton] at hr2
      subst hr2
      have hmem : sd2 ∈ posSeasons rest := posSeasons_mem.mpr ⟨hsd2, h0⟩
      have : sd.traktId ∈ (posSeasons rest).map fun s => s.traktId := by
        rw [← hsn_tid, ht]
        exact List.mem_map_of_mem _ hmem
      exact tids_head_not_in_rest H hpos this
  case pre_full =>
    intro r2 hr2 hshow sd2 hsd2 h0 hn
    rw [hse] at hr2
    rcases List.mem_append.mp hr2 with hr2 | hr2
    · have hid : ¬ r2.id = sn.id := by
        rw [hsn_id]
        exact Nat.ne_of_lt (H.wf_sid r2 hr2)
      have hcnt : db2.epCount r2.id = db.epCount r2.id := by
        rw [epCount_eq_epCountL, epCount_eq_epCountL, hep]
        exact epCountL_preserved _ _ _ fun e he hc => hid ((hsid e he) ▸ hc ▸ rfl)
      rcases T.pre_full r2 hr2 hshow sd2 hsd2 h0 hn with hz | ⟨hlen, hmem⟩
      · exact Or.inl (hcnt.trans hz)
      · refine Or.inr ⟨hcnt.trans hlen, fun pe hpe => ?_⟩
        obtain ⟨e, he1, he2⟩ := hmem pe hpe
        exact ⟨e, by rw [hep]; exact List.mem_append_left _ he1, he2⟩
    · exfalso
      rw [List.mem_singleton] at hr2
      subst hr2
      have hmem : sd2 ∈ posSeasons rest := posSeasons_mem.mpr ⟨hsd2, h0⟩
      have : sd.number ∈ (posSeasons rest).map fun s => s.number := by
        rw [← hsn_num, hn]
        exact List.mem_map_of_mem _ hmem
      exact nums_head_not_in_rest H hpos this
  case wf_sid =>
    intro r2 hr2
    rw [hse] at hr2
    rcases List.mem_append.mp hr2 with hr2 | hr2
    · exact lt_trans (H.wf_sid r2 hr2) hnext
    · rw [List.mem_singleton] at hr2
      subst hr2
      rw [hsn_id]
      exact hnext
  case wf_nodup =>
    rw [hse, List.map_append, List.nodup_append]
    refine ⟨H.wf_nodup, by simp, ?_⟩
    intro x hx hy
    obtain ⟨r2, hr2, hr2x⟩ := List.mem_map.mp hx
    simp only [List.map_cons, List.map_nil, List.mem_singleton] at hy
    rw [hy, hsn_id] at hr2x
    have := H.wf_sid r2 hr2
    rw [hr2x] at this
    exact lt_irrefl _ this
  case wf_eid =>
    intro e he
    rw [hep] at he
    rcases List.mem_append.mp he with he | he
    · exact lt_trans (H.wf_eid e he) hnext
    · rw [hsid e he, hsn_id]
      exact hnext

lemma seasonMatches_some_false (t2 : Nat) (showId : Nat) (n2 : Int) (sn : SeasonRow)
    (h1 : ¬ sn.traktId = some t2) (h2 : ¬ (sn.showId = showId ∧ sn.seasonNumber = n2)) :
    seasonMatches (some t2) showId n2 sn = false := by
  rw [Bool.eq_false_iff]
  intro hc
  rcases (seasonMatches_some_iff t2 showId n2 sn).mp hc with h | h
  · exact h1 h
  · exact h2 h

/-- A freshly created season row for the head season matches none of the
remaining provider seasons' lookups. -/
lemma newrow_not_matches {env : Env} {showId tSid : Nat} {db : Db} {sd : TraktSeasonData}
    {rest : List TraktSeasonData} (H : PopH env showId tSid db (sd :: rest))
    (hpos : 0 < sd.number) {sn : SeasonRow} (htid : sn.traktId = sd.traktId)
    (hnum : sn.seasonNumber = sd.number) :
    ∀ sd2 ∈ posSeasons rest, seasonMatches sd2.traktId showId sd2.number sn = false := by
  intro sd2 hsd2
  obtain ⟨hsd2m, h02⟩ := posSeasons_mem.mp hsd2
  obtain ⟨t2, ht2⟩ := Option.isSome_iff_exists.mp
    (H.tids_some sd2 (List.mem_cons_of_mem sd hsd2m) h02)
  rw [ht2]
  apply seasonMatches_some_false
  · intro hc
    apply tids_head_not_in_rest H hpos
    have heq : sd.traktId = sd2.traktId := by rw [← htid, hc, ht2]
    rw [heq]
    exact List.mem_map_of_mem _ hsd2
  · rintro ⟨_, hc2⟩
    apply nums_head_not_in_rest H hpos
    have heq : sd.number = sd2.number := by rw [← hnum, hc2]
    rw [heq]
    exact List.mem_map_of_mem _ hsd2

/-- The lookup of a season of the head's number is unaffected by the episode
rows the remaining seasons add. -/
lemma count_stable_into_rest {env : Env} {showId tSid : Nat} {dbMid db' : Db}
    {rest : List TraktSeasonData}
    (R : PopRes env showId tSid dbMid db' rest) (H2 : PopH env showId tSid dbMid rest)
    {r : SeasonRow} (hrmem : r ∈ dbMid.seasons) {nsd : Int} (hrn : r.seasonNumber = nsd)
    (hnot : nsd ∉ (posSeasons rest).map fun s => s.number) :
    db'.epCount r.id = dbMid.epCount r.id := by
  obtain ⟨l2e, hep, hprop⟩ := R.eps_ext
  rw [epCount_eq_epCountL, epCount_eq_epCountL, hep]
  refine epCountL_preserved _ _ _ fun e he hc => ?_
  rcases hprop e he with hfresh | ⟨r0, hr0, hid, hshow0, sd2, hsd2, hnum0⟩
  · have := H2.wf_sid r hrmem
    rw [hc] at hfresh
    omega
  · have hre : r0 = r := seasons_id_inj H2.wf_nodup hr0 hrmem (by rw [← hid, hc])
    subst hre
    apply hnot
    rw [← hrn, hnum0]
    exact List.mem_map_of_mem _ hsd2

lemma lookup_stable {env : Env} {showId tSid : Nat} {dbMid db' : Db}
    {rest : List TraktSeasonData}
    (R : PopRes env showId tSid dbMid db' rest) {tid : Option Nat} {n : Int} {r : SeasonRow}
    (h : lookupSeason dbMid tid showId n = some r) :
    lookupSeason db' tid showId n = some r := by
  obtain ⟨lnew, hse, _, _⟩ := R.seasons_ext
  unfold lookupSeason at *
  rw [hse]
  exact find?_append_some _ h

/-- The main populate characterisation: one `processSeasons` pass satisfies
`PopRes` whenever the hypotheses `PopH` hold. -/
lemma processSeasons_strong (env : Env) (showId tSid : Nat)
    (pending : List TraktSeasonData) :
    ∀ (db : Db), PopH env showId tSid db pending →
      PopRes env showId tSid db (processSeasons env showId tSid db pending) pending := by
  induction pending with
  | nil =>
    intro db H
    rw [show processSeasons env showId tSid db [] = db from rfl]
    exact
      { seasons_ext := ⟨[], by simp, by simp, by simp [posSeasons]⟩
        eps_ext := ⟨[], by simp, by simp⟩
        nextId_le := le_refl _
        wf_sid := H.wf_sid
        wf_nodup := H.wf_nodup
        wf_eid := H.wf_eid
        done := fun sd hsd => absurd hsd (List.not_mem_nil sd) }
  | cons sd rest ih =>
    intro db H
    by_cases hpos : 0 < sd.number
    case neg =>
      have hle : sd.number ≤ 0 := not_lt.mp hpos
      rw [show processSeasons env showId tSid db (sd :: rest) =
        processSeasons env showId tSid db rest from by rw [processSeasons, if_pos hle]]
      have R := ih db H.tail
      exact
        { seasons_ext := by
            obtain ⟨l, h1, h2, h3⟩ := R.seasons_ext
            exact ⟨l, h1, h2, by rw [posSeasons_cons_neg hpos]; exact h3⟩
          eps_ext := by
            obtain ⟨l, h1, h2⟩ := R.eps_ext
            refine ⟨l, h1, fun e he => ?_⟩
            rcases h2 e he with h | ⟨r0, hr0, hid, hsh, sd2, hsd2, hnum⟩
            · exact Or.inl h
            · exact Or.inr ⟨r0, hr0, hid, hsh, sd2,
                by rw [posSeasons_cons_neg hpos]; exact hsd2, hnum⟩
          nextId_le := R.nextId_le
          wf_sid := R.wf_sid
          wf_nodup := R.wf_nodup
          wf_eid := R.wf_eid
          done := by
            intro sd2 hsd2 h0
            rcases List.mem_cons.mp hsd2 with h | h
            · subst h
              exact absurd h0 hpos
            · exact R.done sd2 h h0 }
    case pos =>
      have hle : ¬ sd.number ≤ 0 := not_le.mpr hpos
      obtain ⟨l0, hfet⟩ := (exceptOkB_iff _).mp (H.fetch_ok sd (List.mem_cons_self ..) hpos)
      have heps : epsOf env tSid sd.number = l0 := epsOf_of_ok hfet
      cases hL : lookupSeason db sd.traktId showId sd.number with
      | some r =>
        obtain ⟨hrmem, hrshow, hrnum⟩ := lookup_some_props H hpos hL
        by_cases hc : (db.epCount r.id == 0) = true
        · -- season row exists with zero episodes: repopulate it
          have hc0 : db.epCount r.id = 0 := by simpa using hc
          have hred : processSeasons env showId tSid db (sd :: rest) =
              processSeasons env showId tSid (createEpisodes r.id l0 db) rest := by
            conv_lhs => rw [processSeasons]
            rw [if_neg hle, hL]
            show (if (db.epCount r.id == 0) = true
                then match env.getSeasonEpisodes tSid sd.number with
                  | .error _ => db
                  | .ok traktSeason =>
                    processSeasons env showId tSid (createEpisodes r.id traktSeason db) rest
                else processSeasons env showId tSid db rest) = _
            rw [if_pos hc, hfet]
          have habs : ∀ pe ∈ l0, ∀ e ∈ db.episodes,
              ¬ (e.seasonId = r.id ∧ e.episodeNumber = pe.number) := by
            intro pe _ e he hcx
            exact (epCountL_zero_iff db.episodes r.id).mp
              (by rw [← epCount_eq_epCountL]; exact hc0) e he hcx.1
          have hnodup0 : (l0.map fun pe => pe.number).Nodup := by
            have := H.epnums sd (List.mem_cons_self ..) hpos
            rwa [heps] at this
          obtain ⟨le0, he1, he2, he3, he4, he5⟩ := createEpisodes_spec r.id l0 db habs hnodup0
          have hsea : (createEpisodes r.id l0 db).seasons = db.seasons := createEpisodes_seasons ..
          have H2 : PopH env showId tSid (createEpisodes r.id l0 db) rest :=
            PopH_fill H hpos hrmem hrnum hsea he1 he2 he5
          have R := ih (createEpisodes r.id l0 db) H2
          rw [hred]
          have hcntMid : (createEpisodes r.id l0 db).epCount r.id = l0.length := by
            rw [epCount_eq_epCountL, he1, epCountL_append, ← epCount_eq_epCountL, hc0,
              epCountL_all le0 r.id he2, he3, Nat.zero_add]
          have hlookupMid : lookupSeason (createEpisodes r.id l0 db) sd.traktId showId
              sd.number = some r := by
            rw [lookupSeason_seasons_eq hsea]
            exact hL
          refine
            { seasons_ext := ?_
              eps_ext := ?_
              nextId_le := le_trans he5 R.nextId_le
              wf_sid := R.wf_sid
              wf_nodup := R.wf_nodup
              wf_eid := R.wf_eid
              done := ?_ }
          · obtain ⟨l, h1, h2, h3⟩ := R.seasons_ext
            refine ⟨l, by rw [h1, hsea], fun rn hrn2 => ⟨(h2 rn hrn2).1,
              le_trans he5 (h2 rn hrn2).2⟩, ?_⟩
            rw [posSeasons_cons_pos hpos, List.filter_cons,
              if_neg (by rw [hL]; simp), h3]
            congr 1
            refine List.filter_congr fun sd2 _ => ?_
            rw [lookupSeason_seasons_eq hsea]
          · obtain ⟨l2e, h1, h2⟩ := R.eps_ext
            refine ⟨le0 ++ l2e, by rw [h1, he1, List.append_assoc], fun e he => ?_⟩
            rcases List.mem_append.mp he with he | he
            · exact Or.inr ⟨r, hrmem, he2 e he, hrshow, sd,
                by rw [posSeasons_cons_pos hpos]; exact List.mem_cons_self .., hrnum⟩
            · rcases h2 e he with h | ⟨r0, hr0, hid, hsh, sd2, hsd2, hnum⟩
              · exact Or.inl (le_trans he5 h)
              · rw [hsea] at hr0
                exact Or.inr ⟨r0, hr0, hid, hsh, sd2,
                  by rw [posSeasons_cons_pos hpos]; exact List.mem_cons_of_mem sd hsd2, hnum⟩
          · intro sd2 hsd2 h02
            rcases List.mem_cons.mp hsd2 with hh | hh
            · subst hh
              refine ⟨r, lookup_stable R hlookupMid, hrshow, hrnum, ?_, ?_⟩
              · rw [count_stable_into_rest R H2 (by rw [hsea]; exact hrmem) hrnum
                  (nums_head_not_in_rest H hpos), hcntMid, heps]
              · intro pe hpe
                rw [heps] at hpe
                obtain ⟨e, hmem, hp1, hp2⟩ := he4 pe hpe
                obtain ⟨l2e, h1, _⟩ := R.eps_ext
                refine ⟨e, ?_, hp1, hp2⟩
                rw [h1, he1]
                exact List.mem_append_left _ (List.mem_append_right _ hmem)
            · exact R.done sd2 hh h02
        · -- season row exists and already has episodes: no-op for this season
          have hcne : ¬ db.epCount r.id = 0 := by simpa using hc
          have hred : processSeasons env showId tSid db (sd :: rest) =
              processSeasons env showId tSid db rest := by
            conv_lhs => rw [processSeasons]
            rw [if_neg hle, hL]
            show (if (db.epCount r.id == 0) = true
                then match env.getSeasonEpisodes tSid sd.number with
                  | .error _ => db
                  | .ok traktSeason =>
                    processSeasons env showId tSid (createEpisodes r.id traktSeason db) rest
                else processSeasons env showId tSid db rest) = _
            rw [if_neg hc]
          have hfull := H.pre_full r hrmem hrshow sd (List.mem_cons_self ..) hpos hrnum
          rcases hfull with h0 | ⟨hlen, hmem⟩
          · exact absurd h0 hcne
          have R := ih db H.tail
          rw [hred]
          refine
            { seasons_ext := ?_
              eps_ext := ?_
              nextId_le := R.nextId_le
              wf_sid := R.wf_sid
              wf_nodup := R.wf_nodup
              wf_eid := R.wf_eid
              done := ?_ }
          · obtain ⟨l, h1, h2, h3⟩ := R.seasons_ext
            refine ⟨l, h1, h2, ?_⟩
            rw [posSeasons_cons_pos hpos, List.filter_cons, if_neg (by rw [hL]; simp), h3]
          · obtain ⟨l2e, h1, h2⟩ := R.eps_ext
            refine ⟨l2e, h1, fun e he => ?_⟩
            rcases h2 e he with h | ⟨r0, hr0, hid, hsh, sd2, hsd2, hnum⟩
            · exact Or.inl h
            · exact Or.inr ⟨r0, hr0, hid, hsh, sd2,
                by rw [posSeasons_cons_pos hpos]; exact List.mem_cons_of_mem sd hsd2, hnum⟩
          · intro sd2 hsd2 h02
            rcases List.mem_cons.mp hsd2 with hh | hh
            · subst hh
              refine ⟨r, lookup_stable R hL, hrshow, hrnum, ?_, ?_⟩
              · rw [count_stable_into_rest R H.tail hrmem hrnum
                  (nums_head_not_in_rest H hpos), hlen]
              · intro pe hpe
                obtain ⟨e, hmem2, hp⟩ := hmem pe hpe
                obtain ⟨l2e, h1, _⟩ := R.eps_ext
                exact ⟨e, by rw [h1]; exact List.mem_append_left _ hmem2, hp⟩
            · exact R.done sd2 hh h02
      | none =>
        -- no season row yet: create it and all its episodes
        have hred : processSeasons env showId tSid db (sd :: rest) =
            processSeasons env showId tSid
              (createEpisodes db.nextId l0
                { db with seasons := db.seasons ++ [mkSeasonRow db.nextId showId sd l0.length]
                          nextId := db.nextId + 1 }) rest := by
          conv_lhs => rw [processSeasons]
          rw [if_neg hle, hL]
          show (match env.getSeasonEpisodes tSid sd.number with
            | .error _ => db
            | .ok traktSeason =>
              processSeasons env showId tSid
                (createEpisodes (mkSeasonRow db.nextId showId sd traktSeason.length).id
                  traktSeason
                  { db with
                    seasons := db.seasons ++ [mkSeasonRow db.nextId showId sd
                      traktSeason.length]
                    nextId := db.nextId + 1 }) rest) = _
          rw [hfet]
          rfl
        set sn : SeasonRow := mkSeasonRow db.nextId showId sd l0.length with hsn
        set db1 : Db := { db with seasons := db.seasons ++ [sn], nextId := db.nextId + 1 }
          with hdb1
        have habs : ∀ pe ∈ l0, ∀ e ∈ db1.episodes,
            ¬ (e.seasonId = db.nextId ∧ e.episodeNumber = pe.number) := by
          intro pe _ e he hcx
          have := H.wf_eid e he
          rw [hcx.1] at this
          exact lt_irrefl _ this
        have hnodup0 : (l0.map fun pe => pe.number).Nodup := by
          have := H.epnums sd (List.mem_cons_self ..) hpos
          rwa [heps] at this
        obtain ⟨le0, he1, he2, he3, he4, he5⟩ := createEpisodes_spec db.nextId l0 db1 habs hnodup0
        have hsea : (createEpisodes db.nextId l0 db1).seasons = db.seasons ++ [sn] :=
          createEpisodes_seasons ..
        have hep0 : (createEpisodes db.nextId l0 db1).episodes = db.episodes ++ le0 := he1
        have hnextMid : db.nextId < (createEpisodes db.nextId l0 db1).nextId :=
          lt_of_lt_of_le (Nat.lt_succ_self _) he5
        have H2 : PopH env showId tSid (createEpisodes db.nextId l0 db1) rest :=
          PopH_newrow H hpos rfl rfl rfl rfl hsea hep0 he2 hnextMid
        have R := ih (createEpisodes db.nextId l0 db1) H2
        rw [hred]
        have hcntMid : (createEpisodes db.nextId l0 db1).epCount db.nextId = l0.length := by
          rw [epCount_eq_epCountL, hep0, epCountL_append,
            epCountL_none db.episodes db.nextId
              (fun e he => Nat.ne_of_lt (H.wf_eid e he)),
            epCountL_all le0 db.nextId he2, he3, Nat.zero_add]
        have hsnm : seasonMatches sd.traktId showId sd.number sn = true := by
          obtain ⟨t, ht⟩ := Option.isSome_iff_exists.mp
            (H.tids_some sd (List.mem_cons_self ..) hpos)
          rw [ht]
          exact (seasonMatches_some_iff t showId sd.number sn).mpr (Or.inr ⟨rfl, rfl⟩)
        have hlookupMid : lookupSeason (createEpisodes db.nextId l0 db1) sd.traktId showId
            sd.number = some sn := by
          unfold lookupSeason
          rw [hsea]
          rw [find?_append_none _ hL]
          exact List.find?_cons_of_pos _ hsnm
        refine
          { seasons_ext := ?_
            eps_ext := ?_
            nextId_le := le_trans (le_of_lt hnextMid) R.nextId_le
            wf_sid := R.wf_sid
            wf_nodup := R.wf_nodup
            wf_eid := R.wf_eid
            done := ?_ }
        · obtain ⟨l, h1, h2, h3⟩ := R.seasons_ext
          refine ⟨sn :: l, by rw [h1, hsea, List.append_assoc]; rfl,
            fun rn hrn2 => ?_, ?_⟩
          · rcases List.mem_cons.mp hrn2 with hh | hh
            · subst hh
              exact ⟨rfl, le_refl _⟩
            · exact ⟨(h2 rn hh).1, le_trans (le_of_lt hnextMid) (h2 rn hh).2⟩
          · rw [posSeasons_cons_pos hpos, List.filter_cons, if_pos (by rw [hL]; rfl),
              List.map_cons, List.map_cons, h3]
            have hcg : List.filter (fun sd =>
                  (lookupSeason (createEpisodes db.nextId l0 db1)
                    sd.traktId showId sd.number).isNone) (posSeasons rest) =
                List.filter (fun sd =>
                  (lookupSeason db sd.traktId showId sd.number).isNone) (posSeasons rest) := by
              refine List.filter_congr fun sd2 hsd2 => ?_
              have heqL : lookupSeason (createEpisodes db.nextId l0 db1) sd2.traktId showId
                  sd2.number = lookupSeason db sd2.traktId showId sd2.number := by
                unfold lookupSeason
                rw [hsea]
                exact find?_append_not fun x hx => by
                  rw [List.mem_singleton] at hx
                  subst hx
                  rw [newrow_not_matches H hpos rfl rfl sd2 hsd2]
                  exact Bool.false_ne_true
              rw [heqL]
            rw [hcg]
            rfl
        · obtain ⟨l2e, h1, h2⟩ := R.eps_ext
          refine ⟨le0 ++ l2e, by rw [h1, hep0, List.append_assoc], fun e he => ?_⟩
          rcases List.mem_append.mp he with he | he
          · exact Or.inl (le_of_eq (he2 e he).symm)
          · rcases h2 e he with h | ⟨r0, hr0, hid, hsh, sd2, hsd2, hnum⟩
            · exact Or.inl (le_trans (le_of_lt hnextMid) h)
            · rw [hsea] at hr0
              rcases List.mem_append.mp hr0 with hr0 | hr0
              · exact Or.inr ⟨r0, hr0, hid, hsh, sd2,
                  by rw [posSeasons_cons_pos hpos]; exact List.mem_cons_of_mem sd hsd2, hnum⟩
              · rw [List.mem_singleton] at hr0
                subst hr0
                exact Or.inl (le_of_eq hid.symm)
        · intro sd2 hsd2 h02
          rcases List.mem_cons.mp hsd2 with hh | hh
          · subst hh
            refine ⟨sn, lookup_stable R hlookupMid, rfl, rfl, ?_, ?_⟩
            · rw [count_stable_into_rest R H2
                (by rw [hsea]; exact List.mem_append_right _ (List.mem_singleton_self sn))
                (show sn.seasonNumber = sd2.number from rfl)
                (nums_head_not_in_rest H hpos)]
              show (createEpisodes db.nextId l0 db1).epCount db.nextId =
                (epsOf env tSid sd2.number).length
              rw [hcntMid, heps]
            · intro pe hpe
              rw [heps] at hpe
              obtain ⟨e, hmem, hp1, hp2⟩ := he4 pe hpe
              obtain ⟨l2e, h1, _⟩ := R.eps_ext
              refine ⟨e, ?_, hp1, hp2⟩
              rw [h1, hep0]
              exact List.mem_append_left _ (List.mem_append_right _ hmem)
          · exact R.done sd2 hh h02

/-! ## C2 top level: exact population counts after `createAllShowEpisodes` -/

lemma lookup_some_props_of_mem {env : Env} {showId tSid : Nat} {db : Db}
    {pending : List TraktSeasonData} (H : PopH env showId tSid db pending)
    {sd : TraktSeasonData} (hmem : sd ∈ pending) (hpos : 0 < sd.number) {r : SeasonRow}
    (h : lookupSeason db sd.traktId showId sd.number = some r) :
    r ∈ db.seasons ∧ r.showId = showId ∧ r.seasonNumber = sd.number := by
  have hrm := List.mem_of_find?_eq_some h
  have hp := List.find?_some h
  obtain ⟨t, ht⟩ := Option.isSome_iff_exists.mp (H.tids_some sd hmem hpos)
  rw [ht] at hp
  rcases (seasonMatches_some_iff t showId sd.number r).mp hp with h1 | h2
  · have := H.cross r hrm sd hmem hpos (by rw [ht, h1])
    exact ⟨hrm, this.1, this.2⟩
  · exact ⟨hrm, h2.1, h2.2⟩

lemma lookup_isSome_of_row (db : Db) (tid : Option Nat) (showId : Nat) (n : Int)
    {r : SeasonRow} (hr : r ∈ db.seasons) (hshow : r.showId = showId)
    (hnum : r.seasonNumber = n) :
    (lookupSeason db tid showId n).isSome = true := by
  have hmatch : seasonMatches tid showId n r = true := by
    unfold seasonMatches
    subst hshow
    subst hnum
    cases tid <;> simp
  obtain ⟨a, ha⟩ := find?_some_of_any (List.any_eq_true.mpr ⟨r, hr, hmatch⟩)
  unfold lookupSeason
  rw [ha]
  rfl

/-- **C2.**  Eager catalog population: when the seasons fetch succeeds with
list `sdata`, the per-run hypotheses `PopH` hold (all episode fetches
succeed, provider season numbers / trakt ids / episode numbers are
duplicate-free, database season rows agree with the provider on trakt ids,
any already-populated season of the show is completely populated, row ids
are below the id counter), and the show's pre-existing Season rows carry
season numbers drawn without repetition from the provider's seasons with
number `> 0`, then after `createAllShowEpisodes` the catalog has exactly
`N` Season rows for the show where `N` counts the provider's non-special
seasons; no pre-existing Season row is removed; and every provider
non-special season is found by the season lookup as a row of this show
whose episode count equals the provider's reported episode count, with an
Episode row for every provider-reported episode of that season — in
particular a pre-existing Season row with zero Episode rows has had its
episodes created, regardless of what the user watched. -/
theorem eager_population_exact (env : Env) (showId tSid : Nat) (db : Db)
    (sdata : List TraktSeasonData)
    (hs : env.getShowSeasons tSid = .ok sdata)
    (H : PopH env showId tSid db sdata)
    (pre_sub : ∀ r ∈ db.seasons, r.showId = showId →
      ∃ sd ∈ posSeasons sdata, r.seasonNumber = sd.number)
    (pre_unique : ((db.seasons.filter fun r => r.showId == showId).map
      fun r => r.seasonNumber).Nodup) :
    (((createAllShowEpisodes env showId tSid db).seasons.filter
        fun r => r.showId == showId).length = (posSeasons sdata).length) ∧
    (∃ l, (createAllShowEpisodes env showId tSid db).seasons = db.seasons ++ l) ∧
    (∀ sd ∈ posSeasons sdata, ∃ r,
      lookupSeason (createAllShowEpisodes env showId tSid db) sd.traktId showId
          sd.number = some r ∧
      r.showId = showId ∧ r.seasonNumber = sd.number ∧
      (createAllShowEpisodes env showId tSid db).epCount r.id =
        (epsOf env tSid sd.number).length ∧
      ∀ pe ∈ epsOf env tSid sd.number,
        ∃ e ∈ (createAllShowEpisodes env showId tSid db).episodes,
          e.seasonId = r.id ∧ e.episodeNumber = pe.number) := by
  have hdb' : createAllShowEpisodes env showId tSid db =
      processSeasons env showId tSid db sdata := by
    unfold createAllShowEpisodes
    rw [hs]
  have R := processSeasons_strong env showId tSid sdata db H
  obtain ⟨l, happ, hprops, hmap⟩ := R.seasons_ext
  refine ⟨?_, ⟨l, by rw [hdb']; exact happ⟩, ?_⟩
  · rw [hdb', happ, List.filter_append, List.length_append]
    have hlfull : l.filter (fun r => r.showId == showId) = l :=
      List.filter_eq_self.mpr fun r hr => by simp [(hprops r hr).1]
    rw [hlfull]
    have hlen_l : l.length =
        ((posSeasons sdata).filter fun sd =>
          (lookupSeason db sd.traktId showId sd.number).isNone).length := by
      have := congrArg List.length hmap
      simpa using this
    have hperm : ((db.seasons.filter fun r => r.showId == showId).map
          fun r => r.seasonNumber).Perm
        (((posSeasons sdata).filter fun sd =>
          !(lookupSeason db sd.traktId showId sd.number).isNone).map
            fun sd => sd.number) := by
      refine (List.perm_ext_iff_of_nodup pre_unique
        (H.nums.sublist ((List.filter_sublist _).map _))).mpr ?_
      intro n
      constructor
      · intro hn
        obtain ⟨r, hrmem, hrn⟩ := List.mem_map.mp hn
        have hrdb := List.mem_of_mem_filter hrmem
        have hrshow : r.showId = showId := by
          simpa using List.of_mem_filter hrmem
        obtain ⟨sd, hsdmem, hsdnum⟩ := pre_sub r hrdb hrshow
        refine List.mem_map.mpr ⟨sd, List.mem_filter.mpr ⟨hsdmem, ?_⟩,
          by rw [← hsdnum, hrn]⟩
        obtain ⟨v, hv⟩ := Option.isSome_iff_exists.mp
          (lookup_isSome_of_row db sd.traktId showId sd.number hrdb hrshow hsdnum)
        rw [hv]
        rfl
      · intro hn
        obtain ⟨sd, hsdmem, hsdn⟩ := List.mem_map.mp hn
        have hsdps := List.mem_of_mem_filter hsdmem
        have hlk := List.of_mem_filter hsdmem
        have hpos := (posSeasons_mem.mp hsdps).2
        have hsdin := (posSeasons_mem.mp hsdps).1
        have hsome : (lookupSeason db sd.traktId showId sd.number).isSome = true := by
          cases hc : lookupSeason db sd.traktId showId sd.number
          · rw [hc] at hlk
            simp at hlk
          · rfl
        obtain ⟨r, hr⟩ := Option.isSome_iff_exists.mp hsome
        obtain ⟨hrdb, hrshow, hrnum⟩ := lookup_some_props_of_mem H hsdin hpos hr
        exact List.mem_map.mpr ⟨r, List.mem_filter.mpr ⟨hrdb, by simp [hrshow]⟩,
          by rw [hrnum, hsdn]⟩
    have hlen_pre := hperm.length_eq
    rw [List.length_map, List.length_map] at hlen_pre
    have hcompl : ((posSeasons sdata).filter fun sd =>
          (lookupSeason db sd.traktId showId sd.number).isNone).length +
        ((posSeasons sdata).filter fun sd =>
          !(lookupSeason db sd.traktId showId sd.number).isNone).length =
        (posSeasons sdata).length := length_filter_compl _ _
    rw [hlen_pre, hlen_l]
    omega
  · intro sd hsd
    have hpos := (posSeasons_mem.mp hsd).2
    have hsdin := (posSeasons_mem.mp hsd).1
    obtain ⟨r, h1, h2, h3, h4, h5⟩ := R.done sd hsdin hpos
    exact ⟨r, by rw [hdb']; exact h1, h2, h3, by rw [hdb']; exact h4,
      fun pe hpe => by rw [hdb']; exact h5 pe hpe⟩

/-- Provider seasons for the C2 witness show: a specials season (skipped)
and two regular seasons. -/
def c2Seasons : List TraktSeasonData :=
  [{ number := 0, traktId := some 70, title := some "Specials", overview := none, first_aired := none },
   { number := 1, traktId := some 71, title := none, overview := none, first_aired := none },
   { number := 2, traktId := some 72, title := none, overview := none, first_aired := none }]

def c2S1Eps : List TraktEpisodeData :=
  [{ number := 1, traktId := some 701, title := some "E1", overview := none, first_aired := none, runtime := none },
   { number := 2, traktId := some 702, title := none, overview := none, first_aired := none, runtime := none }]

def c2S2Eps : List TraktEpisodeData :=
  [{ number := 1, traktId := some 703, title := none, overview := none, first_aired := none, runtime := none }]

/-- Environment for the C2 witness: show 700 has seasons 0, 1 and 2, with
two episodes in season 1 and one in season 2. -/
def c2Env : Env :=
  { decryptToken := fun _ => .error "unused"
    getTVLibraries := fun _ _ => .ok []
    getWatchedEpisodes := fun _ _ _ => .ok []
    getShowByTMDBId := fun _ => .ok none
    getShowByTVDBId := fun _ => .ok none
    searchShows := fun _ => .ok []
    getShowSeasons := fun sid => if sid = 700 then .ok c2Seasons else .ok []
    getSeasonEpisodes := fun sid n =>
      if sid = 700 ∧ n = 1 then .ok c2S1Eps
      else if sid = 700 ∧ n = 2 then .ok c2S2Eps
      else .ok []
    getTMDBPosterUrl := fun _ => .ok none
    logCreate := fun _ => none }

/-- Database for the C2 witness: show 1 already has a Season-1 row with zero
Episode rows. -/
def c2Db : Db :=
  { integrations := [], shows := [], userShows := [], userEpisodes := [], syncLogs := []
    seasons := [{ id := 2, showId := 1, seasonNumber := 1, traktId := some 71, title := none, overview := none, airDate := none, episodeCount := 0 }]
    episodes := []
    nextId := 3 }

theorem eager_population_exact_witness :
    ((createAllShowEpisodes c2Env 1 700 c2Db).seasons.filter
        fun r => r.showId == 1).length = 2 ∧
    (createAllShowEpisodes c2Env 1 700 c2Db).epCount 2 = 2 := by
  constructor
  · exact ((eager_population_exact c2Env 1 700 c2Db c2Seasons rfl
      ⟨by decide, by decide, by decide, by decide, by decide, by decide,
        by decide, by decide, by decide, by decide⟩
      (by decide) (by decide)).1).trans (by decide)
  · decide


/-! ## C4: idempotence of a second run.  Step 1: growth and establishment
of the populate pass -/

/-- The four catalog/membership tables only ever gain rows. -/
def DbGrows (db db' : Db) : Prop :=
  (∃ l, db'.shows = db.shows ++ l) ∧ (∃ l, db'.seasons = db.seasons ++ l) ∧
  (∃ l, db'.episodes = db.episodes ++ l) ∧ (∃ l, db'.userShows = db.userShows ++ l)

lemma dbGrows_refl (db : Db) : DbGrows db db :=
  ⟨⟨[], by simp⟩, ⟨[], by simp⟩, ⟨[], by simp⟩, ⟨[], by simp⟩⟩

lemma dbGrows_trans {db1 db2 db3 : Db} (h1 : DbGrows db1 db2) (h2 : DbGrows db2 db3) :
    DbGrows db1 db3 := by
  obtain ⟨⟨a1, ha1⟩, ⟨b1, hb1⟩, ⟨c1, hc1⟩, ⟨d1, hd1⟩⟩ := h1
  obtain ⟨⟨a2, ha2⟩, ⟨b2, hb2⟩, ⟨c2, hc2⟩, ⟨d2, hd2⟩⟩ := h2
  exact ⟨⟨a1 ++ a2, by rw [ha2, ha1, List.append_assoc]⟩,
    ⟨b1 ++ b2, by rw [hb2, hb1, List.append_assoc]⟩,
    ⟨c1 ++ c2, by rw [hc2, hc1, List.append_assoc]⟩,
    ⟨d1 ++ d2, by rw [hd2, hd1, List.append_assoc]⟩⟩

lemma dbGrows_of_tables_eq {db db' : Db} (h1 : db'.shows = db.shows)
    (h2 : db'.seasons = db.seasons) (h3 : db'.episodes = db.episodes)
    (h4 : db'.userShows = db.userShows) : DbGrows db db' :=
  ⟨⟨[], by simp [h1]⟩, ⟨[], by simp [h2]⟩, ⟨[], by simp [h3]⟩, ⟨[], by simp [h4]⟩⟩

lemma createEpisode_grow (sid : Nat) (pe : TraktEpisodeData) (db : Db) :
    ∃ l, (createEpisode sid pe db).episodes = db.episodes ++ l := by
  unfold createEpisode
  split
  · exact ⟨[], by simp⟩
  · exact ⟨_, rfl⟩

lemma createEpisodes_grow (sid : Nat) (eps : List TraktEpisodeData) :
    ∀ db : Db, ∃ l, (createEpisodes sid eps db).episodes = db.episodes ++ l := by
  induction eps with
  | nil => exact fun db => ⟨[], by simp [createEpisodes]⟩
  | cons pe rest ih =>
    intro db
    obtain ⟨l1, h1⟩ := createEpisode_grow sid pe db
    obtain ⟨l2, h2⟩ := ih (createEpisode sid pe db)
    exact ⟨l1 ++ l2, by
      show (createEpisodes sid rest (createEpisode sid pe db)).episodes = _
      rw [h2, h1, List.append_assoc]⟩

lemma processSeasons_grow (env : Env) (showId tSid : Nat)
    (pending : List TraktSeasonData) :
    ∀ db : Db, (∃ l, (processSeasons env showId tSid db pending).seasons = db.seasons ++ l) ∧
      (∃ l, (processSeasons env showId tSid db pending).episodes = db.episodes ++ l) := by
  induction pending with
  | nil => exact fun db => ⟨⟨[], by simp [processSeasons]⟩, ⟨[], by simp [processSeasons]⟩⟩
  | cons sd rest ih =>
    intro db
    by_cases hle : sd.number ≤ 0
    · rw [show processSeasons env showId tSid db (sd :: rest) =
        processSeasons env showId tSid db rest from by rw [processSeasons, if_pos hle]]
      exact ih db
    · cases hL : lookupSeason db sd.traktId showId sd.number with
      | none =>
        cases hf : env.getSeasonEpisodes tSid sd.number with
        | error e =>
          have hred : processSeasons env showId tSid db (sd :: rest) = db := by
            conv_lhs => rw [processSeasons]
            rw [if_neg hle, hL]
            show (match env.getSeasonEpisodes tSid sd.number with
              | .error _ => db
              | .ok traktSeason =>
                processSeasons env showId tSid
                  (createEpisodes (mkSeasonRow db.nextId showId sd traktSeason.length).id
                    traktSeason
                    { db with
                      seasons := db.seasons ++ [mkSeasonRow db.nextId showId sd
                        traktSeason.length]
                      nextId := db.nextId + 1 }) rest) = _
            rw [hf]
          rw [hred]
          exact ⟨⟨[], by simp⟩, ⟨[], by simp⟩⟩
        | ok l0 =>
          have hred : processSeasons env showId tSid db (sd :: rest) =
              processSeasons env showId tSid
                (createEpisodes db.nextId l0
                  { db with seasons := db.seasons ++ [mkSeasonRow db.nextId showId sd l0.length]
                            nextId := db.nextId + 1 }) rest := by
            conv_lhs => rw [processSeasons]
            rw [if_neg hle, hL]
            show (match env.getSeasonEpisodes tSid sd.number with
              | .error _ => db
              | .ok traktSeason =>
                processSeasons env showId tSid
                  (createEpisodes (mkSeasonRow db.nextId showId sd traktSeason.length).id
                    traktSeason
                    { db with
                      seasons := db.seasons ++ [mkSeasonRow db.nextId showId sd
                        traktSeason.length]
                      nextId := db.nextId + 1 }) rest) = _
            rw [hf]
            rfl
          rw [hred]
          set db1 : Db := { db with seasons := db.seasons ++
              [mkSeasonRow db.nextId showId sd l0.length], nextId := db.nextId + 1 } with hdb1
          obtain ⟨⟨ls, hs⟩, ⟨le, he⟩⟩ := ih (createEpisodes db.nextId l0 db1)
          obtain ⟨lm, hm⟩ := createEpisodes_grow db.nextId l0 db1
          refine ⟨⟨mkSeasonRow db.nextId showId sd l0.length :: ls, ?_⟩,
            ⟨lm ++ le, ?_⟩⟩
          · rw [hs, createEpisodes_seasons]
            show db.seasons ++ [mkSeasonRow db.nextId showId sd l0.length] ++ ls = _
            rw [List.append_assoc]
            rfl
          · rw [he, hm]
            show db.episodes ++ lm ++ le = _
            rw [List.append_assoc]
      | some r =>
        by_cases hc : (db.epCount r.id == 0) = true
        · cases hf : env.getSeasonEpisodes tSid sd.number with
          | error e =>
            have hred : processSeasons env showId tSid db (sd :: rest) = db := by
              conv_lhs => rw [processSeasons]
              rw [if_neg hle, hL]
              show (if (db.epCount r.id == 0) = true
                  then match env.getSeasonEpisodes tSid sd.number with
                    | .error _ => db
                    | .ok traktSeason =>
                      processSeasons env showId tSid (createEpisodes r.id traktSeason db) rest
                  else processSeasons env showId tSid db rest) = db
              rw [if_pos hc, hf]
            rw [hred]
            exact ⟨⟨[], by simp⟩, ⟨[], by simp⟩⟩
          | ok l0 =>
            have hred : processSeasons env showId tSid db (sd :: rest) =
                processSeasons env showId tSid (createEpisodes r.id l0 db) rest := by
              conv_lhs => rw [processSeasons]
              rw [if_neg hle, hL]
              show (if (db.epCount r.id == 0) = true
                  then match env.getSeasonEpisodes tSid sd.number with
                    | .error _ => db
                    | .ok traktSeason =>
                      processSeasons env showId tSid (createEpisodes r.id traktSeason db) rest
                  else processSeasons env showId tSid db rest) = _
              rw [if_pos hc, hf]
            rw [hred]
            obtain ⟨⟨ls, hs⟩, ⟨le, he⟩⟩ := ih (createEpisodes r.id l0 db)
            obtain ⟨lm, hm⟩ := createEpisodes_grow r.id l0 db
            refine ⟨⟨ls, by rw [hs, createEpisodes_seasons]⟩, ⟨lm ++ le, ?_⟩⟩
            rw [he, hm, List.append_assoc]
        · have hred : processSeasons env showId tSid db (sd :: rest) =
              processSeasons env showId tSid db rest := by
            conv_lhs => rw [processSeasons]
            rw [if_neg hle, hL]
            show (if (db.epCount r.id == 0) = true
                then match env.getSeasonEpisodes tSid sd.number with
                  | .error _ => db
                  | .ok traktSeason =>
                    processSeasons env showId tSid (createEpisodes r.id traktSeason db) rest
                else processSeasons env showId tSid db rest) = _
            rw [if_neg hc]
          rw [hred]
          exact ih db

lemma createAllShowEpisodes_grow (env : Env) (showId tSid : Nat) (db : Db) :
    (∃ l, (createAllShowEpisodes env showId tSid db).seasons = db.seasons ++ l) ∧
    (∃ l, (createAllShowEpisodes env showId tSid db).episodes = db.episodes ++ l) := by
  unfold createAllShowEpisodes
  cases hs : env.getShowSeasons tSid with
  | error e => exact ⟨⟨[], by simp⟩, ⟨[], by simp⟩⟩
  | ok sdata => exact processSeasons_grow env showId tSid sdata db

lemma epCount_ne_zero_mono {db db' : Db} {l : List EpisodeRow} (sid : Nat)
    (h : db'.episodes = db.episodes ++ l) (hne : db.epCount sid ≠ 0) :
    db'.epCount sid ≠ 0 := by
  rw [epCount_eq_epCountL, h, epCountL_append]
  rw [epCount_eq_epCountL] at hne
  omega

lemma createEpisode_count_ne_zero (sid : Nat) (pe : TraktEpisodeData) (db : Db) :
    (createEpisode sid pe db).epCount sid ≠ 0 := by
  unfold createEpisode
  split
  case isTrue h =>
    obtain ⟨e, he, hp⟩ := List.any_eq_true.mp h
    rw [epCount_eq_epCountL]
    intro h0
    rw [epCountL_zero_iff] at h0
    refine h0 e he ?_
    simp only [Bool.and_eq_true, beq_iff_eq] at hp
    exact hp.1
  case isFalse h =>
    show epCountL (db.episodes ++ [mkEpisodeRow db.nextId sid pe]) sid ≠ 0
    rw [epCountL_append]
    have : epCountL [mkEpisodeRow db.nextId sid pe] sid = 1 := by
      simp [epCountL, mkEpisodeRow]
    omega

lemma createEpisodes_count_ne_zero (sid : Nat) (eps : List TraktEpisodeData) (db : Db)
    (hne : eps ≠ []) : (createEpisodes sid eps db).epCount sid ≠ 0 := by
  cases eps with
  | nil => exact absurd rfl hne
  | cons pe rest =>
    show (createEpisodes sid rest (createEpisode sid pe db)).epCount sid ≠ 0
    obtain ⟨l, hl⟩ := createEpisodes_grow sid rest (createEpisode sid pe db)
    exact epCount_ne_zero_mono sid hl (createEpisode_count_ne_zero sid pe db)

/-- A provider season the populate pass no longer has anything to do for:
some Season row is found for it, and either that row already has episodes
or the provider reports none. -/
def PopEstablished (env : Env) (tSid showId : Nat) (db : Db)
    (sd : TraktSeasonData) : Prop :=
  ∃ r, lookupSeason db sd.traktId showId sd.number = some r ∧
    (db.epCount r.id ≠ 0 ∨ epsOf env tSid sd.number = [])

lemma popEstablished_mono {env : Env} {tSid showId : Nat} {db db' : Db}
    {sd : TraktSeasonData} (h : PopEstablished env tSid showId db sd)
    (hs : ∃ l, db'.seasons = db.seasons ++ l)
    (he : ∃ l, db'.episodes = db.episodes ++ l) :
    PopEstablished env tSid showId db' sd := by
  obtain ⟨r, hr, hcnt⟩ := h
  obtain ⟨ls, hls⟩ := hs
  obtain ⟨le, hle⟩ := he
  refine ⟨r, ?_, ?_⟩
  · unfold lookupSeason at hr ⊢
    rw [hls]
    exact find?_append_some _ hr
  · rcases hcnt with hne | hnil
    · exact Or.inl (epCount_ne_zero_mono r.id hle hne)
    · exact Or.inr hnil

/-- On a database where every pending non-special season is established, the
populate loop changes nothing at all. -/
lemma processSeasons_noop (env : Env) (showId tSid : Nat)
    (pending : List TraktSeasonData) :
    ∀ db : Db, (∀ sd ∈ pending, 0 < sd.number → PopEstablished env tSid showId db sd) →
      processSeasons env showId tSid db pending = db := by
  induction pending with
  | nil => exact fun db _ => rfl
  | cons sd rest ih =>
    intro db hest
    by_cases hle : sd.number ≤ 0
    · rw [show processSeasons env showId tSid db (sd :: rest) =
        processSeasons env showId tSid db rest from by rw [processSeasons, if_pos hle]]
      exact ih db fun x hx h0 => hest x (List.mem_cons_of_mem _ hx) h0
    · have hpos : 0 < sd.number := lt_of_not_le hle
      obtain ⟨r, hL, hcnt⟩ := hest sd (List.mem_cons_self ..) hpos
      conv_lhs => rw [processSeasons]
      rw [if_neg hle, hL]
      show (if (db.epCount r.id == 0) = true
          then match env.getSeasonEpisodes tSid sd.number with
            | .error _ => db
            | .ok traktSeason =>
              processSeasons env showId tSid (createEpisodes r.id traktSeason db) rest
          else processSeasons env showId tSid db rest) = db
      by_cases hc : (db.epCount r.id == 0) = true
      · have hc0 : db.epCount r.id = 0 := by simpa using hc
        rcases hcnt with hne | hnil
        · exact absurd hc0 hne
        · rw [if_pos hc]
          cases hf : env.getSeasonEpisodes tSid sd.number with
          | error e => rfl
          | ok l0 =>
            have hl0 : l0 = [] := by
              have := epsOf_of_ok hf
              rw [hnil] at this
              exact this.symm
            subst hl0
            show processSeasons env showId tSid (createEpisodes r.id [] db) rest = db
            show processSeasons env showId tSid db rest = db
            exact ih db fun x hx h0 => hest x (List.mem_cons_of_mem _ hx) h0
      · rw [if_neg hc]
        exact ih db fun x hx h0 => hest x (List.mem_cons_of_mem _ hx) h0

lemma mkSeasonRow_matches (id showId : Nat) (sd : TraktSeasonData) (c : Nat) :
    seasonMatches sd.traktId showId sd.number (mkSeasonRow id showId sd c) = true := by
  unfold seasonMatches mkSeasonRow
  cases htid : sd.traktId <;> simp [htid]

/-- One populate pass establishes every pending non-special season, provided
the per-season episode fetches succeed. -/
lemma processSeasons_establishes (env : Env) (showId tSid : Nat)
    (pending : List TraktSeasonData) :
    ∀ db : Db,
      (∀ sd ∈ pending, 0 < sd.number →
        exceptOkB (env.getSeasonEpisodes tSid sd.number) = true) →
      ∀ sd ∈ pending, 0 < sd.number →
        PopEstablished env tSid showId (processSeasons env showId tSid db pending) sd := by
  induction pending with
  | nil => exact fun db _ sd hsd => absurd hsd (List.not_mem_nil sd)
  | cons sd rest ih =>
    intro db hfetch x hx hxpos
    by_cases hle : sd.number ≤ 0
    · rw [show processSeasons env showId tSid db (sd :: rest) =
        processSeasons env showId tSid db rest from by rw [processSeasons, if_pos hle]]
      rcases List.mem_cons.mp hx with hh | hh
      · subst hh
        exact absurd hxpos (not_lt.mpr hle)
      · exact ih db (fun s hs h0 => hfetch s (List.mem_cons_of_mem _ hs) h0) x hh hxpos
    · have hpos : 0 < sd.number := lt_of_not_le hle
      obtain ⟨l0, hf⟩ := (exceptOkB_iff _).mp (hfetch sd (List.mem_cons_self ..) hpos)
      cases hL : lookupSeason db sd.traktId showId sd.number with
      | none =>
        have hred : processSeasons env showId tSid db (sd :: rest) =
            processSeasons env showId tSid
              (createEpisodes db.nextId l0
                { db with seasons := db.seasons ++ [mkSeasonRow db.nextId showId sd l0.length]
                          nextId := db.nextId + 1 }) rest := by
          conv_lhs => rw [processSeasons]
          rw [if_neg hle, hL]
          show (match env.getSeasonEpisodes tSid sd.number with
            | .error _ => db
            | .ok traktSeason =>
              processSeasons env showId tSid
                (createEpisodes (mkSeasonRow db.nextId showId sd traktSeason.length).id
                  traktSeason
                  { db with
                    seasons := db.seasons ++ [mkSeasonRow db.nextId showId sd
                      traktSeason.length]
                    nextId := db.nextId + 1 }) rest) = _
          rw [hf]
          rfl
        rw [hred]
        set sn : SeasonRow := mkSeasonRow db.nextId showId sd l0.length with hsn
        set db1 : Db := { db with seasons := db.seasons ++ [sn], nextId := db.nextId + 1 }
          with hdb1
        set dbM : Db := createEpisodes db.nextId l0 db1 with hdbM
        rcases List.mem_cons.mp hx with hh | hh
        · subst hh
          have hestM : PopEstablished env tSid showId dbM x := by
            refine ⟨sn, ?_, ?_⟩
            · unfold lookupSeason
              rw [show dbM.seasons = db.seasons ++ [sn] from by
                rw [hdbM, createEpisodes_seasons]]
              unfold lookupSeason at hL
              rw [find?_append_none _ hL]
              exact List.find?_cons_of_pos _ (mkSeasonRow_matches db.nextId showId x l0.length)
            · by_cases hl0 : l0 = []
              · exact Or.inr (by rw [epsOf_of_ok hf, hl0])
              · exact Or.inl (by
                  show dbM.epCount sn.id ≠ 0
                  rw [show sn.id = db.nextId from rfl]
                  exact createEpisodes_count_ne_zero db.nextId l0 db1 hl0)
          exact popEstablished_mono hestM (processSeasons_grow env showId tSid rest dbM).1
            (processSeasons_grow env showId tSid rest dbM).2
        · exact ih dbM (fun s hs h0 => hfetch s (List.mem_cons_of_mem _ hs) h0) x hh hxpos
      | some r =>
        by_cases hc : (db.epCount r.id == 0) = true
        · have hred : processSeasons env showId tSid db (sd :: rest) =
              processSeasons env showId tSid (createEpisodes r.id l0 db) rest := by
            conv_lhs => rw [processSeasons]
            rw [if_neg hle, hL]
            show (if (db.epCount r.id == 0) = true
                then match env.getSeasonEpisodes tSid sd.number with
                  | .error _ => db
                  | .ok traktSeason =>
                    processSeasons env showId tSid (createEpisodes r.id traktSeason db) rest
                else processSeasons env showId tSid db rest) = _
            rw [if_pos hc, hf]
          rw [hred]
          set dbM : Db := createEpisodes r.id l0 db with hdbM
          rcases List.mem_cons.mp hx with hh | hh
          · subst hh
            have hestM : PopEstablished env tSid showId dbM x := by
              refine ⟨r, ?_, ?_⟩
              · rw [hdbM, lookupSeason_seasons_eq (createEpisodes_seasons r.id l0 db)]
                exact hL
              · by_cases hl0 : l0 = []
                · exact Or.inr (by rw [epsOf_of_ok hf, hl0])
                · exact Or.inl (createEpisodes_count_ne_zero r.id l0 db hl0)
            exact popEstablished_mono hestM (processSeasons_grow env showId tSid rest dbM).1
              (processSeasons_grow env showId tSid rest dbM).2
          · exact ih dbM (fun s hs h0 => hfetch s (List.mem_cons_of_mem _ hs) h0) x hh hxpos
        · have hred : processSeasons env showId tSid db (sd :: rest) =
              processSeasons env showId tSid db rest := by
            conv_lhs => rw [processSeasons]
            rw [if_neg hle, hL]
            show (if (db.epCount r.id == 0) = true
                then match env.getSeasonEpisodes tSid sd.number with
                  | .error _ => db
                  | .ok traktSeason =>
                    processSeasons env showId tSid (createEpisodes r.id traktSeason db) rest
                else processSeasons env showId tSid db rest) = _
            rw [if_neg hc]
          rw [hred]
          rcases List.mem_cons.mp hx with hh | hh
          · subst hh
            have hestM : PopEstablished env tSid showId db x :=
              ⟨r, hL, Or.inl fun h0 => hc (by simp [h0])⟩
            exact popEstablished_mono hestM (processSeasons_grow env showId tSid rest db).1
              (processSeasons_grow env showId tSid rest db).2
          · exact ih db (fun s hs h0 => hfetch s (List.mem_cons_of_mem _ hs) h0) x hh hxpos


/-! ## C4 step 2: establishment at show and group level -/

/-- Every season the provider reports for this trakt show id is established
in `db`. -/
def ShowEstablished (env : Env) (tSid showId : Nat) (db : Db) : Prop :=
  ∀ sdata, env.getShowSeasons tSid = .ok sdata →
    ∀ sd ∈ sdata, 0 < sd.number → PopEstablished env tSid showId db sd

lemma showEstablished_mono {env : Env} {tSid showId : Nat} {db db' : Db}
    (h : ShowEstablished env tSid showId db)
    (hs : ∃ l, db'.seasons = db.seasons ++ l)
    (he : ∃ l, db'.episodes = db.episodes ++ l) :
    ShowEstablished env tSid showId db' :=
  fun sdata hsd sd hmem hpos => popEstablished_mono (h sdata hsd sd hmem hpos) hs he

lemma createAllShowEpisodes_noop {env : Env} {tSid showId : Nat} {db : Db}
    (h : ShowEstablished env tSid showId db) :
    createAllShowEpisodes env showId tSid db = db := by
  unfold createAllShowEpisodes
  cases hs : env.getShowSeasons tSid with
  | error e => rfl
  | ok sdata => exact processSeasons_noop env showId tSid sdata db (h sdata hs)

/-- All per-season episode fetches the environment can be asked for succeed
(for seasons the provider actually reports). -/
def FetchOk (env : Env) : Prop :=
  ∀ tSid : Nat, ∀ sd ∈ sdataOf env tSid, 0 < sd.number →
    exceptOkB (env.getSeasonEpisodes tSid sd.number) = true

lemma createAllShowEpisodes_establishes {env : Env} (tSid showId : Nat) (db : Db)
    (hfetch : FetchOk env) :
    ShowEstablished env tSid showId (createAllShowEpisodes env showId tSid db) := by
  intro sdata hs sd hmem hpos
  have hsd : sdataOf env tSid = sdata := by unfold sdataOf; rw [hs]
  have hred : createAllShowEpisodes env showId tSid db =
      processSeasons env showId tSid db sdata := by
    unfold createAllShowEpisodes
    rw [hs]
  rw [hred]
  exact processSeasons_establishes env showId tSid sdata db
    (by rw [← hsd] at *; exact fun s hsm h0 => hfetch tSid s hsm h0) sd hmem hpos

lemma ensureShow_find (env : Env) (t : TraktShow) (db : Db) :
    (ensureShow env t db).1.shows.find? (fun r => r.traktId == t.ids.trakt) =
      some (ensureShow env t db).2 := by
  unfold ensureShow
  cases h : db.shows.find? (fun r => r.traktId == t.ids.trakt) with
  | some srow => exact h
  | none =>
    show (db.shows ++ [_]).find? _ = _
    rw [find?_append_none _ h]
    exact List.find?_cons_of_pos _ (by simp)

lemma ensureShow_shows_grow (env : Env) (t : TraktShow) (db : Db) :
    ∃ l, (ensureShow env t db).1.shows = db.shows ++ l := by
  unfold ensureShow
  cases h : db.shows.find? (fun r => r.traktId == t.ids.trakt) with
  | some srow => exact ⟨[], by show db.shows = db.shows ++ []; simp⟩
  | none => exact ⟨_, rfl⟩

lemma ensureShow_grows (env : Env) (t : TraktShow) (db : Db) :
    DbGrows db (ensureShow env t db).1 :=
  ⟨ensureShow_shows_grow env t db, ⟨[], by rw [ensureShow_seasons]; simp⟩,
    ⟨[], by rw [ensureShow_episodes]; simp⟩, ⟨[], by rw [ensureShow_userShows]; simp⟩⟩

lemma ensureUserShow_finds (u : String) (sid : Nat) (db : Db) :
    ((ensureUserShow u sid db).userShows.find? fun r =>
      r.userId == u && r.showId == sid).isSome = true := by
  unfold ensureUserShow
  cases h : db.userShows.find? (fun r => r.userId == u && r.showId == sid) with
  | some row =>
    show (db.userShows.find? fun r => r.userId == u && r.showId == sid).isSome = true
    rw [h]
    rfl
  | none =>
    show ((db.userShows ++ [_]).find? fun r : UserShowRow =>
      r.userId == u && r.showId == sid).isSome = true
    rw [find?_append_none _ h, List.find?_cons_of_pos _ (by simp)]
    rfl

lemma ensureUserShow_noop {u : String} {sid : Nat} {db : Db}
    (h : (db.userShows.find? fun r => r.userId == u && r.showId == sid).isSome = true) :
    ensureUserShow u sid db = db := by
  unfold ensureUserShow
  obtain ⟨v, hv⟩ := Option.isSome_iff_exists.mp h
  rw [hv]

lemma ensureUserShow_grows (u : String) (sid : Nat) (db : Db) :
    DbGrows db (ensureUserShow u sid db) := by
  refine ⟨⟨[], by rw [ensureUserShow_shows]; simp⟩,
    ⟨[], by rw [ensureUserShow_seasons]; simp⟩,
    ⟨[], by rw [ensureUserShow_episodes]; simp⟩, ?_⟩
  unfold ensureUserShow
  cases h : db.userShows.find? (fun r => r.userId == u && r.showId == sid) with
  | some row => exact ⟨[], by show db.userShows = db.userShows ++ []; simp⟩
  | none => exact ⟨_, rfl⟩

lemma createAllShowEpisodes_grows (env : Env) (showId tSid : Nat) (db : Db) :
    DbGrows db (createAllShowEpisodes env showId tSid db) :=
  ⟨⟨[], by rw [createAllShowEpisodes_shows]; simp⟩,
    (createAllShowEpisodes_grow env showId tSid db).1,
    (createAllShowEpisodes_grow env showId tSid db).2,
    ⟨[], by rw [createAllShowEpisodes_userShows]; simp⟩⟩

lemma syncEpisodesFold_grows (now : Nat) (u : String) (sid : Nat)
    (eps : List PlexEpisode) (db : Db) :
    DbGrows db (eps.foldl (fun d pe => syncEpisode now u sid pe d) db) :=
  dbGrows_of_tables_eq (syncEpisodesFold_shows now u sid eps db)
    (syncEpisodesFold_seasons now u sid eps db)
    (syncEpisodesFold_episodes now u sid eps db)
    (syncEpisodesFold_userShows now u sid eps db)

/-- Everything a successful `syncShow` for this group guarantees afterwards:
the Show row is found by trakt id, the user's UserShow for it exists, and
every provider season of the show is fully established. -/
def GroupEstablished (env : Env) (userId : String) (db : Db)
    (g : String × List PlexEpisode) : Prop :=
  ∀ tshow, resolvedShow env g.1 g.2 = .ok tshow →
    ∃ srow, db.shows.find? (fun r => r.traktId == tshow.ids.trakt) = some srow ∧
      (db.userShows.find? fun r =>
        r.userId == userId && r.showId == srow.id).isSome = true ∧
      ShowEstablished env tshow.ids.trakt srow.id db

lemma groupEstablished_mono {env : Env} {userId : String} {db db' : Db}
    {g : String × List PlexEpisode} (hg : DbGrows db db')
    (h : GroupEstablished env userId db g) : GroupEstablished env userId db' g := by
  intro tshow hres
  obtain ⟨srow, h1, h2, h3⟩ := h tshow hres
  obtain ⟨⟨ls, hls⟩, hsg, heg, ⟨lu, hlu⟩⟩ := hg
  refine ⟨srow, ?_, ?_, showEstablished_mono h3 hsg heg⟩
  · rw [hls]
    exact find?_append_some _ h1
  · obtain ⟨v, hv⟩ := Option.isSome_iff_exists.mp h2
    rw [hlu, find?_append_some _ hv]
    rfl

/-- A successful `syncShow` on an already fully-established group leaves the
catalog, membership, integration tables and the id counter untouched. -/
lemma syncShow_noop {env : Env} {now : Nat} {userId title : String}
    {eps : List PlexEpisode} {db : Db} {tshow : TraktShow}
    (hres : resolvedShow env title eps = .ok tshow)
    (hest : GroupEstablished env userId db (title, eps)) :
    ∃ db', syncShow env now userId title eps db = .ok db' ∧
      db'.shows = db.shows ∧ db'.seasons = db.seasons ∧
      db'.episodes = db.episodes ∧ db'.userShows = db.userShows ∧
      db'.integrations = db.integrations ∧ db'.nextId = db.nextId := by
  obtain ⟨srow, hfind, hus, hse⟩ := hest tshow hres
  have hens : ensureShow env tshow db = (db, srow) := by
    unfold ensureShow
    rw [hfind]
  have hchain : syncShow env now userId title eps db =
      .ok (eps.foldl (fun d pe => syncEpisode now userId srow.id pe d) db) := by
    rw [syncShow_ok_of_resolved env now userId title eps db tshow hres, hens]
    dsimp only
    rw [ensureUserShow_noop hus, createAllShowEpisodes_noop hse]
  exact ⟨_, hchain, syncEpisodesFold_shows now userId srow.id eps db,
    syncEpisodesFold_seasons now userId srow.id eps db,
    syncEpisodesFold_episodes now userId srow.id eps db,
    syncEpisodesFold_userShows now userId srow.id eps db,
    syncEpisodesFold_integrations now userId srow.id eps db,
    syncEpisodesFold_nextId now userId srow.id eps db⟩

/-- A successful `syncShow` only grows the tables and establishes its own
group. -/
lemma syncShow_establishes {env : Env} {now : Nat} {userId title : String}
    {eps : List PlexEpisode} {db db' : Db} {tshow : TraktShow}
    (hres : resolvedShow env title eps = .ok tshow)
    (hok : syncShow env now userId title eps db = .ok db')
    (hfetch : FetchOk env) :
    GroupEstablished env userId db' (title, eps) ∧ DbGrows db db' := by
  have hchain := syncShow_ok_of_resolved env now userId title eps db tshow hres
  rw [hok] at hchain
  have hdb' : db' = (eps.foldl (fun d pe =>
      syncEpisode now userId (ensureShow env tshow db).2.id pe d)
    (createAllShowEpisodes env (ensureShow env tshow db).2.id tshow.ids.trakt
      (ensureUserShow userId (ensureShow env tshow db).2.id
        (ensureShow env tshow db).1))) := by
    injection hchain
  set p := ensureShow env tshow db with hp
  set dbB := ensureUserShow userId p.2.id p.1 with hdbB
  set dbC := createAllShowEpisodes env p.2.id tshow.ids.trakt dbB with hdbC
  have hgrowAll : DbGrows db db' := by
    rw [hdb']
    exact dbGrows_trans (ensureShow_grows env tshow db)
      (dbGrows_trans (ensureUserShow_grows userId p.2.id p.1)
        (dbGrows_trans (createAllShowEpisodes_grows env p.2.id tshow.ids.trakt dbB)
          (syncEpisodesFold_grows now userId p.2.id eps dbC)))
  refine ⟨?_, hgrowAll⟩
  intro tshow2 hres2
  rw [hres] at hres2
  have hts : tshow = tshow2 := by injection hres2
  subst hts
  refine ⟨p.2, ?_, ?_, ?_⟩
  · rw [hdb', syncEpisodesFold_shows, createAllShowEpisodes_shows, ensureUserShow_shows]
    exact ensureShow_find env tshow db
  · rw [hdb', syncEpisodesFold_userShows, createAllShowEpisodes_userShows]
    exact ensureUserShow_finds userId p.2.id p.1
  · have hC : ShowEstablished env tshow.ids.trakt p.2.id dbC :=
      createAllShowEpisodes_establishes tshow.ids.trakt p.2.id dbB hfetch
    refine showEstablished_mono hC ?_ ?_
    · rw [hdb', syncEpisodesFold_seasons]
      exact ⟨[], by simp⟩
    · rw [hdb', syncEpisodesFold_episodes]
      exact ⟨[], by simp⟩


/-! ## C4 step 3: group and library loops on an established database -/

lemma processGroups_cons_ok {env : Env} {now : Nat} {u title : String}
    {eps : List PlexEpisode} {db db1 : Db} {rest : List (String × List PlexEpisode)}
    (hss : syncShow env now u title eps db = .ok db1) :
    processGroups env now u ((title, eps) :: rest) db =
      ((processGroups env now u rest db1).1 + 1,
       (processGroups env now u rest db1).2.1 + eps.length,
       (processGroups env now u rest db1).2.2.1,
       (processGroups env now u rest db1).2.2.2) := by
  rw [processGroups, hss]

lemma processGroups_cons_err {env : Env} {now : Nat} {u title : String}
    {eps : List PlexEpisode} {db : Db} {rest : List (String × List PlexEpisode)} {msg : String}
    (hss : syncShow env now u title eps db = .error msg) :
    processGroups env now u ((title, eps) :: rest) db =
      ((processGroups env now u rest db).1,
       (processGroups env now u rest db).2.1,
       ("Failed to sync " ++ title ++ ": " ++ msg) :: (processGroups env now u rest db).2.2.1,
       (processGroups env now u rest db).2.2.2) := by
  rw [processGroups, hss]

lemma syncShow_grows {env : Env} {now : Nat} {u title : String}
    {eps : List PlexEpisode} {db db' : Db}
    (hok : syncShow env now u title eps db = .ok db') : DbGrows db db' := by
  cases hres : resolvedShow env title eps with
  | error m =>
    have h2 := (syncShow_error_iff env now u title eps db m).mpr hres
    rw [hok] at h2
    cases h2
  | ok tshow =>
    have hchain := syncShow_ok_of_resolved env now u title eps db tshow hres
    rw [hok] at hchain
    injection hchain with hdb'
    rw [hdb']
    exact dbGrows_trans (ensureShow_grows env tshow db)
      (dbGrows_trans (ensureUserShow_grows u (ensureShow env tshow db).2.id
          (ensureShow env tshow db).1)
        (dbGrows_trans (createAllShowEpisodes_grows env (ensureShow env tshow db).2.id
            tshow.ids.trakt _)
          (syncEpisodesFold_grows now u (ensureShow env tshow db).2.id eps _)))

lemma syncShow_integrations {env : Env} {now : Nat} {u title : String}
    {eps : List PlexEpisode} {db db' : Db}
    (hok : syncShow env now u title eps db = .ok db') :
    db'.integrations = db.integrations := by
  cases hres : resolvedShow env title eps with
  | error m =>
    have h2 := (syncShow_error_iff env now u title eps db m).mpr hres
    rw [hok] at h2
    cases h2
  | ok tshow =>
    have hchain := syncShow_ok_of_resolved env now u title eps db tshow hres
    rw [hok] at hchain
    injection hchain with hdb'
    rw [hdb', syncEpisodesFold_integrations, createAllShowEpisodes_integrations,
      ensureUserShow_integrations, ensureShow_integrations]

lemma processGroups_grow (env : Env) (now : Nat) (u : String)
    (gs : List (String × List PlexEpisode)) :
    ∀ db : Db, DbGrows db (processGroups env now u gs db).2.2.2 := by
  induction gs with
  | nil => exact fun db => dbGrows_refl db
  | cons g rest ih =>
    intro db
    obtain ⟨title, eps⟩ := g
    cases hsw : syncShow env now u title eps db with
    | ok db1 =>
      rw [processGroups_cons_ok hsw]
      exact dbGrows_trans (syncShow_grows hsw) (ih db1)
    | error msg =>
      rw [processGroups_cons_err hsw]
      exact ih db

lemma processGroups_integrations (env : Env) (now : Nat) (u : String)
    (gs : List (String × List PlexEpisode)) :
    ∀ db : Db, (processGroups env now u gs db).2.2.2.integrations = db.integrations := by
  induction gs with
  | nil => exact fun db => rfl
  | cons g rest ih =>
    intro db
    obtain ⟨title, eps⟩ := g
    cases hsw : syncShow env now u title eps db with
    | ok db1 =>
      rw [processGroups_cons_ok hsw]
      exact (ih db1).trans (syncShow_integrations hsw)
    | error msg =>
      rw [processGroups_cons_err hsw]
      exact ih db

lemma processGroups_establishes (env : Env) (now : Nat) (u : String)
    (gs : List (String × List PlexEpisode)) :
    ∀ db : Db, FetchOk env → ∀ g ∈ gs,
      GroupEstablished env u (processGroups env now u gs db).2.2.2 g := by
  induction gs with
  | nil => exact fun db _ g hg => absurd hg (List.not_mem_nil g)
  | cons g0 rest ih =>
    intro db hfetch g hg
    obtain ⟨title, eps⟩ := g0
    cases hsw : syncShow env now u title eps db with
    | ok db1 =>
      rw [processGroups_cons_ok hsw]
      rcases List.mem_cons.mp hg with hh | hh
      · subst hh
        cases hres : resolvedShow env title eps with
        | error m =>
          have h2 := (syncShow_error_iff env now u title eps db m).mpr hres
          rw [hsw] at h2
          cases h2
        | ok tshow =>
          obtain ⟨hestAt, _⟩ := syncShow_establishes hres hsw hfetch
          exact groupEstablished_mono (processGroups_grow env now u rest db1) hestAt
      · exact ih db1 hfetch g hh
    | error msg =>
      rw [processGroups_cons_err hsw]
      rcases List.mem_cons.mp hg with hh | hh
      · subst hh
        intro tshow hres
        have hres2 : resolvedShow env title eps = .ok tshow := hres
        have h2 := (syncShow_error_iff env now u title eps db msg).mp hsw
        rw [h2] at hres2
        cases hres2
      · exact ih db hfetch g hh

lemma processGroups_noop (env : Env) (now : Nat) (u : String)
    (gs : List (String × List PlexEpisode)) :
    ∀ db : Db, (∀ g ∈ gs, GroupEstablished env u db g) →
      (processGroups env now u gs db).2.2.2.shows = db.shows ∧
      (processGroups env now u gs db).2.2.2.seasons = db.seasons ∧
      (processGroups env now u gs db).2.2.2.episodes = db.episodes ∧
      (processGroups env now u gs db).2.2.2.userShows = db.userShows := by
  induction gs with
  | nil => exact fun db _ => ⟨rfl, rfl, rfl, rfl⟩
  | cons g0 rest ih =>
    intro db hest
    obtain ⟨title, eps⟩ := g0
    cases hres : resolvedShow env title eps with
    | error m =>
      have hsw : syncShow env now u title eps db = .error m :=
        (syncShow_error_iff env now u title eps db m).mpr hres
      rw [processGroups_cons_err hsw]
      exact ih db fun g hg => hest g (List.mem_cons_of_mem _ hg)
    | ok tshow =>
      obtain ⟨db1, hok, t1, t2, t3, t4, _, _⟩ :=
        syncShow_noop hres (hest (title, eps) (List.mem_cons_self ..))
      rw [processGroups_cons_ok hok]
      have hest1 : ∀ g ∈ rest, GroupEstablished env u db1 g := fun g hg =>
        groupEstablished_mono (dbGrows_of_tables_eq t1 t2 t3 t4)
          (hest g (List.mem_cons_of_mem _ hg))
      obtain ⟨s1, s2, s3, s4⟩ := ih db1 hest1
      exact ⟨s1.trans t1, s2.trans t2, s3.trans t3, s4.trans t4⟩

lemma processLibraries_cons_err {env : Env} {now : Nat} {u su tok : String}
    {lib : PlexLibrary} {rest : List PlexLibrary} {db : Db} {e : String}
    (hw : env.getWatchedEpisodes su tok lib.key = .error e) :
    processLibraries env now u su tok (lib :: rest) db =
      ((processLibraries env now u su tok rest db).1,
       (processLibraries env now u su tok rest db).2.1,
       ("Failed to process library " ++ lib.title ++ ": " ++ e) ::
         (processLibraries env now u su tok rest db).2.2.1,
       (processLibraries env now u su tok rest db).2.2.2) := by
  rw [processLibraries, hw]

lemma processLibraries_cons_ok {env : Env} {now : Nat} {u su tok : String}
    {lib : PlexLibrary} {rest : List PlexLibrary} {db : Db} {eps : List PlexEpisode}
    (hw : env.getWatchedEpisodes su tok lib.key = .ok eps) :
    processLibraries env now u su tok (lib :: rest) db =
      ((processGroups env now u (groupByShow eps) db).1 +
         (processLibraries env now u su tok rest
           (processGroups env now u (groupByShow eps) db).2.2.2).1,
       (processGroups env now u (groupByShow eps) db).2.1 +
         (processLibraries env now u su tok rest
           (processGroups env now u (groupByShow eps) db).2.2.2).2.1,
       (processGroups env now u (groupByShow eps) db).2.2.1 ++
         (processLibraries env now u su tok rest
           (processGroups env now u (groupByShow eps) db).2.2.2).2.2.1,
       (processLibraries env now u su tok rest
         (processGroups env now u (groupByShow eps) db).2.2.2).2.2.2) := by
  rw [processLibraries, hw]

lemma processLibraries_grow (env : Env) (now : Nat) (u su tok : String)
    (libs : List PlexLibrary) :
    ∀ db : Db, DbGrows db (processLibraries env now u su tok libs db).2.2.2 := by
  induction libs with
  | nil => exact fun db => dbGrows_refl db
  | cons lib rest ih =>
    intro db
    cases hw : env.getWatchedEpisodes su tok lib.key with
    | error e =>
      rw [processLibraries_cons_err hw]
      exact ih db
    | ok eps =>
      rw [processLibraries_cons_ok hw]
      exact dbGrows_trans (processGroups_grow env now u (groupByShow eps) db)
        (ih (processGroups env now u (groupByShow eps) db).2.2.2)

lemma processLibraries_integrations (env : Env) (now : Nat) (u su tok : String)
    (libs : List PlexLibrary) :
    ∀ db : Db, (processLibraries env now u su tok libs db).2.2.2.integrations =
      db.integrations := by
  induction libs with
  | nil => exact fun db => rfl
  | cons lib rest ih =>
    intro db
    cases hw : env.getWatchedEpisodes su tok lib.key with
    | error e =>
      rw [processLibraries_cons_err hw]
      exact ih db
    | ok eps =>
      rw [processLibraries_cons_ok hw]
      exact (ih (processGroups env now u (groupByShow eps) db).2.2.2).trans
        (processGroups_integrations env now u (groupByShow eps) db)

lemma processLibraries_establishes (env : Env) (now : Nat) (u su tok : String)
    (libs : List PlexLibrary) :
    ∀ db : Db, FetchOk env → ∀ lib ∈ libs, ∀ watched,
      env.getWatchedEpisodes su tok lib.key = .ok watched →
      ∀ g ∈ groupByShow watched,
        GroupEstablished env u (processLibraries env now u su tok libs db).2.2.2 g := by
  induction libs with
  | nil => exact fun db _ lib hlib => absurd hlib (List.not_mem_nil lib)
  | cons lib0 rest ih =>
    intro db hfetch lib hlib watched hwd g hg
    cases hw : env.getWatchedEpisodes su tok lib0.key with
    | error e =>
      rw [processLibraries_cons_err hw]
      rcases List.mem_cons.mp hlib with hh | hh
      · subst hh
        rw [hw] at hwd
        cases hwd
      · exact ih db hfetch lib hh watched hwd g hg
    | ok eps0 =>
      rw [processLibraries_cons_ok hw]
      rcases List.mem_cons.mp hlib with hh | hh
      · subst hh
        rw [hw] at hwd
        injection hwd with hwd'
        subst hwd'
        exact groupEstablished_mono
          (processLibraries_grow env now u su tok rest
            (processGroups env now u (groupByShow eps0) db).2.2.2)
          (processGroups_establishes env now u (groupByShow eps0) db hfetch g hg)
      · exact ih (processGroups env now u (groupByShow eps0) db).2.2.2 hfetch lib hh
          watched hwd g hg

lemma processLibraries_noop (env : Env) (now : Nat) (u su tok : String)
    (libs : List PlexLibrary) :
    ∀ db : Db,
      (∀ lib ∈ libs, ∀ watched, env.getWatchedEpisodes su tok lib.key = .ok watched →
        ∀ g ∈ groupByShow watched, GroupEstablished env u db g) →
      (processLibraries env now u su tok libs db).2.2.2.shows = db.shows ∧
      (processLibraries env now u su tok libs db).2.2.2.seasons = db.seasons ∧
      (processLibraries env now u su tok libs db).2.2.2.episodes = db.episodes ∧
      (processLibraries env now u su tok libs db).2.2.2.userShows = db.userShows := by
  induction libs with
  | nil => exact fun db _ => ⟨rfl, rfl, rfl, rfl⟩
  | cons lib0 rest ih =>
    intro db hest
    cases hw : env.getWatchedEpisodes su tok lib0.key with
    | error e =>
      rw [processLibraries_cons_err hw]
      exact ih db fun lib hlib => hest lib (List.mem_cons_of_mem _ hlib)
    | ok eps0 =>
      rw [processLibraries_cons_ok hw]
      obtain ⟨t1, t2, t3, t4⟩ := processGroups_noop env now u (groupByShow eps0) db
        (hest lib0 (List.mem_cons_self ..) eps0 hw)
      have hest1 : ∀ lib ∈ rest, ∀ watched,
          env.getWatchedEpisodes su tok lib.key = .ok watched →
          ∀ g ∈ groupByShow watched,
            GroupEstablished env u (processGroups env now u (groupByShow eps0) db).2.2.2 g :=
        fun lib hlib watched hwd g hg =>
          groupEstablished_mono (dbGrows_of_tables_eq t1 t2 t3 t4)
            (hest lib (List.mem_cons_of_mem _ hlib) watched hwd g hg)
      obtain ⟨s1, s2, s3, s4⟩ := ih (processGroups env now u (groupByShow eps0) db).2.2.2 hest1
      exact ⟨s1.trans t1, s2.trans t2, s3.trans t3, s4.trans t4⟩


/-! ## C4 step 4: the full orchestrator run -/

lemma updateIntegration_shows (id now : Nat) (db : Db) :
    (updateIntegrationLastSync id now db).shows = db.shows := rfl

lemma updateIntegration_seasons (id now : Nat) (db : Db) :
    (updateIntegrationLastSync id now db).seasons = db.seasons := rfl

lemma updateIntegration_episodes (id now : Nat) (db : Db) :
    (updateIntegrationLastSync id now db).episodes = db.episodes := rfl

lemma updateIntegration_userShows (id now : Nat) (db : Db) :
    (updateIntegrationLastSync id now db).userShows = db.userShows := rfl

lemma updateIntegration_find (id now : Nat) (db : Db) (u : String) :
    (updateIntegrationLastSync id now db).integrations.find?
      (fun i => i.userId == u && i.provider == "plex") =
    (db.integrations.find? fun i => i.userId == u && i.provider == "plex").map
      (fun i => if i.id == id then { i with lastSync := some now } else i) := by
  unfold updateIntegrationLastSync
  exact find?_map_of_pred_inv _ _ fun i => by split <;> rfl

lemma syncPlex_ok_intro {env : Env} {now : Nat} {u : String} {db : Db}
    {integ : IntegrationRow} {tok : String} {libs : List PlexLibrary}
    (hI : db.integrations.find? (fun i => i.userId == u && i.provider == "plex") =
      some integ)
    (hEn : integ.enabled = true)
    (hD : env.decryptToken integ.accessToken = .ok tok)
    (hTV : env.getTVLibraries integ.serverUrl tok = .ok libs)
    (hL : ¬ libs.length = 0) :
    syncPlexToDatabase env now u db = .ok
      ({ showsSynced := (processLibraries env now u integ.serverUrl tok libs db).1
         episodesSynced := (processLibraries env now u integ.serverUrl tok libs db).2.1
         errors := (processLibraries env now u integ.serverUrl tok libs db).2.2.1 },
        updateIntegrationLastSync integ.id now
          (processLibraries env now u integ.serverUrl tok libs db).2.2.2) := by
  unfold syncPlexToDatabase
  simp only [hI]
  rw [hEn]
  simp only [Bool.not_true, Bool.false_eq_true, if_false]
  rw [hD]
  dsimp only
  rw [hTV]
  dsimp only
  rw [if_neg (show ¬ (libs.length == 0) = true by simpa using hL)]

lemma syncPlex_ok_elim {env : Env} {now : Nat} {u : String} {db : Db}
    {r1 : SyncResult} {db1 : Db}
    (h1 : syncPlexToDatabase env now u db = .ok (r1, db1)) :
    ∃ integ tok libs,
      db.integrations.find? (fun i => i.userId == u && i.provider == "plex") =
        some integ ∧
      integ.enabled = true ∧
      env.decryptToken integ.accessToken = .ok tok ∧
      env.getTVLibraries integ.serverUrl tok = .ok libs ∧
      ¬ libs.length = 0 ∧
      r1 = { showsSynced := (processLibraries env now u integ.serverUrl tok libs db).1
             episodesSynced := (processLibraries env now u integ.serverUrl tok libs db).2.1
             errors := (processLibraries env now u integ.serverUrl tok libs db).2.2.1 } ∧
      db1 = updateIntegrationLastSync integ.id now
        (processLibraries env now u integ.serverUrl tok libs db).2.2.2 := by
  unfold syncPlexToDatabase at h1
  cases hI : db.integrations.find? (fun i => i.userId == u && i.provider == "plex") with
  | none =>
    rw [hI] at h1
    simp at h1
  | some integ =>
    simp only [hI] at h1
    cases hEn : integ.enabled with
    | false =>
      rw [hEn] at h1
      simp at h1
    | true =>
      rw [hEn] at h1
      simp only [Bool.not_true, Bool.false_eq_true, if_false] at h1
      cases hD : env.decryptToken integ.accessToken with
      | error e0 =>
        rw [hD] at h1
        simp at h1
      | ok tok =>
        rw [hD] at h1
        dsimp only at h1
        cases hTV : env.getTVLibraries integ.serverUrl tok with
        | error eL =>
          rw [hTV] at h1
          simp at h1
        | ok libs =>
          rw [hTV] at h1
          dsimp only at h1
          by_cases hL : (libs.length == 0) = true
          · rw [if_pos hL] at h1
            simp at h1
          · rw [if_neg hL] at h1
            rw [Except.ok.injEq, Prod.mk.injEq] at h1
            exact ⟨integ, tok, libs, rfl, hEn, hD, hTV, by simpa using hL,
              h1.1.symm, h1.2.symm⟩

/-- **C4.**  Idempotence of a second run: if `syncPlexToDatabase` succeeded
once and every per-season episode fetch the provider can be asked for
succeeds, then a second run over the database the first run left behind
also succeeds, reports the same `showsSynced` and `episodesSynced` counts
(and error list), and leaves the Show, Season, Episode and UserShow tables
exactly as they were — zero new rows. -/
theorem runSync_idempotent (env : Env) (now1 now2 : Nat) (userId : String) (db : Db)
    (r1 : SyncResult) (db1 : Db)
    (hfetch : FetchOk env)
    (h1 : syncPlexToDatabase env now1 userId db = .ok (r1, db1)) :
    ∃ r2 db2, syncPlexToDatabase env now2 userId db1 = .ok (r2, db2) ∧
      r2.showsSynced = r1.showsSynced ∧ r2.episodesSynced = r1.episodesSynced ∧
      r2.errors = r1.errors ∧
      db2.shows = db1.shows ∧ db2.seasons = db1.seasons ∧
      db2.episodes = db1.episodes ∧ db2.userShows = db1.userShows := by
  obtain ⟨integ, tok, libs, hI, hEn, hD, hTV, hL, hr1, hdb1⟩ := syncPlex_ok_elim h1
  have hIntTab : db1.integrations = db.integrations.map
      (fun i => if i.id == integ.id then { i with lastSync := some now1 } else i) := by
    rw [hdb1]
    show (processLibraries env now1 userId integ.serverUrl tok
      libs db).2.2.2.integrations.map _ = _
    rw [processLibraries_integrations]
  have hfind2 : db1.integrations.find?
      (fun i => i.userId == userId && i.provider == "plex") =
      some { integ with lastSync := some now1 } := by
    rw [hIntTab, find?_map_of_pred_inv _ _
      (fun i => by split <;> rfl), hI]
    simp
  have hEn2 : ({ integ with lastSync := some now1 } : IntegrationRow).enabled = true := hEn
  have hD2 : env.decryptToken
      ({ integ with lastSync := some now1 } : IntegrationRow).accessToken = .ok tok := hD
  have hTV2 : env.getTVLibraries
      ({ integ with lastSync := some now1 } : IntegrationRow).serverUrl tok = .ok libs := hTV
  have ht1 : db1.shows = (processLibraries env now1 userId integ.serverUrl tok
      libs db).2.2.2.shows := by rw [hdb1]; rfl
  have ht2 : db1.seasons = (processLibraries env now1 userId integ.serverUrl tok
      libs db).2.2.2.seasons := by rw [hdb1]; rfl
  have ht3 : db1.episodes = (processLibraries env now1 userId integ.serverUrl tok
      libs db).2.2.2.episodes := by rw [hdb1]; rfl
  have ht4 : db1.userShows = (processLibraries env now1 userId integ.serverUrl tok
      libs db).2.2.2.userShows := by rw [hdb1]; rfl
  have hest1 : ∀ lib ∈ libs, ∀ watched,
      env.getWatchedEpisodes
        ({ integ with lastSync := some now1 } : IntegrationRow).serverUrl tok lib.key =
        .ok watched →
      ∀ g ∈ groupByShow watched, GroupEstablished env userId db1 g :=
    fun lib hlib watched hwd g hg =>
      groupEstablished_mono (dbGrows_of_tables_eq ht1 ht2 ht3 ht4)
        (processLibraries_establishes env now1 userId integ.serverUrl tok
          libs db hfetch lib hlib watched hwd g hg)
  obtain ⟨n1, n2, n3, n4⟩ := processLibraries_noop env now2 userId
    ({ integ with lastSync := some now1 } : IntegrationRow).serverUrl tok libs db1 hest1
  have h3 := (processLibraries_counts env now2 userId
      ({ integ with lastSync := some now1 } : IntegrationRow).serverUrl tok libs db1).trans
    (processLibraries_counts env now1 userId integ.serverUrl tok libs db).symm
  rw [Prod.mk.injEq, Prod.mk.injEq] at h3
  obtain ⟨e1, e2, e3⟩ := h3
  refine ⟨_, _, syncPlex_ok_intro hfind2 hEn2 hD2 hTV2 hL, ?_, ?_, ?_, ?_, ?_, ?_, ?_⟩
  · rw [hr1]
    exact e1
  · rw [hr1]
    exact e2
  · rw [hr1]
    exact e3
  · exact n1
  · exact n2
  · exact n3
  · exact n4

/-- All of `sampleEnv`'s season-episode fetches succeed. -/
lemma sampleEnv_fetchOk : FetchOk sampleEnv := by
  intro tSid sd _ _
  show exceptOkB (if tSid = 500 ∧ sd.number = 1 then Except.ok alphaS1Eps
    else if tSid = 500 ∧ sd.number = 2 then Except.ok alphaS2Eps
    else if tSid = 600 ∧ sd.number = 1 then Except.ok gammaS1Eps
    else Except.ok []) = true
  split
  · rfl
  · split
    · rfl
    · split
      · rfl
      · rfl

theorem runSync_idempotent_witness :
    ∃ r2 db2, syncPlexToDatabase sampleEnv 1000 "u" sampleRun1Db = .ok (r2, db2) ∧
      r2.showsSynced = 2 ∧ r2.episodesSynced = 3 ∧
      db2.shows = sampleRun1Db.shows ∧ db2.seasons = sampleRun1Db.seasons ∧
      db2.episodes = sampleRun1Db.episodes ∧ db2.userShows = sampleRun1Db.userShows := by
  obtain ⟨r2, db2, hok, hs, he, _herr, t1, t2, t3, t4⟩ :=
    runSync_idempotent sampleEnv 999 1000 "u" sampleDb
      { showsSynced := 2, episodesSynced := 3,
        errors := ["Failed to sync Beta: Could not find show on Trakt: Beta"] }
      sampleRun1Db sampleEnv_fetchOk (by decide)
  exact ⟨r2, db2, hok, by rw [hs], by rw [he], t1, t2, t3, t4⟩

end EpisodeTracker
